import Mathlib

/-!
# Material UI menu driver: entry layout, scroll clamping and hit-testing

A shallow embedding of the layout engine of `menu/drivers/materialui.c`.

Modelling conventions.

* C `float` values are exact rationals (`ℚ`): no rounding, no NaN, no infinity.
* `unsigned` values are natural numbers; where the C code computes in
  `unsigned` arithmetic the result is reduced modulo `2 ^ 32` (see `u32`).
* A pointer that may be `NULL` is an `Option`; a function that dereferences a
  null pointer, divides by zero, or otherwise has no defined result returns
  `none`.
* A C string is a `List Char`; it ends at the first NUL character or at the end
  of the list.
* Functions of the program that live outside `materialui.c` (the entry provider,
  `word_wrap`, the display metrics, the tween driver) are fields of `menu_env`.
-/

set_option autoImplicit false

namespace MaterialUI

/-! ## Machine arithmetic -/

/-- The value of an integer expression evaluated in 32-bit `unsigned` arithmetic. -/
def u32 (z : Int) : Nat := (z % 4294967296).toNat

/-- Conversion of an unsigned quantity to `int` (two's complement, 32 bit). -/
def to_int (n : Nat) : Int :=
  if n % 4294967296 < 2147483648 then (n % 4294967296 : Nat) else ((n % 4294967296 : Nat) : Int) - 4294967296

/-! ## Data model -/

/-- Font handle `font_data_t`; only its `size` field is read by the layout code. -/
structure font_data_t where
  size : ℚ
deriving DecidableEq, Repr

/-- This struct holds the y position and the line height for each menu entry. -/
structure mui_node_t where
  line_height : ℚ
  y : ℚ
  texture_switch_set : Bool
  texture_switch : Nat
  texture_switch2_set : Bool
  texture_switch2 : Nat
  switch_is_on : Bool
  do_draw_text : Bool
deriving DecidableEq, Repr

/-- The `categories` member of `mui_handle_t`. -/
structure mui_categories_t where
  active_idx : Nat
  active_idx_old : Nat
  x_pos : ℚ
  selection_ptr_old : Nat
  selection_ptr : Nat
deriving DecidableEq, Repr

/-- The menu handle `mui_handle_t` (raster blocks and the texture background are
not represented; no modelled function reads them). -/
structure mui_handle_t where
  tabs_height : Nat
  line_height : Nat
  shadow_height : Nat
  scrollbar_width : Nat
  icon_size : Nat
  margin : Nat
  glyph_width : Nat
  glyph_width2 : Nat
  box_message : List Char
  mouse_show : Bool
  frame_count : Nat
  cursor_size : Int
  textures_arrow_alpha : ℚ
  textures_list : List Nat
  categories : mui_categories_t
  font : Option font_data_t
  font2 : Option font_data_t
  scroll_y : ℚ
deriving DecidableEq, Repr

/-- The user data of the slots of a `file_list_t`: one optional node per entry. -/
abbrev file_list_t := List (Option mui_node_t)

/-- Modelled from the spec: the entry provider's `entryCount()`, in the code
`menu_entries_get_size()` and `menu_entries_get_end()` (both defined outside
`materialui.c`), is the number of entries of the selection buffer. The loops
`for (i = 0; i < entries_end; i++)` of the driver therefore visit every slot of the
list once, in index order. -/
def menu_entries_get_size (list : file_list_t) : Nat :=
  list.length

/-- The collaborators of the menu driver that are not part of `materialui.c`. -/
structure menu_env where
  /-- Result of `menu_display_get_dpi()`. -/
  dpi : ℚ
  /-- Result of `menu_entry_get_sublabel(i, ...)`: the sublabel of entry `i`, or `none`
  when the call returns `false`. -/
  menu_entry_get_sublabel : Nat → Option (List Char)
  /-- The library routine `word_wrap(dst, src, line_width, unicode)` with `unicode = false`. -/
  word_wrap : List Char → Int → List Char
  /-- Width reported by `video_driver_get_size`. -/
  width : Nat
  /-- Height reported by `video_driver_get_size`. -/
  height : Nat
  /-- Result of `menu_display_get_header_height()`. -/
  header_height : Nat
  /-- The setting `settings->bools.menu_pointer_enable`. -/
  menu_pointer_enable : Bool
  /-- The setting `settings->bools.menu_mouse_enable`. -/
  menu_mouse_enable : Bool
  /-- Result of `menu_input_pointer_state(MENU_POINTER_Y_AXIS)`, an `int16_t`. -/
  pointer_y : Int
  /-- Result of `menu_input_mouse_state(MENU_MOUSE_Y_AXIS)`, an `int16_t`. -/
  mouse_y : Int
  /-- Effect of `menu_animation_update` on its only subject in this driver, `scroll_y`
  (the identity when no tween is active or no ideal delta time is available). -/
  menu_animation_update : ℚ → ℚ
  /-- The value a `float` to `unsigned` conversion produces when the truncated value is
  not representable (the C standard leaves it undefined; any value may result). -/
  float_to_unsigned_undefined : ℚ → Nat
  /-- Whether `calloc` returns a node. -/
  calloc_succeeds : Bool
  /-- The icon chosen by the `switch (type)` cascade of `mui_list_insert`, as an index
  into `textures.list`, or `none` when no case applies (the `FILE_TYPE_*` constants and
  `msg_hash_to_str` are declared outside `materialui.c`). -/
  list_insert_icon : Nat → List Char → Option Nat
  /-- Result of `file_path_str` for the log tags (info, warning, error). -/
  file_path_str_log_info : List Char
  /-- Result of `file_path_str(FILE_PATH_LOG_ERROR)`. -/
  file_path_str_log_error : List Char

/-- The static variables of `verbosity.c`. The stream behind `log_file` is the list of
chunks written to it so far; `none` is a null `FILE` pointer. -/
structure verbosity_t where
  log_file : Option (List (List Char))
  main_verbosity : Bool
  log_file_initialized : Bool
deriving DecidableEq, Repr

/-- The state the driver callbacks act on: the handle (possibly null), the
selection buffer of the entry provider, and the input and navigation variables owned
by the collaborators. -/
structure menu_state where
  /-- The driver user data. -/
  mui : Option mui_handle_t
  /-- The list returned by `menu_entries_get_selection_buf_ptr(0)`. -/
  selection_buf : file_list_t
  /-- The index written by `MENU_INPUT_CTL_POINTER_PTR`. -/
  pointer_ptr : Nat
  /-- The index written by `MENU_INPUT_CTL_MOUSE_PTR`. -/
  mouse_ptr : Nat
  /-- The value behind `MENU_INPUT_CTL_POINTER_ACCEL_READ` and `..._WRITE`. -/
  pointer_accel : ℚ
  /-- The index written by `MENU_ENTRIES_CTL_SET_START`. -/
  entries_start : Nat
  /-- The index behind `menu_navigation_get_selection` and `..._set_selection`. -/
  selection : Nat

/-! ## Layout computation -/

/-- The loop of `mui_count_lines`: `lines += (str[c] == newline)` until `str[c]` is NUL. -/
def mui_count_lines_loop : List Char → Nat → Nat
  | [], lines => lines
  | c :: str, lines =>
    if c.toNat = 0 then lines
    else mui_count_lines_loop str (lines + (if c.toNat = 10 then 1 else 0))

/-- Used for the sublabels: `mui_count_lines`. -/
def mui_count_lines (str : List Char) : Nat :=
  mui_count_lines_loop str 1

/-- The value of `lines` for entry `i` in the body of the loop of
`mui_compute_entries_box`: 0 when `menu_entry_get_sublabel` returns `false`, otherwise
the line count of the sublabel wrapped to `usable_width / glyph_width2` columns.
`none` when that division is by zero. -/
def mui_sublabel_lines (env : menu_env) (mui : mui_handle_t) (usable_width : Nat)
    (i : Nat) : Option Nat :=
  match env.menu_entry_get_sublabel i with
  | some sublabel_str =>
    if mui.glyph_width2 = 0 then none
    else some (mui_count_lines
      (env.word_wrap sublabel_str (to_int (usable_width / mui.glyph_width2))))
  | none => some 0

/-- The `for` loop of `mui_compute_entries_box`, at index `i` with running `sum`.
`none` when a slot has no node, when the font is missing, or when a sublabel has to
be wrapped with `glyph_width2 = 0`. -/
def mui_compute_entries_box_loop (env : menu_env) (mui : mui_handle_t)
    (usable_width : Nat) (scale_factor : ℚ) :
    Nat → ℚ → file_list_t → Option file_list_t
  | _, _, [] => some []
  | _, _, none :: _ => none
  | i, sum, some node :: rest => do
    let lines ← mui_sublabel_lines env mui usable_width i
    let font ← mui.font
    let line_height : ℚ := scale_factor / 3 + (lines : ℚ) * font.size
    let rest' ← mui_compute_entries_box_loop env mui usable_width scale_factor
      (i + 1) (sum + line_height) rest
    some (some { node with line_height := line_height, y := sum } :: rest')

/-- Compute the line height for each menu entries: `mui_compute_entries_box`. -/
def mui_compute_entries_box (env : menu_env) (mui : mui_handle_t) (width : Int)
    (list : file_list_t) : Option file_list_t :=
  let usable_width : Nat := u32 (width - ((mui.margin * 2 : Nat) : Int))
  mui_compute_entries_box_loop env mui usable_width env.dpi 0 0 list

/-- The `for` loop of `mui_content_height` with running `sum`. -/
def mui_content_height_loop : ℚ → file_list_t → Option ℚ
  | sum, [] => some sum
  | _, none :: _ => none
  | sum, some node :: rest => mui_content_height_loop (sum + node.line_height) rest

/-- Compute the total height of the scrollable content: `mui_content_height`. -/
def mui_content_height (list : file_list_t) : Option ℚ :=
  mui_content_height_loop 0 list

/-! ## Hit-testing -/

/-- The condition tested for every node by the scans of `mui_render`,
`mui_pointer_down` and `mui_pointer_up`:
`y > (-scroll_y + header_height + node->y) && y < (... + node->line_height)`. -/
def mui_entry_hit (scroll_y : ℚ) (header_height : Nat) (y : Int) (node : mui_node_t) : Bool :=
  decide ((y : ℚ) > -scroll_y + (header_height : ℚ) + node.y)
    && decide ((y : ℚ) < -scroll_y + (header_height : ℚ) + node.y + node.line_height)

/-- The scan loop of `mui_render` (pointer and mouse) and of `mui_pointer_down`, at
index `ii`: every node that passes the test overwrites the index `ptr` kept by the
collaborator (there is no `break`). `none` when a slot has no node. -/
def mui_scan_loop (scroll_y : ℚ) (header_height : Nat) (y : Int) :
    Nat → Nat → file_list_t → Option Nat
  | _, ptr, [] => some ptr
  | _, _, none :: _ => none
  | ii, ptr, some node :: rest =>
    mui_scan_loop scroll_y header_height y (ii + 1)
      (if mui_entry_hit scroll_y header_height y node then ii else ptr) rest

/-- The scan loop of `mui_pointer_up`, at index `ii`: returns `some (some ii)` when the
select action of entry `ii` is triggered (the node passes the test, `ptr == ii` and the
callback `action_select` is set), `some none` when the loop ends without it. -/
def mui_pointer_up_loop (scroll_y : ℚ) (header_height : Nat) (y : Int) (ptr : Nat)
    (action_select : Bool) : Nat → file_list_t → Option (Option Nat)
  | _, [] => some none
  | _, none :: _ => none
  | ii, some node :: rest =>
    if mui_entry_hit scroll_y header_height y node && decide (ptr = ii) && action_select then
      some (some ii)
    else mui_pointer_up_loop scroll_y header_height y ptr action_select (ii + 1) rest

/-! ## Rendering pass and scroll clamping -/

/-- Conversion of a `float` to `unsigned`: truncation toward zero when the truncated
value is representable, an unspecified 32-bit value otherwise. -/
def float_to_unsigned (env : menu_env) (v : ℚ) : Nat :=
  if -1 < v ∧ v < 4294967296 then ⌊v⌋₊ else env.float_to_unsigned_undefined v % 4294967296

/-- The three statements that end `mui_render`, for a content height already computed. -/
def mui_render_clamp (env : menu_env) (content_height : ℚ)
    (height header_height tabs_height : Nat) (scroll_y : ℚ) : ℚ :=
  let scroll_y1 : ℚ := if scroll_y < 0 then 0 else scroll_y
  let bottom : Nat := float_to_unsigned env
    (content_height - (height : ℚ) + (header_height : ℚ) + (tabs_height : ℚ))
  let scroll_y2 : ℚ := if scroll_y1 > (bottom : ℚ) then (bottom : ℚ) else scroll_y1
  if content_height < ((u32 ((height : Int) - (header_height : Int) - (tabs_height : Int)) : Nat) : ℚ)
  then 0 else scroll_y2

/-- Called on each frame: `mui_render`. -/
def mui_render (env : menu_env) (st : menu_state) : Option menu_state :=
  match st.mui with
  | none => some st
  | some mui => do
    let list ← mui_compute_entries_box env mui (to_int env.width) st.selection_buf
    let scroll_y0 : ℚ := env.menu_animation_update mui.scroll_y
    let header_height := env.header_height
    let (scroll_y1, pointer_ptr, pointer_accel) ←
      if env.menu_pointer_enable then do
        let ptr ← mui_scan_loop scroll_y0 header_height env.pointer_y 0 st.pointer_ptr list
        let old_accel_val := st.pointer_accel
        some (scroll_y0 - old_accel_val, ptr, old_accel_val * (96 / 100 : ℚ))
      else some (scroll_y0, st.pointer_ptr, st.pointer_accel)
    let mouse_ptr ←
      if env.menu_mouse_enable then
        mui_scan_loop scroll_y1 header_height env.mouse_y 0 st.mouse_ptr list
      else some st.mouse_ptr
    let content_height ← mui_content_height list
    let scroll_y := mui_render_clamp env content_height env.height header_height
      mui.tabs_height scroll_y1
    some { st with
      mui := some { mui with scroll_y := scroll_y }
      selection_buf := list
      pointer_ptr := pointer_ptr
      mouse_ptr := mouse_ptr
      pointer_accel := pointer_accel
      entries_start := 0 }

/-! ## Pointer press -/

/-- The pointer or the mouse is pressed down: `mui_pointer_down`. Returns the state
after the call (the C function always returns 0). The comparison
`ptr <= (entries_end - 1)` is evaluated in `size_t`, taken as 64 bits wide. -/
def mui_pointer_down (env : menu_env) (st : menu_state) (y : Nat) (ptr : Nat) :
    Option menu_state :=
  match st.mui with
  | none => some st
  | some mui =>
    let entries_end := menu_entries_get_size st.selection_buf
    let header_height := env.header_height
    if y < header_height then some st
    else if y > u32 ((env.height : Int) - (mui.tabs_height : Int)) then some st
    else if ptr ≤ (((entries_end : Int) - 1) % 18446744073709551616).toNat then do
      let selection ← mui_scan_loop mui.scroll_y header_height y 0 st.selection
        st.selection_buf
      some { st with selection := selection }
    else some st

/-! ## Logging (`verbosity.c`) -/

/-- The logger `RARCH_LOG_V`, for a message that is already formatted. `none` when the
stream pointer is null while verbosity is enabled. -/
def RARCH_LOG_V (env : menu_env) (v : verbosity_t) (tag : Option (List Char))
    (msg : List Char) : Option verbosity_t :=
  if !v.main_verbosity then some v
  else
    match v.log_file with
    | none => none
    | some fp =>
      some { v with
        log_file := some (fp ++ [(tag.getD env.file_path_str_log_info) ++ [' '], msg]) }

/-- The logger `RARCH_ERR_V`. -/
def RARCH_ERR_V (env : menu_env) (v : verbosity_t) (tag : Option (List Char))
    (msg : List Char) : Option verbosity_t :=
  RARCH_LOG_V env v tag msg

/-- The logger `RARCH_ERR`, for a message that is already formatted. -/
def RARCH_ERR (env : menu_env) (v : verbosity_t) (msg : List Char) : Option verbosity_t :=
  RARCH_ERR_V env v (some env.file_path_str_log_error) msg

/-! ## Node creation -/

/-- The node `mui_list_insert` stores: the fields assigned after allocation and the
icon chosen by the `switch (type)` cascade. -/
def mui_list_insert_node (env : menu_env) (mui : mui_handle_t) (node : mui_node_t)
    (label : List Char) (type : Nat) : mui_node_t :=
  let scale_factor := env.dpi
  let node1 : mui_node_t :=
    { node with
      line_height := scale_factor / 3
      y := 0
      texture_switch_set := false
      texture_switch2_set := false
      texture_switch := 0
      texture_switch2 := 0
      switch_is_on := false
      do_draw_text := false }
  match env.list_insert_icon type label with
  | some icon =>
    { node1 with texture_switch2 := mui.textures_list.getD icon 0, texture_switch2_set := true }
  | none => node1

/-- The node returned by `calloc(1, sizeof(mui_node_t))`: all bytes zero. -/
def mui_node_zero : mui_node_t :=
  { line_height := 0, y := 0, texture_switch_set := false, texture_switch := 0,
    texture_switch2_set := false, texture_switch2 := 0, switch_is_on := false,
    do_draw_text := false }

/-- Allocates the node of a new entry: `mui_list_insert`. The result is the list and
the logger state after the call; `none` when the slot index is outside the list or the
error message cannot be written. -/
def mui_list_insert (env : menu_env) (userdata : Option mui_handle_t)
    (list : Option file_list_t) (label : List Char) (list_size : Nat) (type : Nat)
    (v : verbosity_t) : Option (Option file_list_t × verbosity_t) :=
  match userdata, list with
  | none, _ => some (list, v)
  | some _, none => some (list, v)
  | some mui, some l =>
    let i := list_size
    match l.get? i with
    | none => none
    | some slot =>
      let node : Option mui_node_t :=
        match slot with
        | some n => some n
        | none => if env.calloc_succeeds then some mui_node_zero else none
      match node with
      | none =>
        (RARCH_ERR env v "GLUI node could not be allocated.\n".toList).map
          (fun v1 => (list, v1))
      | some n => some (some (l.set i (some (mui_list_insert_node env mui n label type))), v)

/-! ## Specification-side definitions -/

/-- Nodes laid out without gaps from offset `s`: every node starts where the previous
one ends. -/
def contiguous_from : ℚ → List mui_node_t → Prop
  | _, [] => True
  | s, n :: rest => n.y = s ∧ contiguous_from (s + n.line_height) rest

/-- The font `mui_render_label_value` passes to `menu_display_draw_text` when it draws
the sublabel of an entry. -/
def mui_sublabel_draw_font (mui : mui_handle_t) : Option font_data_t :=
  mui.font2

/-- The number of newline characters of a C string (up to its terminating NUL). -/
def newline_count (str : List Char) : Nat :=
  ((str.takeWhile (fun c => c.toNat ≠ 0)).filter (fun c => c.toNat = 10)).length

/-- The hit-test as the specification words it: scan the nodes in index order, the
first match wins; `none` is the "no entry" result. -/
def hit_test_first_match (scroll_y : ℚ) (header_height : Nat) (y : Int) :
    Nat → List mui_node_t → Option Nat
  | _, [] => none
  | ii, node :: rest =>
    if mui_entry_hit scroll_y header_height y node then some ii
    else hit_test_first_match scroll_y header_height y (ii + 1) rest

/-! ## Concrete states used as instances -/

/-- A handle with entry font size 16 and sublabel font size 12. -/
def example_mui : mui_handle_t :=
  { tabs_height := 0, line_height := 48, shadow_height := 4, scrollbar_width := 4,
    icon_size := 48, margin := 16, glyph_width := 12, glyph_width2 := 9,
    box_message := [], mouse_show := false, frame_count := 0, cursor_size := 0,
    textures_arrow_alpha := 0, textures_list := [],
    categories := { active_idx := 0, active_idx_old := 0, x_pos := 0,
                    selection_ptr_old := 0, selection_ptr := 0 },
    font := some { size := 16 }, font2 := some { size := 12 }, scroll_y := 999 }

/-- A handle whose two fonts both have size 12. -/
def example_mui12 : mui_handle_t :=
  { example_mui with font := some { size := 12 } }

/-- An environment at 144 dpi, 800 by 200 pixels, header height 40, in which no entry
has a sublabel and pointer and mouse input are disabled. -/
def example_env : menu_env :=
  { dpi := 144, menu_entry_get_sublabel := fun _ => none, word_wrap := fun str _ => str,
    width := 800, height := 200, header_height := 40,
    menu_pointer_enable := false, menu_mouse_enable := false,
    pointer_y := 0, mouse_y := 0, menu_animation_update := fun scroll_y => scroll_y,
    float_to_unsigned_undefined := fun _ => 0, calloc_succeeds := true,
    list_insert_icon := fun _ _ => none,
    file_path_str_log_info := "[INFO]".toList, file_path_str_log_error := "[ERROR]".toList }

/-- The environment `example_env` in which entry 2 has a sublabel of three lines. -/
def example_env_sublabel : menu_env :=
  { example_env with
    menu_entry_get_sublabel := fun i =>
      if i = 2 then some ['a', Char.ofNat 10, 'b', Char.ofNat 10, 'c'] else none }

/-- A selection buffer of five entries with freshly allocated nodes. -/
def example_list : file_list_t :=
  [some mui_node_zero, some mui_node_zero, some mui_node_zero, some mui_node_zero,
   some mui_node_zero]

/-- The menu state made of `example_mui` and `example_list`. -/
def example_state : menu_state :=
  { mui := some example_mui, selection_buf := example_list, pointer_ptr := 0,
    mouse_ptr := 0, pointer_accel := 0, entries_start := 0, selection := 0 }

/-- The environment `example_env` at 144.3 dpi: every row is 48.1 high. -/
def example_env_fractional : menu_env :=
  { example_env with dpi := 1443 / 10 }

/-- The environment `example_env` at 114 dpi: every row is 38 high. -/
def example_env_short : menu_env :=
  { example_env with dpi := 114 }

/-- The environment `example_env` with a viewport 400 pixels high. -/
def example_env_tall : menu_env :=
  { example_env with height := 400 }

/-- The scroll position `mui_render` hands to its final clamp: the position left by
the tween driver, minus the drag acceleration when pointer input is enabled. -/
def mui_render_pre_clamp (env : menu_env) (st : menu_state) (mui : mui_handle_t) : ℚ :=
  if env.menu_pointer_enable then env.menu_animation_update mui.scroll_y - st.pointer_accel
  else env.menu_animation_update mui.scroll_y

/-- Five nodes of height `h` laid out without gaps from offset 0. -/
def example_nodes (h : ℚ) : List mui_node_t :=
  [{ mui_node_zero with line_height := h, y := 0 },
   { mui_node_zero with line_height := h, y := h },
   { mui_node_zero with line_height := h, y := 2 * h },
   { mui_node_zero with line_height := h, y := 3 * h },
   { mui_node_zero with line_height := h, y := 4 * h }]

/-- The layout `mui_render` leaves for the five-entry list when every row is `h` high. -/
def example_layout (h : ℚ) : file_list_t :=
  (example_nodes h).map some

/-! ## Pointer release and tab switching -/

/-- The value of an integer expression evaluated in `size_t` arithmetic, taken as 64
bits wide. -/
def size_t_val (z : Int) : Nat := (z % 18446744073709551616).toNat

/-- The first tab of the menu, `MUI_SYSTEM_TAB_MAIN`. -/
def MUI_SYSTEM_TAB_MAIN : Nat := 0

/-- The second tab of the menu, `MUI_SYSTEM_TAB_PLAYLISTS`. -/
def MUI_SYSTEM_TAB_PLAYLISTS : Nat := 1

/-- The third tab of the menu, `MUI_SYSTEM_TAB_SETTINGS`. -/
def MUI_SYSTEM_TAB_SETTINGS : Nat := 2

/-- The last tab, `MUI_SYSTEM_TAB_END`. -/
def MUI_SYSTEM_TAB_END : Nat := MUI_SYSTEM_TAB_SETTINGS

/-- The menu actions `mui_pointer_up` passes to `menu_entry_action`. -/
inductive menu_action where
  | MENU_ACTION_CANCEL
  | MENU_ACTION_SELECT
deriving DecidableEq, Repr

/-- An item of the menu stack: the members `label` and `type` of a `file_list_t` item. -/
structure menu_stack_item where
  label : Option (List Char)
  type : Nat
deriving DecidableEq, Repr

/-- The labels and list types `mui_preswitch_tabs` stores; `msg_hash_to_str` and the
`MENU_*` enumerators are declared outside `materialui.c`. -/
structure menu_tab_consts where
  /-- Result of `msg_hash_to_str(MENU_ENUM_LABEL_MAIN_MENU)`. -/
  label_main_menu : List Char
  /-- Result of `msg_hash_to_str(MENU_ENUM_LABEL_PLAYLISTS_TAB)`. -/
  label_playlists_tab : List Char
  /-- Result of `msg_hash_to_str(MENU_ENUM_LABEL_SETTINGS_TAB)`. -/
  label_settings_tab : List Char
  /-- The enumerator `MENU_SETTINGS`. -/
  MENU_SETTINGS : Nat
  /-- The enumerator `MENU_PLAYLISTS_TAB`. -/
  MENU_PLAYLISTS_TAB : Nat

/-- The members of `menu_file_list_cbs_t` the driver tests: whether each callback
pointer is set. -/
structure menu_file_list_cbs_t where
  action_select : Bool
  action_content_list_switch : Bool
deriving DecidableEq, Repr

/-- The expression `mui_pointer_up` returns through. -/
inductive mui_pointer_up_return where
  /-- The statement `return 0`. -/
  | zero
  /-- The statement `return menu_entry_action(entry, i, action)`. -/
  | menu_entry_action (i : Nat) (action : menu_action)
  /-- The statement `return cbs->action_content_list_switch(...)`. -/
  | action_content_list_switch
deriving DecidableEq, Repr

/-- Called before we push the new list after clicking on a tab: `mui_preswitch_tabs`.
The result is the menu stack after the call; `none` when the stack is empty (the item
at `stack_size - 1` does not exist). -/
def mui_preswitch_tabs (consts : menu_tab_consts) (mui : Option mui_handle_t)
    (_action : Nat) (menu_stack : List menu_stack_item) : Option (List menu_stack_item) :=
  match mui with
  | none => some menu_stack
  | some mui =>
    match menu_stack.getLast? with
    | none => none
    | some top =>
      let top1 : menu_stack_item := { top with label := none }
      let top2 : menu_stack_item :=
        if mui.categories.selection_ptr = MUI_SYSTEM_TAB_MAIN then
          { label := some consts.label_main_menu, type := consts.MENU_SETTINGS }
        else if mui.categories.selection_ptr = MUI_SYSTEM_TAB_PLAYLISTS then
          { label := some consts.label_playlists_tab, type := consts.MENU_PLAYLISTS_TAB }
        else if mui.categories.selection_ptr = MUI_SYSTEM_TAB_SETTINGS then
          { label := some consts.label_settings_tab, type := consts.MENU_SETTINGS }
        else top1
      some (menu_stack.dropLast ++ [top2])

/-- The tab loop of `mui_pointer_up`, `for (i = 0; i <= MUI_SYSTEM_TAB_END; i++)`, over
the remaining values of `i`. -/
def mui_pointer_up_tabs (consts : menu_tab_consts) (width x action : Nat)
    (cbs : Option menu_file_list_cbs_t) :
    List Nat → mui_handle_t → List menu_stack_item →
      Option (mui_handle_t × List menu_stack_item × mui_pointer_up_return)
  | [], mui, menu_stack => some (mui, menu_stack, mui_pointer_up_return.zero)
  | i :: rest, mui, menu_stack =>
    let tab_width : Nat := width / (MUI_SYSTEM_TAB_END + 1)
    let start : Nat := (tab_width * i) % 4294967296
    if start ≤ x ∧ x < (start + tab_width) % 4294967296 then
      let mui1 : mui_handle_t :=
        { mui with categories := { mui.categories with selection_ptr := i } }
      match mui_preswitch_tabs consts (some mui1) action menu_stack with
      | none => none
      | some menu_stack1 =>
        if (match cbs with
            | some c => c.action_content_list_switch
            | none => false) then
          some (mui1, menu_stack1, mui_pointer_up_return.action_content_list_switch)
        else mui_pointer_up_tabs consts width x action cbs rest mui1 menu_stack1
    else mui_pointer_up_tabs consts width x action cbs rest mui menu_stack

/-- The pointer or the left mouse button has been released: `mui_pointer_up`. The
result is the state and the menu stack after the call and the expression returned;
`none` when a slot scanned has no node or the menu stack is empty on a tab switch. -/
def mui_pointer_up (env : menu_env) (consts : menu_tab_consts) (st : menu_state)
    (menu_stack : List menu_stack_item) (x y ptr : Nat)
    (cbs : Option menu_file_list_cbs_t) (action : Nat) :
    Option (menu_state × List menu_stack_item × mui_pointer_up_return) :=
  match st.mui with
  | none => some (st, menu_stack, mui_pointer_up_return.zero)
  | some mui =>
    let entries_end := menu_entries_get_size st.selection_buf
    let header_height := env.header_height
    if y < header_height then
      some (st, menu_stack,
        mui_pointer_up_return.menu_entry_action (st.selection % 4294967296)
          menu_action.MENU_ACTION_CANCEL)
    else if y > u32 ((env.height : Int) - (mui.tabs_height : Int)) then
      (mui_pointer_up_tabs consts env.width x action cbs
        [MUI_SYSTEM_TAB_MAIN, MUI_SYSTEM_TAB_PLAYLISTS, MUI_SYSTEM_TAB_SETTINGS]
        mui menu_stack).map
        (fun r => ({ st with mui := some r.1 }, r.2.1, r.2.2))
    else if ptr ≤ size_t_val ((entries_end : Int) - 1) then
      (mui_pointer_up_loop mui.scroll_y header_height y ptr
        (match cbs with
         | some c => c.action_select
         | none => false) 0 st.selection_buf).map
        (fun r =>
          match r with
          | some ii =>
            (st, menu_stack,
              mui_pointer_up_return.menu_entry_action (ii % 4294967296)
                menu_action.MENU_ACTION_SELECT)
          | none => (st, menu_stack, mui_pointer_up_return.zero))
    else some (st, menu_stack, mui_pointer_up_return.zero)

/-! ## Calls issued to the input collaborator by a frame -/

/-- The calls `mui_render` makes to `menu_input_ctl`. -/
inductive menu_input_ctl_call where
  | MENU_INPUT_CTL_POINTER_PTR (ii : Nat)
  | MENU_INPUT_CTL_MOUSE_PTR (ii : Nat)
  | MENU_INPUT_CTL_POINTER_ACCEL_READ
  | MENU_INPUT_CTL_POINTER_ACCEL_WRITE (new_accel_val : ℚ)
deriving DecidableEq, Repr

/-- The indices a scan loop of `mui_render` reports, in the order of the calls: one
for every node that passes the test. `none` when a slot has no node. -/
def mui_scan_hits (scroll_y : ℚ) (header_height : Nat) (y : Int) :
    Nat → file_list_t → Option (List Nat)
  | _, [] => some []
  | _, none :: _ => none
  | ii, some node :: rest =>
    (mui_scan_hits scroll_y header_height y (ii + 1) rest).map
      (fun hits => if mui_entry_hit scroll_y header_height y node then ii :: hits else hits)

/-- The sequence of `menu_input_ctl` calls of one `mui_render` frame, in program order.
`none` in the cases in which `mui_render` has no result. -/
def mui_render_input_ctl (env : menu_env) (st : menu_state) :
    Option (List menu_input_ctl_call) :=
  match st.mui with
  | none => some []
  | some mui => do
    let list ← mui_compute_entries_box env mui (to_int env.width) st.selection_buf
    let scroll_y0 : ℚ := env.menu_animation_update mui.scroll_y
    let header_height := env.header_height
    let pointer_calls ←
      if env.menu_pointer_enable then
        (mui_scan_hits scroll_y0 header_height env.pointer_y 0 list).map
          (fun hits =>
            hits.map menu_input_ctl_call.MENU_INPUT_CTL_POINTER_PTR
              ++ [menu_input_ctl_call.MENU_INPUT_CTL_POINTER_ACCEL_READ,
                  menu_input_ctl_call.MENU_INPUT_CTL_POINTER_ACCEL_WRITE
                    (st.pointer_accel * (96 / 100 : ℚ))])
      else some []
    let scroll_y1 : ℚ :=
      if env.menu_pointer_enable then scroll_y0 - st.pointer_accel else scroll_y0
    let mouse_calls ←
      if env.menu_mouse_enable then
        (mui_scan_hits scroll_y1 header_height env.mouse_y 0 list).map
          (fun hits => hits.map menu_input_ctl_call.MENU_INPUT_CTL_MOUSE_PTR)
      else some []
    let _content_height ← mui_content_height list
    some (pointer_calls ++ mouse_calls)

/-! ## Scroll to the selection -/

/-- Compute the scroll value depending on the highlighted entry: `mui_get_scroll`, for
the selection index returned by `menu_navigation_get_selection()`. -/
def mui_get_scroll (env : menu_env) (mui : Option mui_handle_t) (selection : Nat) : ℚ :=
  match mui with
  | none => 0
  | some mui =>
    let height := env.height
    let half : Nat := if mui.line_height ≠ 0 then (height / mui.line_height) / 3 else 0
    if selection < half then 0
    else
      ((size_t_val ((size_t_val ((selection : Int) + 2 - (half : Int)) : Int)
        * (mui.line_height : Int)) : Nat) : ℚ)

/-- The subject of a tween: the address of a `float` owned by the driver. A node is
identified by the index of the slot that holds it. -/
inductive menu_animation_subject where
  /-- The address `&mui->scroll_y`. -/
  | scroll_y
  /-- The address `&node->line_height` of the node of slot `i`. -/
  | node_line_height (i : Nat)
  /-- The address `&node->y` of the node of slot `i`. -/
  | node_y (i : Nat)
deriving DecidableEq, Repr

/-- The easing the driver requests. -/
inductive menu_animation_easing_type where
  | EASING_IN_OUT_QUAD
deriving DecidableEq, Repr

/-- The tween request `menu_animation_ctx_entry_t`; `cb` is whether a callback is set. -/
structure menu_animation_ctx_entry_t where
  duration : ℚ
  target_value : ℚ
  subject : Option menu_animation_subject
  easing_enum : menu_animation_easing_type
  tag : Int
  cb : Bool
deriving DecidableEq, Repr

/-- The navigation pointer has been updated: `mui_navigation_set`. The result is the
handle after the call and the requests passed to `menu_animation_push`, in order. -/
def mui_navigation_set (env : menu_env) (data : Option mui_handle_t) (selection : Nat)
    (scroll : Bool) : Option mui_handle_t × List menu_animation_ctx_entry_t :=
  let scroll_pos : ℚ :=
    match data with
    | some mui => mui_get_scroll env (some mui) selection
    | none => 0
  match data with
  | none => (data, [])
  | some mui =>
    if !scroll then (some mui, [])
    else
      let entry : menu_animation_ctx_entry_t :=
        { duration := 10, target_value := scroll_pos,
          subject := some menu_animation_subject.scroll_y,
          easing_enum := menu_animation_easing_type.EASING_IN_OUT_QUAD,
          tag := -1, cb := false }
      if entry.subject.isSome then (some mui, [entry]) else (some mui, [])

/-- A new list had been pushed: `mui_populate_entries`. -/
def mui_populate_entries (env : menu_env) (st : menu_state) : menu_state :=
  match st.mui with
  | none => st
  | some mui =>
    { st with mui := some { mui with scroll_y := mui_get_scroll env (some mui) st.selection } }

/-! ## Clearing the list -/

/-- Modelled from the spec: the tween driver's `animate(subject, target, duration,
easing)`, in the code `menu_animation_push` (defined outside `materialui.c`), adds the
request to the driver's active set. -/
def menu_animation_push (active : List menu_animation_ctx_entry_t)
    (entry : menu_animation_ctx_entry_t) : List menu_animation_ctx_entry_t :=
  active ++ [entry]

/-- Modelled from the spec: the tween driver's `cancelAnimationsOn(subject
pointers...)`, in the code `menu_animation_ctl(MENU_ANIMATION_CTL_KILL_BY_SUBJECT,
...)` (defined outside `materialui.c`), removes from the active set every request
whose subject is one of the given addresses. -/
def menu_animation_kill_by_subject (active : List menu_animation_ctx_entry_t)
    (subjects : List menu_animation_subject) : List menu_animation_ctx_entry_t :=
  active.filter (fun entry =>
    match entry.subject with
    | some s => !(subjects.contains s)
    | none => true)

/-- The calls `mui_list_clear` makes to its collaborators. -/
inductive mui_list_clear_call where
  /-- The call `menu_animation_ctl(MENU_ANIMATION_CTL_KILL_BY_SUBJECT, &subject)` with
  `subject.data` holding the given addresses. -/
  | MENU_ANIMATION_CTL_KILL_BY_SUBJECT (subjects : List menu_animation_subject)
  /-- The call `file_list_free_userdata(list, i)`, which releases the node of slot `i`
  and leaves the slot empty. -/
  | file_list_free_userdata (i : Nat)
deriving DecidableEq, Repr

/-- The `for` loop of `mui_list_clear` at index `i`: the list, the active set of the
tween driver and the calls made, after the loop. -/
def mui_list_clear_loop :
    Nat → file_list_t → List menu_animation_ctx_entry_t →
      file_list_t × List menu_animation_ctx_entry_t × List mui_list_clear_call
  | _, [], active => ([], active, [])
  | i, none :: rest, active =>
    let r := mui_list_clear_loop (i + 1) rest active
    (none :: r.1, r.2.1, r.2.2)
  | i, some _ :: rest, active =>
    let subjects : List menu_animation_subject :=
      [menu_animation_subject.node_line_height i, menu_animation_subject.node_y i]
    let r := mui_list_clear_loop (i + 1) rest (menu_animation_kill_by_subject active subjects)
    (none :: r.1, r.2.1,
      mui_list_clear_call.MENU_ANIMATION_CTL_KILL_BY_SUBJECT subjects
        :: mui_list_clear_call.file_list_free_userdata i :: r.2.2)

/-- Clearing the current menu list: `mui_list_clear`. `none` when the list pointer is
null (`list->size` is read first). -/
def mui_list_clear (list : Option file_list_t) (active : List menu_animation_ctx_entry_t) :
    Option (file_list_t × List menu_animation_ctx_entry_t × List mui_list_clear_call) :=
  match list with
  | none => none
  | some l => some (mui_list_clear_loop 0 l active)

/-- The threshold count of the scroll-to-selection heuristic as `mui_get_scroll`
computes it: `(height / line_height) / 3` in unsigned division, 0 when `line_height`
is 0. -/
def mui_scroll_half (height line_height : Nat) : Nat :=
  if line_height = 0 then 0 else (height / line_height) / 3

/-- The calls `mui_list_clear` is expected to make for slot `i`: for a slot holding a
node, the cancellation of the tweens on that node's `line_height` and `y`, then the
release of its user data; nothing for an empty slot. -/
def list_clear_slot_calls (i : Nat) (slot : Option mui_node_t) : List mui_list_clear_call :=
  match slot with
  | some _ =>
    [mui_list_clear_call.MENU_ANIMATION_CTL_KILL_BY_SUBJECT
        [menu_animation_subject.node_line_height i, menu_animation_subject.node_y i],
     mui_list_clear_call.file_list_free_userdata i]
  | none => []

/-- A logger state with verbosity enabled and an empty open log stream. -/
def example_verbosity : verbosity_t :=
  { log_file := some [], main_verbosity := true, log_file_initialized := true }

/-- A list whose slot 1 has no node yet. -/
def example_list_hole : file_list_t :=
  [some mui_node_zero, none, some mui_node_zero]

/-- The environment `example_env` in which `calloc` fails. -/
def example_env_no_memory : menu_env :=
  { example_env with calloc_succeeds := false }

/-- The environment `example_env` with pointer input enabled and the pointer at
y = 20, inside the header band. -/
def example_env_hover : menu_env :=
  { example_env with menu_pointer_enable := true, pointer_y := 20 }

/-- The five-entry state scrolled by 30, with drag acceleration 10 and the hover index
at 7. -/
def example_state_hover : menu_state :=
  { example_state with
    mui := some { example_mui with scroll_y := 30 }
    pointer_ptr := 7
    pointer_accel := 10 }

/-- The five-entry state at the top of the list (scroll_y = 0). -/
def example_state_top : menu_state :=
  { example_state with mui := some { example_mui with scroll_y := 0 } }

/-- An environment whose viewport, 30 pixels high, is lower than the tab bar; the
header is 10 pixels high. -/
def example_env_low : menu_env :=
  { example_env with height := 30, header_height := 10 }

/-- A handle with a tab bar 48 pixels high, at the top of the list. -/
def example_mui_tabs : mui_handle_t :=
  { example_mui with tabs_height := 48, scroll_y := 0 }

/-- The laid-out five-entry list with entry 3 selected and the handle
`example_mui_tabs`. -/
def example_state_tabs : menu_state :=
  { example_state with
    mui := some example_mui_tabs
    selection_buf := example_layout 48
    selection := 3 }

/-- Tab labels and list types used in instances. -/
def example_tab_consts : menu_tab_consts :=
  { label_main_menu := "main_menu".toList, label_playlists_tab := "playlists_tab".toList,
    label_settings_tab := "settings_tab".toList, MENU_SETTINGS := 1, MENU_PLAYLISTS_TAB := 2 }

/-- Callbacks with both `action_select` and `action_content_list_switch` set. -/
def example_cbs : menu_file_list_cbs_t :=
  { action_select := true, action_content_list_switch := true }

/-- An environment at 144 dpi, 480 pixels high with header height 48, in which every
entry has a sublabel of three lines. -/
def example_env_rows : menu_env :=
  { example_env with
    menu_entry_get_sublabel := fun _ => some ['a', Char.ofNat 10, 'b', Char.ofNat 10, 'c']
    height := 480
    header_height := 48 }

/-- Nine entries with freshly allocated nodes, the last one selected, and the handle
`example_mui_tabs` (row height 48, tab bar 48). -/
def example_state_rows : menu_state :=
  { example_state with
    mui := some example_mui_tabs
    selection_buf := List.replicate 9 (some mui_node_zero)
    selection := 8 }

/-- The laid-out five-entry list with the last entry selected. -/
def example_state_last : menu_state :=
  { example_state with selection_buf := example_layout 48, selection := 4 }

/-! ## Textures -/

/-- Texture id `MUI_TEXTURE_POINTER`. -/
def MUI_TEXTURE_POINTER : Nat := 0

/-- Texture id `MUI_TEXTURE_BACK`. -/
def MUI_TEXTURE_BACK : Nat := 1

/-- Texture id `MUI_TEXTURE_SWITCH_ON`. -/
def MUI_TEXTURE_SWITCH_ON : Nat := 2

/-- Texture id `MUI_TEXTURE_SWITCH_OFF`. -/
def MUI_TEXTURE_SWITCH_OFF : Nat := 3

/-- Texture id `MUI_TEXTURE_TAB_MAIN`. -/
def MUI_TEXTURE_TAB_MAIN : Nat := 4

/-- Texture id `MUI_TEXTURE_TAB_PLAYLISTS`. -/
def MUI_TEXTURE_TAB_PLAYLISTS : Nat := 5

/-- Texture id `MUI_TEXTURE_TAB_SETTINGS`. -/
def MUI_TEXTURE_TAB_SETTINGS : Nat := 6

/-- Texture id `MUI_TEXTURE_KEY`. -/
def MUI_TEXTURE_KEY : Nat := 7

/-- Texture id `MUI_TEXTURE_KEY_HOVER`. -/
def MUI_TEXTURE_KEY_HOVER : Nat := 8

/-- Texture id `MUI_TEXTURE_FOLDER`. -/
def MUI_TEXTURE_FOLDER : Nat := 9

/-- Texture id `MUI_TEXTURE_PARENT_DIRECTORY`. -/
def MUI_TEXTURE_PARENT_DIRECTORY : Nat := 10

/-- Texture id `MUI_TEXTURE_IMAGE`. -/
def MUI_TEXTURE_IMAGE : Nat := 11

/-- Texture id `MUI_TEXTURE_ARCHIVE`. -/
def MUI_TEXTURE_ARCHIVE : Nat := 12

/-- Texture id `MUI_TEXTURE_VIDEO`. -/
def MUI_TEXTURE_VIDEO : Nat := 13

/-- Texture id `MUI_TEXTURE_MUSIC`. -/
def MUI_TEXTURE_MUSIC : Nat := 14

/-- Texture id `MUI_TEXTURE_QUIT`. -/
def MUI_TEXTURE_QUIT : Nat := 15

/-- Texture id `MUI_TEXTURE_HELP`. -/
def MUI_TEXTURE_HELP : Nat := 16

/-- Texture id `MUI_TEXTURE_UPDATE`. -/
def MUI_TEXTURE_UPDATE : Nat := 17

/-- Texture id `MUI_TEXTURE_HISTORY`. -/
def MUI_TEXTURE_HISTORY : Nat := 18

/-- Texture id `MUI_TEXTURE_INFO`. -/
def MUI_TEXTURE_INFO : Nat := 19

/-- Texture id `MUI_TEXTURE_ADD`. -/
def MUI_TEXTURE_ADD : Nat := 20

/-- Texture id `MUI_TEXTURE_SETTINGS`. -/
def MUI_TEXTURE_SETTINGS : Nat := 21

/-- Texture id `MUI_TEXTURE_FILE`. -/
def MUI_TEXTURE_FILE : Nat := 22

/-- Texture id `MUI_TEXTURE_PLAYLIST`. -/
def MUI_TEXTURE_PLAYLIST : Nat := 23

/-- Texture id `MUI_TEXTURE_UPDATER`. -/
def MUI_TEXTURE_UPDATER : Nat := 24

/-- Texture id `MUI_TEXTURE_QUICKMENU`. -/
def MUI_TEXTURE_QUICKMENU : Nat := 25

/-- Texture id `MUI_TEXTURE_NETPLAY`. -/
def MUI_TEXTURE_NETPLAY : Nat := 26

/-- Texture id `MUI_TEXTURE_CORES`. -/
def MUI_TEXTURE_CORES : Nat := 27

/-- Texture id `MUI_TEXTURE_SHADERS`. -/
def MUI_TEXTURE_SHADERS : Nat := 28

/-- Texture id `MUI_TEXTURE_CONTROLS`. -/
def MUI_TEXTURE_CONTROLS : Nat := 29

/-- Texture id `MUI_TEXTURE_CLOSE`. -/
def MUI_TEXTURE_CLOSE : Nat := 30

/-- Texture id `MUI_TEXTURE_CORE_OPTIONS`. -/
def MUI_TEXTURE_CORE_OPTIONS : Nat := 31

/-- Texture id `MUI_TEXTURE_CORE_CHEAT_OPTIONS`. -/
def MUI_TEXTURE_CORE_CHEAT_OPTIONS : Nat := 32

/-- Texture id `MUI_TEXTURE_RESUME`. -/
def MUI_TEXTURE_RESUME : Nat := 33

/-- Texture id `MUI_TEXTURE_RESTART`. -/
def MUI_TEXTURE_RESTART : Nat := 34

/-- Texture id `MUI_TEXTURE_ADD_TO_FAVORITES`. -/
def MUI_TEXTURE_ADD_TO_FAVORITES : Nat := 35

/-- Texture id `MUI_TEXTURE_RUN`. -/
def MUI_TEXTURE_RUN : Nat := 36

/-- Texture id `MUI_TEXTURE_RENAME`. -/
def MUI_TEXTURE_RENAME : Nat := 37

/-- Texture id `MUI_TEXTURE_DATABASE`. -/
def MUI_TEXTURE_DATABASE : Nat := 38

/-- Texture id `MUI_TEXTURE_ADD_TO_MIXER`. -/
def MUI_TEXTURE_ADD_TO_MIXER : Nat := 39

/-- Texture id `MUI_TEXTURE_SCAN`. -/
def MUI_TEXTURE_SCAN : Nat := 40

/-- Texture id `MUI_TEXTURE_REMOVE`. -/
def MUI_TEXTURE_REMOVE : Nat := 41

/-- Texture id `MUI_TEXTURE_START_CORE`. -/
def MUI_TEXTURE_START_CORE : Nat := 42

/-- Texture id `MUI_TEXTURE_LOAD_STATE`. -/
def MUI_TEXTURE_LOAD_STATE : Nat := 43

/-- Texture id `MUI_TEXTURE_SAVE_STATE`. -/
def MUI_TEXTURE_SAVE_STATE : Nat := 44

/-- Texture id `MUI_TEXTURE_UNDO_LOAD_STATE`. -/
def MUI_TEXTURE_UNDO_LOAD_STATE : Nat := 45

/-- Texture id `MUI_TEXTURE_UNDO_SAVE_STATE`. -/
def MUI_TEXTURE_UNDO_SAVE_STATE : Nat := 46

/-- Texture id `MUI_TEXTURE_STATE_SLOT`. -/
def MUI_TEXTURE_STATE_SLOT : Nat := 47

/-- Texture id `MUI_TEXTURE_TAKE_SCREENSHOT`. -/
def MUI_TEXTURE_TAKE_SCREENSHOT : Nat := 48

/-- Texture id `MUI_TEXTURE_CONFIGURATIONS`. -/
def MUI_TEXTURE_CONFIGURATIONS : Nat := 49

/-- Texture id `MUI_TEXTURE_LOAD_CONTENT`. -/
def MUI_TEXTURE_LOAD_CONTENT : Nat := 50

/-- The number of textures `MUI_TEXTURE_LAST`. -/
def MUI_TEXTURE_LAST : Nat := 51

/-- The file name of a texture: `mui_texture_path`; `none` is the null pointer returned
after the `switch` when no `case` applies. -/
def mui_texture_path (id : Nat) : Option String :=
  if id = MUI_TEXTURE_POINTER then some "pointer.png"
  else if id = MUI_TEXTURE_BACK then some "back.png"
  else if id = MUI_TEXTURE_SWITCH_ON then some "on.png"
  else if id = MUI_TEXTURE_SWITCH_OFF then some "off.png"
  else if id = MUI_TEXTURE_TAB_MAIN then some "main_tab_passive.png"
  else if id = MUI_TEXTURE_TAB_PLAYLISTS then some "playlists_tab_passive.png"
  else if id = MUI_TEXTURE_TAB_SETTINGS then some "settings_tab_passive.png"
  else if id = MUI_TEXTURE_KEY then some "key.png"
  else if id = MUI_TEXTURE_KEY_HOVER then some "key-hover.png"
  else if id = MUI_TEXTURE_FOLDER then some "folder.png"
  else if id = MUI_TEXTURE_PARENT_DIRECTORY then some "parent_directory.png"
  else if id = MUI_TEXTURE_IMAGE then some "image.png"
  else if id = MUI_TEXTURE_VIDEO then some "video.png"
  else if id = MUI_TEXTURE_MUSIC then some "music.png"
  else if id = MUI_TEXTURE_ARCHIVE then some "archive.png"
  else if id = MUI_TEXTURE_QUIT then some "quit.png"
  else if id = MUI_TEXTURE_HELP then some "help.png"
  else if id = MUI_TEXTURE_NETPLAY then some "netplay.png"
  else if id = MUI_TEXTURE_CORES then some "cores.png"
  else if id = MUI_TEXTURE_CONTROLS then some "controls.png"
  else if id = MUI_TEXTURE_RESUME then some "resume.png"
  else if id = MUI_TEXTURE_RESTART then some "restart.png"
  else if id = MUI_TEXTURE_CLOSE then some "close.png"
  else if id = MUI_TEXTURE_CORE_OPTIONS then some "core_options.png"
  else if id = MUI_TEXTURE_CORE_CHEAT_OPTIONS then some "core_cheat_options.png"
  else if id = MUI_TEXTURE_SHADERS then some "shaders.png"
  else if id = MUI_TEXTURE_ADD_TO_FAVORITES then some "add_to_favorites.png"
  else if id = MUI_TEXTURE_RUN then some "run.png"
  else if id = MUI_TEXTURE_RENAME then some "rename.png"
  else if id = MUI_TEXTURE_DATABASE then some "database.png"
  else if id = MUI_TEXTURE_ADD_TO_MIXER then some "add_to_mixer.png"
  else if id = MUI_TEXTURE_SCAN then some "scan.png"
  else if id = MUI_TEXTURE_REMOVE then some "remove.png"
  else if id = MUI_TEXTURE_START_CORE then some "start_core.png"
  else if id = MUI_TEXTURE_LOAD_STATE then some "load_state.png"
  else if id = MUI_TEXTURE_SAVE_STATE then some "save_state.png"
  else if id = MUI_TEXTURE_UNDO_LOAD_STATE then some "undo_load_state.png"
  else if id = MUI_TEXTURE_UNDO_SAVE_STATE then some "undo_save_state.png"
  else if id = MUI_TEXTURE_STATE_SLOT then some "state_slot.png"
  else if id = MUI_TEXTURE_TAKE_SCREENSHOT then some "take_screenshot.png"
  else if id = MUI_TEXTURE_CONFIGURATIONS then some "configurations.png"
  else if id = MUI_TEXTURE_LOAD_CONTENT then some "load_content.png"
  else if id = MUI_TEXTURE_UPDATER then some "update.png"
  else if id = MUI_TEXTURE_QUICKMENU then some "quickmenu.png"
  else if id = MUI_TEXTURE_HISTORY then some "history.png"
  else if id = MUI_TEXTURE_INFO then some "information.png"
  else if id = MUI_TEXTURE_ADD then some "add.png"
  else if id = MUI_TEXTURE_SETTINGS then some "settings.png"
  else if id = MUI_TEXTURE_FILE then some "file.png"
  else if id = MUI_TEXTURE_PLAYLIST then some "playlist.png"
  else none

/-- The paths `mui_context_reset_textures` passes to `menu_display_reset_textures_list`,
for `i` from 0 to `MUI_TEXTURE_LAST - 1`. -/
def mui_context_reset_textures_paths : List (Option String) :=
  (List.range MUI_TEXTURE_LAST).map mui_texture_path

/-! ## Application launch on the handheld console (`platform_ctr.c`) -/

/-- How the application-id section of `frontend_ctr_exec` ends. -/
inductive ctr_exec_outcome where
  /-- The statement `return` after "error reading APP_ID". -/
  | read_error
  /-- The call `APT_PrepareToDoApplicationJump(0, app_ID, 0x1)` is reached with this id. -/
  | jump (app_ID : Nat)
deriving DecidableEq, Repr

/-- Whether a C string pointer is null or points at an empty string: `!path || !*path`. -/
def c_string_is_empty (path : Option (List Char)) : Bool :=
  match path with
  | none => true
  | some [] => true
  | some (c :: _) => c.toNat = 0

/-- The number of bytes `fread(app_ID_str, 1, sizeof(app_ID_str), fp)` returns for a
file of the given content. -/
def frontend_ctr_exec_bytes_read (content : List Char) : Nat :=
  min content.length 11

/-- The section of `frontend_ctr_exec` that determines `app_ID`. `file` is the content
of the file `fopen(path, "rb")` opens (`none` when it returns a null pointer),
`program_id` the id `APT_GetProgramID` stores, and `sscanf_hex str` the value
`sscanf(str, "0x%x", &app_ID_low)` stores (`none` when it stores nothing and
`app_ID_low` stays uninitialised). The result is `none` when `fread` is passed a null
stream, when the terminator is written outside `app_ID_str`, or when `app_ID_low` is
read uninitialised. The packing of the arguments of the jump is not represented. -/
def frontend_ctr_exec_app_id (sscanf_hex : List Char → Option Nat) (program_id : Nat)
    (path : Option (List Char)) (file : Option (List Char)) : Option ctr_exec_outcome :=
  if c_string_is_empty path then some (ctr_exec_outcome.jump program_id)
  else
    match file with
    | none => none
    | some content =>
      let sizeof_app_ID_str : Nat := 11
      let bytes_read : Nat := frontend_ctr_exec_bytes_read content
      if bytes_read ≤ 0 then some ctr_exec_outcome.read_error
      else if ¬ bytes_read < sizeof_app_ID_str then none
      else
        match sscanf_hex (content.take bytes_read) with
        | none => none
        | some parsed =>
          let app_ID_low : Nat := ((parsed % 4294967296) * 256) % 4294967296
          some (ctr_exec_outcome.jump (0x0004000000000000 ||| app_ID_low))

/-! ## Keyboard navigation of the tabs -/

/-- The list types `mui_list_cache` distinguishes (`enum menu_list_type`, declared
outside `materialui.c`); `other` stands for every enumerator the `switch` leaves to
its `default` label. -/
inductive menu_list_type where
  | MENU_LIST_PLAIN
  | MENU_LIST_HORIZONTAL
  | other (n : Nat)
deriving DecidableEq, Repr

/-- This callback is not caching anything, it navigates the tabs with the keyboard:
`mui_list_cache`. `MENU_ACTION_LEFT` is the value of that enumerator (declared outside
`materialui.c`). The result is the handle and the menu stack after the call; `none`
when `mui_preswitch_tabs` finds the menu stack empty. -/
def mui_list_cache (consts : menu_tab_consts) (MENU_ACTION_LEFT : Nat)
    (data : Option mui_handle_t) (type : menu_list_type) (action : Nat)
    (menu_stack : List menu_stack_item) :
    Option (Option mui_handle_t × List menu_stack_item) :=
  match data with
  | none => some (none, menu_stack)
  | some mui =>
    let list_size : Nat := MUI_SYSTEM_TAB_END
    match type with
    | menu_list_type.MENU_LIST_PLAIN => some (some mui, menu_stack)
    | menu_list_type.MENU_LIST_HORIZONTAL =>
      let cat0 : mui_categories_t :=
        { mui.categories with selection_ptr_old := mui.categories.selection_ptr }
      let cat1 : mui_categories_t :=
        if action = MENU_ACTION_LEFT then
          if cat0.selection_ptr = 0 then
            { cat0 with selection_ptr := list_size, active_idx := u32 ((list_size : Int) - 1) }
          else
            { cat0 with selection_ptr := size_t_val ((cat0.selection_ptr : Int) - 1) }
        else
          if cat0.selection_ptr = list_size then
            { cat0 with selection_ptr := 0, active_idx := 1 }
          else
            { cat0 with selection_ptr := size_t_val ((cat0.selection_ptr : Int) + 1) }
      let mui1 : mui_handle_t := { mui with categories := cat1 }
      (mui_preswitch_tabs consts (some mui1) action menu_stack).map
        (fun menu_stack1 => (some mui1, menu_stack1))
    | menu_list_type.other _ => some (some mui, menu_stack)

/-! ## Verbosity switches and the remaining loggers (`verbosity.c`) -/

/-- The function `verbosity_enable` (attaching the console is not represented). -/
def verbosity_enable (v : verbosity_t) : verbosity_t :=
  { v with main_verbosity := true }

/-- The function `verbosity_disable` (detaching the console is not represented). -/
def verbosity_disable (v : verbosity_t) : verbosity_t :=
  { v with main_verbosity := false }

/-- The function `verbosity_is_enabled`. -/
def verbosity_is_enabled (v : verbosity_t) : Bool :=
  v.main_verbosity

/-- The logger `RARCH_LOG`, for a message that is already formatted. -/
def RARCH_LOG (env : menu_env) (v : verbosity_t) (msg : List Char) : Option verbosity_t :=
  if !verbosity_is_enabled v then some v
  else RARCH_LOG_V env v (some env.file_path_str_log_info) msg

/-- The logger `RARCH_LOG_OUTPUT_V`. -/
def RARCH_LOG_OUTPUT_V (env : menu_env) (v : verbosity_t) (tag : Option (List Char))
    (msg : List Char) : Option verbosity_t :=
  RARCH_LOG_V env v tag msg

/-- The logger `RARCH_LOG_OUTPUT`, for a message that is already formatted. -/
def RARCH_LOG_OUTPUT (env : menu_env) (v : verbosity_t) (msg : List Char) :
    Option verbosity_t :=
  RARCH_LOG_OUTPUT_V env v (some env.file_path_str_log_info) msg

/-- The logger `RARCH_WARN_V`. -/
def RARCH_WARN_V (env : menu_env) (v : verbosity_t) (tag : Option (List Char))
    (msg : List Char) : Option verbosity_t :=
  RARCH_LOG_V env v tag msg

/-- The logger `RARCH_WARN`, for a message that is already formatted;
`file_path_str_log_warn` is the result of `file_path_str(FILE_PATH_LOG_WARN)`. -/
def RARCH_WARN (env : menu_env) (file_path_str_log_warn : List Char) (v : verbosity_t)
    (msg : List Char) : Option verbosity_t :=
  RARCH_WARN_V env v (some file_path_str_log_warn) msg

/-! ## Further concrete states -/

/-- The environment `example_env` with a viewport of width 0. -/
def example_env_zero_width : menu_env :=
  { example_env with width := 0 }

/-- The five-entry state with an empty selection buffer. -/
def example_state_empty : menu_state :=
  { example_state with selection_buf := [] }

/-- The five-entry state whose slot 1 has no node. -/
def example_state_hole : menu_state :=
  { example_state with selection_buf := example_list_hole }

/-- A menu stack of one item. -/
def example_menu_stack : List menu_stack_item :=
  [{ label := some "old".toList, type := 0 }]

/-! ## The threshold of the scroll heuristic as specified -/

/-- The threshold count as the specification words it: `viewportHeight/(3×lineHeight)`,
taken as one truncating division. -/
def spec_scroll_threshold (viewportHeight lineHeight : Nat) : Nat :=
  viewportHeight / (3 * lineHeight)

/-! ## Hit test of the on-screen keyboard -/

/-- The result of an operation on `int` whose mathematical value is `z`: `none` when
the value is not representable in 32 bits (signed overflow). -/
def int_checked (z : Int) : Option Int :=
  if -2147483648 ≤ z ∧ z ≤ 2147483647 then some z else none

/-- Conversion of a `double` to `int`: truncation toward zero, `none` when the
truncated value is not representable. A `double` is taken as an exact rational; the
rounding of the division by 10.0 is too small to move a quotient across an integer. -/
def double_to_int (v : ℚ) : Option Int :=
  int_checked (if 0 ≤ v then ⌊v⌋ else ⌈v⌉)

/-- The local `ptr_height` of `mui_osk_ptr_at_pos`: `ptr_height = height / 10`. -/
def mui_osk_ptr_height (height : Nat) : Int :=
  to_int (height / 10)

/-- The local `ptr_width` of `mui_osk_ptr_at_pos` after
`if (ptr_width >= ptr_height) ptr_width = ptr_height;`. -/
def mui_osk_ptr_width (width height : Nat) : Int :=
  let ptr_width : Int := to_int (width / 11)
  let ptr_height : Int := mui_osk_ptr_height height
  if ptr_width ≥ ptr_height then ptr_height else ptr_width

/-- The local `line_y` of iteration `i`: `int line_y = (i / 11)*height/10.0`, the
product being evaluated in `unsigned` arithmetic. -/
def mui_osk_line_y (height i : Nat) : Option Int :=
  double_to_int (((u32 (((i / 11 : Nat) : Int) * (height : Int)) : Nat) : ℚ) / 10)

/-- The local `ptr_x` of iteration `i`:
`int ptr_x = width/2.0 - (11*ptr_width)/2.0 + (i % 11) * ptr_width`, the first product
being evaluated in `int` and the second in `unsigned` arithmetic. -/
def mui_osk_ptr_x (width : Nat) (ptr_width : Int) (i : Nat) : Option Int := do
  let eleven_ptr_width ← int_checked (11 * ptr_width)
  double_to_int ((width : ℚ) / 2 - (eleven_ptr_width : ℚ) / 2
    + ((u32 (((i % 11 : Nat) : Int) * ptr_width) : Nat) : ℚ))

/-- The local `ptr_y` of an iteration:
`int ptr_y = height/2.0 + ptr_height*1.5 + line_y - ptr_height`. -/
def mui_osk_ptr_y (height : Nat) (ptr_height line_y : Int) : Option Int :=
  double_to_int ((height : ℚ) / 2 + (ptr_height : ℚ) * (3 / 2) + (line_y : ℚ)
    - (ptr_height : ℚ))

/-- The condition `x > ptr_x && x < ptr_x + ptr_width && y > ptr_y && y < ptr_y +
ptr_height`, with the short-circuit evaluation of `&&`; `none` when a sum that is
evaluated overflows. -/
def mui_osk_key_hit (x y ptr_x ptr_y ptr_width ptr_height : Int) : Option Bool :=
  if ¬ (x > ptr_x) then some false
  else
    match int_checked (ptr_x + ptr_width) with
    | none => none
    | some right =>
      if ¬ (x < right) then some false
      else if ¬ (y > ptr_y) then some false
      else
        match int_checked (ptr_y + ptr_height) with
        | none => none
        | some bottom => some (decide (y < bottom))

/-- The body of the loop of `mui_osk_ptr_at_pos` for key `i`: whether `return i` is
reached. -/
def mui_osk_key_test (x y : Int) (width height : Nat) (ptr_width ptr_height : Int)
    (i : Nat) : Option Bool := do
  let line_y ← mui_osk_line_y height i
  let ptr_x ← mui_osk_ptr_x width ptr_width i
  let ptr_y ← mui_osk_ptr_y height ptr_height line_y
  mui_osk_key_hit x y ptr_x ptr_y ptr_width ptr_height

/-- The loop `for (i = 0; i < 44; i++)` of `mui_osk_ptr_at_pos` over the remaining
values of `i`. -/
def mui_osk_ptr_at_pos_loop (x y : Int) (width height : Nat) (ptr_width ptr_height : Int) :
    List Nat → Option Int
  | [] => some (-1)
  | i :: rest =>
    match mui_osk_key_test x y width height ptr_width ptr_height i with
    | none => none
    | some true => some (to_int i)
    | some false => mui_osk_ptr_at_pos_loop x y width height ptr_width ptr_height rest

/-- Returns the OSK key at a given position: `mui_osk_ptr_at_pos`. -/
def mui_osk_ptr_at_pos (data : Option mui_handle_t) (x y : Int) (width height : Nat) :
    Option Int :=
  match data with
  | none => some (-1)
  | some _ =>
    mui_osk_ptr_at_pos_loop x y width height (mui_osk_ptr_width width height)
      (mui_osk_ptr_height height) (List.range 44)

/-! ## Layout lemmas -/

theorem compute_loop_spec (env : menu_env) (mui : mui_handle_t) (uw : Nat) (scale : ℚ)
    (font : font_data_t) (hfont : mui.font = some font)
    (hdiv : mui.glyph_width2 ≠ 0 ∨ ∀ i, env.menu_entry_get_sublabel i = none) :
    ∀ (l : file_list_t) (i : Nat) (s : ℚ), (∀ slot ∈ l, slot ≠ none) →
      ∃ nodes : List mui_node_t,
        mui_compute_entries_box_loop env mui uw scale i s l = some (nodes.map some) ∧
        nodes.length = l.length ∧ contiguous_from s nodes ∧
        ∀ k a, nodes[k]? = some a → ∃ lines,
          mui_sublabel_lines env mui uw (i + k) = some lines ∧
          a.line_height = scale / 3 + (lines : ℚ) * font.size := by
  intro l
  induction l with
  | nil =>
    intro i s _
    exact ⟨[], by simp [mui_compute_entries_box_loop], rfl, trivial, by simp⟩
  | cons slot rest ih =>
    intro i s hall
    cases slot with
    | none => exact absurd rfl (hall none (by simp))
    | some node =>
      have hlines : ∃ lines, mui_sublabel_lines env mui uw i = some lines := by
        unfold mui_sublabel_lines
        cases hsub : env.menu_entry_get_sublabel i with
        | none => exact ⟨0, rfl⟩
        | some str =>
          rcases hdiv with hg | hno
          · exact ⟨_, if_neg hg⟩
          · rw [hno i] at hsub; cases hsub
      obtain ⟨lines, hl⟩ := hlines
      obtain ⟨nodes, hrest, hlen, hcont, hlh⟩ :=
        ih (i + 1) (s + (scale / 3 + (lines : ℚ) * font.size))
          (fun slot hs => hall slot (by simp [hs]))
      refine ⟨{ node with line_height := scale / 3 + (lines : ℚ) * font.size,
                          y := s } :: nodes, ?_, ?_, ?_, ?_⟩
      · simp [mui_compute_entries_box_loop, hl, hfont, hrest]
      · simp [hlen]
      · exact ⟨rfl, hcont⟩
      · intro k a hk
        cases k with
        | zero =>
          simp at hk
          subst hk
          exact ⟨lines, hl, rfl⟩
        | succ k =>
          simp at hk
          have := hlh k a hk
          rw [show i + (k + 1) = i + 1 + k by omega]
          exact this

theorem contiguous_from_head (s : ℚ) (nodes : List mui_node_t) (h : contiguous_from s nodes) :
    ∀ n0, nodes[0]? = some n0 → n0.y = s := by
  intro n0 h0
  cases nodes with
  | nil => simp at h0
  | cons n rest =>
    simp at h0
    subst h0
    exact h.1

theorem contiguous_from_succ : ∀ (nodes : List mui_node_t) (s : ℚ), contiguous_from s nodes →
    ∀ i a b, nodes[i]? = some a → nodes[i + 1]? = some b → b.y = a.y + a.line_height := by
  intro nodes
  induction nodes with
  | nil => intro s _ i a b ha; simp at ha
  | cons n rest ih =>
    intro s h i a b ha hb
    cases i with
    | zero =>
      simp at ha hb
      subst ha
      rw [contiguous_from_head _ rest h.2 b hb, h.1]
    | succ i =>
      simp at ha hb
      exact ih _ h.2 i a b ha hb

theorem contiguous_from_sum : ∀ (nodes : List mui_node_t) (s : ℚ), contiguous_from s nodes →
    ∀ i a, nodes[i]? = some a → a.y = s + ((nodes.take i).map (·.line_height)).sum := by
  intro nodes
  induction nodes with
  | nil => intro s _ i a ha; simp at ha
  | cons n rest ih =>
    intro s h i a ha
    cases i with
    | zero =>
      simp at ha
      subst ha
      simp [h.1]
    | succ i =>
      simp at ha
      rw [ih _ h.2 i a ha]
      simp [add_assoc]

theorem content_height_loop_eq : ∀ (nodes : List mui_node_t) (s : ℚ),
    mui_content_height_loop s (nodes.map some) = some (s + (nodes.map (·.line_height)).sum) := by
  intro nodes
  induction nodes with
  | nil => intro s; simp [mui_content_height_loop]
  | cons n rest ih =>
    intro s
    simp [mui_content_height_loop, ih, add_assoc]

theorem contiguous_from_last : ∀ (nodes : List mui_node_t) (s : ℚ), contiguous_from s nodes →
    ∀ last, nodes.getLast? = some last →
      s + (nodes.map (·.line_height)).sum = last.y + last.line_height := by
  intro nodes
  induction nodes with
  | nil => intro s _ last hl; simp at hl
  | cons n rest ih =>
    intro s h last hl
    cases rest with
    | nil =>
      simp at hl
      subst hl
      simp [h.1]
    | cons m rest2 =>
      rw [List.getLast?_cons_cons] at hl
      have := ih _ h.2 last hl
      rw [← this]
      simp [add_assoc]

/-- The loop of `mui_count_lines` adds the number of newline characters before the
terminating NUL to its counter. -/
theorem mui_count_lines_loop_eq : ∀ (str : List Char) (lines : Nat),
    mui_count_lines_loop str lines = lines + newline_count str := by
  intro str
  induction str with
  | nil => intro lines; simp [mui_count_lines_loop, newline_count]
  | cons c str ih =>
    intro lines
    unfold newline_count at ih ⊢
    by_cases h0 : c.toNat = 0
    · simp [mui_count_lines_loop, h0, List.takeWhile_cons]
    · by_cases h10 : c.toNat = 10
      · simp [mui_count_lines_loop, h0, h10, ih, List.takeWhile_cons, List.filter_cons]
        omega
      · simp [mui_count_lines_loop, h0, h10, ih, List.takeWhile_cons, List.filter_cons]

/-- The function `mui_compute_entries_box` returns a list of nodes laid out without
gaps from offset 0, each with the line height computed from its sublabel. -/
theorem compute_entries_box_spec (env : menu_env) (mui : mui_handle_t) (width : Int)
    (list : file_list_t) (font : font_data_t)
    (hnodes : ∀ slot ∈ list, slot ≠ none) (hfont : mui.font = some font)
    (hdiv : mui.glyph_width2 ≠ 0 ∨ ∀ i, env.menu_entry_get_sublabel i = none) :
    ∃ nodes : List mui_node_t,
      mui_compute_entries_box env mui width list = some (nodes.map some) ∧
      nodes.length = list.length ∧ contiguous_from 0 nodes ∧
      ∀ k a, nodes[k]? = some a → ∃ lines,
        mui_sublabel_lines env mui (u32 (width - ((mui.margin * 2 : Nat) : Int))) k
          = some lines ∧
        a.line_height = env.dpi / 3 + (lines : ℚ) * font.size := by
  obtain ⟨nodes, h1, h2, h3, h4⟩ :=
    compute_loop_spec env mui (u32 (width - ((mui.margin * 2 : Nat) : Int))) env.dpi font
      hfont hdiv list 0 0 hnodes
  refine ⟨nodes, h1, h2, h3, ?_⟩
  intro k a hk
  have := h4 k a hk
  rwa [Nat.zero_add] at this

/-! ## Claims on the layout -/

/-- C1: after `mui_compute_entries_box` has run over a list of n entries (every slot
holding a node, the entry font present, and the wrap-width division defined), node 0
has y = 0, every node i+1 has y equal to node i's y plus node i's line height, and
node i's y is the sum of the line heights of nodes 0..i-1, whatever the viewport
width, margin, glyph width and sublabels. -/
theorem mui_compute_entries_box_contiguous (env : menu_env) (mui : mui_handle_t)
    (width : Int) (list : file_list_t)
    (hnodes : ∀ slot ∈ list, slot ≠ none) (hfont : mui.font ≠ none)
    (hdiv : mui.glyph_width2 ≠ 0 ∨ ∀ i, env.menu_entry_get_sublabel i = none) :
    ∃ nodes : List mui_node_t,
      mui_compute_entries_box env mui width list = some (nodes.map some) ∧
      nodes.length = list.length ∧
      (∀ n0, nodes[0]? = some n0 → n0.y = 0) ∧
      (∀ i a b, nodes[i]? = some a → nodes[i + 1]? = some b →
        b.y = a.y + a.line_height) ∧
      (∀ i a, nodes[i]? = some a → a.y = ((nodes.take i).map (·.line_height)).sum) := by
  obtain ⟨font, hf⟩ := Option.ne_none_iff_exists'.mp hfont
  obtain ⟨nodes, h1, h2, h3, _⟩ := compute_entries_box_spec env mui width list font hnodes hf hdiv
  refine ⟨nodes, h1, h2, contiguous_from_head 0 nodes h3, contiguous_from_succ nodes 0 h3, ?_⟩
  intro i a ha
  rw [contiguous_from_sum nodes 0 h3 i a ha, zero_add]

/-- Instance of C1: the five-entry list in which entry 2 has a three-line sublabel. -/
theorem mui_compute_entries_box_contiguous_witness :
    (∀ slot ∈ example_list, slot ≠ none) ∧ example_mui.font ≠ none ∧
    (example_mui.glyph_width2 ≠ 0 ∨ ∀ i, example_env_sublabel.menu_entry_get_sublabel i = none) ∧
    ∃ nodes : List mui_node_t,
      mui_compute_entries_box example_env_sublabel example_mui 800 example_list
        = some (nodes.map some) ∧
      nodes.length = example_list.length ∧
      (∀ n0, nodes[0]? = some n0 → n0.y = 0) ∧
      (∀ i a b, nodes[i]? = some a → nodes[i + 1]? = some b →
        b.y = a.y + a.line_height) ∧
      (∀ i a, nodes[i]? = some a → a.y = ((nodes.take i).map (·.line_height)).sum) :=
  ⟨by simp [example_list], by simp [example_mui], Or.inl (by decide),
    mui_compute_entries_box_contiguous example_env_sublabel example_mui 800 example_list
      (by simp [example_list]) (by simp [example_mui]) (Or.inl (by decide))⟩

/-- C2: for the list left by `mui_compute_entries_box`, `mui_content_height` returns
the sum of the line heights of all entries; for a non-empty list this is the last
node's y plus its line height, and for an empty list it is 0. -/
theorem mui_content_height_eq_sum (env : menu_env) (mui : mui_handle_t)
    (width : Int) (list : file_list_t)
    (hnodes : ∀ slot ∈ list, slot ≠ none) (hfont : mui.font ≠ none)
    (hdiv : mui.glyph_width2 ≠ 0 ∨ ∀ i, env.menu_entry_get_sublabel i = none) :
    ∃ nodes : List mui_node_t,
      mui_compute_entries_box env mui width list = some (nodes.map some) ∧
      nodes.length = list.length ∧
      mui_content_height (nodes.map some) = some ((nodes.map (·.line_height)).sum) ∧
      (∀ last, nodes.getLast? = some last →
        mui_content_height (nodes.map some) = some (last.y + last.line_height)) ∧
      (list = [] → mui_content_height (nodes.map some) = some 0) := by
  obtain ⟨font, hf⟩ := Option.ne_none_iff_exists'.mp hfont
  obtain ⟨nodes, h1, h2, h3, _⟩ := compute_entries_box_spec env mui width list font hnodes hf hdiv
  have hsum : mui_content_height (nodes.map some) = some ((nodes.map (·.line_height)).sum) := by
    unfold mui_content_height
    rw [content_height_loop_eq nodes 0, zero_add]
  refine ⟨nodes, h1, h2, hsum, ?_, ?_⟩
  · intro last hl
    rw [hsum, ← contiguous_from_last nodes 0 h3 last hl, zero_add]
  · intro hnil
    subst hnil
    have : nodes = [] := List.length_eq_zero.mp h2
    subst this
    rfl

/-- Instance of C2: the five-entry list in which entry 2 has a three-line sublabel. -/
theorem mui_content_height_eq_sum_witness :
    (∀ slot ∈ example_list, slot ≠ none) ∧ example_mui.font ≠ none ∧
    (example_mui.glyph_width2 ≠ 0 ∨ ∀ i, example_env_sublabel.menu_entry_get_sublabel i = none) ∧
    ∃ nodes : List mui_node_t,
      mui_compute_entries_box example_env_sublabel example_mui 800 example_list
        = some (nodes.map some) ∧
      nodes.length = example_list.length ∧
      mui_content_height (nodes.map some) = some ((nodes.map (·.line_height)).sum) ∧
      (∀ last, nodes.getLast? = some last →
        mui_content_height (nodes.map some) = some (last.y + last.line_height)) ∧
      (example_list = [] → mui_content_height (nodes.map some) = some 0) :=
  ⟨by simp [example_list], by simp [example_mui], Or.inl (by decide),
    mui_content_height_eq_sum example_env_sublabel example_mui 800 example_list
      (by simp [example_list]) (by simp [example_mui]) (Or.inl (by decide))⟩

/-- A node stored by `mui_list_insert` has line height `dpi / 3` and y 0. -/
theorem mui_list_insert_node_line_height (env : menu_env) (mui : mui_handle_t)
    (node : mui_node_t) (label : List Char) (type : Nat) :
    (mui_list_insert_node env mui node label type).line_height = env.dpi / 3 ∧
    (mui_list_insert_node env mui node label type).y = 0 := by
  unfold mui_list_insert_node
  cases env.list_insert_icon type label <;> simp

/-- C3 (as stated) fails: with entry font size 16 and sublabel font size 12, the entry
whose sublabel wraps to 3 lines gets line height 48 + 3 × 16 = 96, not
48 + 3 × 12 = 84: the code multiplies by the size of the entry font `mui->font`, not
by the size of the font the sublabel is drawn with. -/
theorem mui_line_height_sublabel_font_counterexample :
    ∃ (nodes : List mui_node_t) (node : mui_node_t),
      mui_compute_entries_box example_env_sublabel example_mui 800 example_list
        = some (nodes.map some) ∧
      nodes[2]? = some node ∧
      example_env_sublabel.menu_entry_get_sublabel 2 ≠ none ∧
      mui_sublabel_lines example_env_sublabel example_mui
        (u32 (800 - ((example_mui.margin * 2 : Nat) : Int))) 2 = some 3 ∧
      mui_sublabel_draw_font example_mui = some { size := 12 } ∧
      example_env_sublabel.dpi / 3 = 48 ∧
      node.line_height = 96 ∧
      node.line_height ≠ example_env_sublabel.dpi / 3 + 3 * 12 := by
  refine ⟨[{ mui_node_zero with line_height := 48, y := 0 },
           { mui_node_zero with line_height := 48, y := 48 },
           { mui_node_zero with line_height := 96, y := 96 },
           { mui_node_zero with line_height := 48, y := 192 },
           { mui_node_zero with line_height := 48, y := 240 }],
          { mui_node_zero with line_height := 96, y := 96 }, ?_, rfl, ?_, ?_, rfl, ?_, rfl, ?_⟩
  · simp [mui_compute_entries_box, mui_compute_entries_box_loop, example_list, example_mui,
      example_env_sublabel, example_env, mui_sublabel_lines, mui_count_lines,
      mui_count_lines_loop, mui_node_zero]
    norm_num
  · simp [example_env_sublabel]
  · simp [mui_sublabel_lines, example_env_sublabel, example_mui, mui_count_lines,
      mui_count_lines_loop, example_env]
  · norm_num [example_env_sublabel, example_env]
  · norm_num [example_env_sublabel, example_env]

/-- C3 (amended): for every entry that has a sublabel, `mui_compute_entries_box` sets
line_height = dpi / 3 + L × (size of the entry font `mui->font`), where L is the line
count of the word-wrapped sublabel as counted by `mui_count_lines`, one more than its
newline count; e.g. at dpi 144 (base row height 48), 3 wrapped lines and entry font
size 12 give 84. -/
theorem mui_line_height_with_sublabel (env : menu_env) (mui : mui_handle_t)
    (width : Int) (list : file_list_t) (font : font_data_t)
    (hnodes : ∀ slot ∈ list, slot ≠ none) (hfont : mui.font = some font)
    (hglyph : mui.glyph_width2 ≠ 0)
    (i : Nat) (sublabel_str : List Char) (hi : i < list.length)
    (hsub : env.menu_entry_get_sublabel i = some sublabel_str) :
    (∃ (nodes : List mui_node_t) (node : mui_node_t),
      mui_compute_entries_box env mui width list = some (nodes.map some) ∧
      nodes[i]? = some node ∧
      node.line_height = env.dpi / 3 +
        (mui_count_lines (env.word_wrap sublabel_str
          (to_int (u32 (width - ((mui.margin * 2 : Nat) : Int)) / mui.glyph_width2))) : ℚ)
          * font.size ∧
      mui_count_lines (env.word_wrap sublabel_str
          (to_int (u32 (width - ((mui.margin * 2 : Nat) : Int)) / mui.glyph_width2)))
        = newline_count (env.word_wrap sublabel_str
          (to_int (u32 (width - ((mui.margin * 2 : Nat) : Int)) / mui.glyph_width2))) + 1) ∧
    (∃ (nodes : List mui_node_t) (node : mui_node_t),
      mui_compute_entries_box example_env_sublabel example_mui12 800 example_list
        = some (nodes.map some) ∧
      nodes[2]? = some node ∧ example_env_sublabel.dpi / 3 = 48 ∧
      example_mui12.font = some { size := 12 } ∧
      mui_sublabel_lines example_env_sublabel example_mui12
        (u32 (800 - ((example_mui12.margin * 2 : Nat) : Int))) 2 = some 3 ∧
      node.line_height = 84) := by
  constructor
  · obtain ⟨nodes, h1, h2, _, h4⟩ :=
      compute_entries_box_spec env mui width list font hnodes hfont (Or.inl hglyph)
    have hi2 : i < nodes.length := by omega
    refine ⟨nodes, nodes[i], h1, List.getElem?_eq_getElem hi2, ?_, ?_⟩
    · obtain ⟨lines, hl, hlh⟩ := h4 i nodes[i] (List.getElem?_eq_getElem hi2)
      simp only [mui_sublabel_lines, hsub, if_neg hglyph, Option.some.injEq] at hl
      rw [hlh, ← hl]
    · unfold mui_count_lines
      rw [mui_count_lines_loop_eq, Nat.add_comm]
  · refine ⟨[{ mui_node_zero with line_height := 48, y := 0 },
             { mui_node_zero with line_height := 48, y := 48 },
             { mui_node_zero with line_height := 84, y := 96 },
             { mui_node_zero with line_height := 48, y := 180 },
             { mui_node_zero with line_height := 48, y := 228 }],
            { mui_node_zero with line_height := 84, y := 96 }, ?_, rfl, ?_, rfl, ?_, rfl⟩
    · simp [mui_compute_entries_box, mui_compute_entries_box_loop, example_list, example_mui12,
        example_mui, example_env_sublabel, example_env, mui_sublabel_lines, mui_count_lines,
        mui_count_lines_loop, mui_node_zero]
      norm_num
    · norm_num [example_env_sublabel, example_env]
    · simp [mui_sublabel_lines, example_env_sublabel, example_mui12, example_mui,
        mui_count_lines, mui_count_lines_loop, example_env]

/-- Instance of C3 (amended): entry 2 of the five-entry list, with its three-line
sublabel. -/
theorem mui_line_height_with_sublabel_witness :
    (∀ slot ∈ example_list, slot ≠ none) ∧ example_mui.font = some { size := 16 } ∧
    example_mui.glyph_width2 ≠ 0 ∧ 2 < example_list.length ∧
    example_env_sublabel.menu_entry_get_sublabel 2
      = some ['a', Char.ofNat 10, 'b', Char.ofNat 10, 'c'] ∧
    ∃ (nodes : List mui_node_t) (node : mui_node_t),
      mui_compute_entries_box example_env_sublabel example_mui 800 example_list
        = some (nodes.map some) ∧
      nodes[2]? = some node ∧
      node.line_height = example_env_sublabel.dpi / 3 +
        (mui_count_lines (example_env_sublabel.word_wrap
          ['a', Char.ofNat 10, 'b', Char.ofNat 10, 'c']
          (to_int (u32 (800 - ((example_mui.margin * 2 : Nat) : Int))
            / example_mui.glyph_width2))) : ℚ) * (16 : ℚ) :=
  ⟨by simp [example_list], rfl, by decide, by decide, rfl,
    (mui_line_height_with_sublabel example_env_sublabel example_mui 800 example_list
      { size := 16 } (by simp [example_list]) rfl (by decide) 2
      ['a', Char.ofNat 10, 'b', Char.ofNat 10, 'c'] (by decide) rfl).1.imp
      (fun _ h => h.imp (fun _ h2 => ⟨h2.1, h2.2.1, h2.2.2.1⟩))⟩

/-- C4: for every entry for which `menu_entry_get_sublabel` reports no sublabel,
`mui_compute_entries_box` counts 0 sublabel lines and sets line_height to exactly the
base row height dpi / 3, the value `mui_list_insert` gives the node of a slot (one
freshly allocated or one already present). -/
theorem mui_line_height_without_sublabel (env : menu_env) (mui : mui_handle_t)
    (width : Int) (list : file_list_t)
    (hnodes : ∀ slot ∈ list, slot ≠ none) (hfont : mui.font ≠ none)
    (hdiv : mui.glyph_width2 ≠ 0 ∨ ∀ i, env.menu_entry_get_sublabel i = none)
    (i : Nat) (hi : i < list.length) (hsub : env.menu_entry_get_sublabel i = none) :
    ∃ (nodes : List mui_node_t) (node : mui_node_t),
      mui_compute_entries_box env mui width list = some (nodes.map some) ∧
      nodes[i]? = some node ∧
      mui_sublabel_lines env mui (u32 (width - ((mui.margin * 2 : Nat) : Int))) i = some 0 ∧
      node.line_height = env.dpi / 3 ∧
      ∀ (l : file_list_t) (label : List Char) (k type : Nat) (v : verbosity_t)
        (slot : Option mui_node_t), l[k]? = some slot →
        (slot ≠ none ∨ env.calloc_succeeds = true) →
        ∃ fresh, mui_list_insert env (some mui) (some l) label k type v
            = some (some (l.set k (some fresh)), v) ∧
          fresh.y = 0 ∧ fresh.line_height = node.line_height := by
  obtain ⟨font, hf⟩ := Option.ne_none_iff_exists'.mp hfont
  obtain ⟨nodes, h1, h2, _, h4⟩ :=
    compute_entries_box_spec env mui width list font hnodes hf hdiv
  have hi2 : i < nodes.length := by omega
  have hlines : mui_sublabel_lines env mui (u32 (width - ((mui.margin * 2 : Nat) : Int))) i
      = some 0 := by
    simp [mui_sublabel_lines, hsub]
  have hlh : nodes[i].line_height = env.dpi / 3 := by
    obtain ⟨lines, hl, hlh⟩ := h4 i nodes[i] (List.getElem?_eq_getElem hi2)
    rw [hlines] at hl
    cases hl
    simpa using hlh
  refine ⟨nodes, nodes[i], h1, List.getElem?_eq_getElem hi2, hlines, hlh, ?_⟩
  intro l label k type v slot hk hslot
  cases slot with
  | some n =>
    refine ⟨mui_list_insert_node env mui n label type, ?_,
      (mui_list_insert_node_line_height env mui n label type).2, ?_⟩
    · simp [mui_list_insert, List.get?_eq_getElem?, hk]
    · rw [hlh]; exact (mui_list_insert_node_line_height env mui n label type).1
  | none =>
    have hc : env.calloc_succeeds = true := by
      rcases hslot with h | h
      · exact absurd rfl h
      · exact h
    refine ⟨mui_list_insert_node env mui mui_node_zero label type, ?_,
      (mui_list_insert_node_line_height env mui mui_node_zero label type).2, ?_⟩
    · simp [mui_list_insert, List.get?_eq_getElem?, hk, hc]
    · rw [hlh]; exact (mui_list_insert_node_line_height env mui mui_node_zero label type).1

/-- Instance of C4: entry 0 of the five-entry list, which has no sublabel. -/
theorem mui_line_height_without_sublabel_witness :
    (∀ slot ∈ example_list, slot ≠ none) ∧ example_mui.font ≠ none ∧
    (example_mui.glyph_width2 ≠ 0 ∨ ∀ i, example_env_sublabel.menu_entry_get_sublabel i = none) ∧
    0 < example_list.length ∧ example_env_sublabel.menu_entry_get_sublabel 0 = none ∧
    ∃ (nodes : List mui_node_t) (node : mui_node_t),
      mui_compute_entries_box example_env_sublabel example_mui 800 example_list
        = some (nodes.map some) ∧
      nodes[0]? = some node ∧
      node.line_height = example_env_sublabel.dpi / 3 :=
  ⟨by simp [example_list], by simp [example_mui], Or.inl (by decide), by decide, rfl,
    (mui_line_height_without_sublabel example_env_sublabel example_mui 800 example_list
      (by simp [example_list]) (by simp [example_mui]) (Or.inl (by decide)) 0 (by decide)
      rfl).imp (fun _ h => h.imp (fun _ h2 => ⟨h2.1, h2.2.1, h2.2.2.2.1⟩))⟩

/-! ## Rendering pass lemmas -/

/-- On a list whose slots all hold a node the scan loop returns an index. -/
theorem mui_scan_loop_total (scroll_y : ℚ) (header_height : Nat) (y : Int) :
    ∀ (nodes : List mui_node_t) (ii ptr : Nat),
      ∃ r, mui_scan_loop scroll_y header_height y ii ptr (nodes.map some) = some r := by
  intro nodes
  induction nodes with
  | nil => intro ii ptr; exact ⟨ptr, rfl⟩
  | cons n rest ih =>
    intro ii ptr
    simp only [List.map_cons, mui_scan_loop]
    exact ih _ _

/-- The scroll position `mui_render` clamps: the position left by the tween driver,
minus the drag acceleration when pointer input is enabled. -/
theorem mui_render_spec (env : menu_env) (st : menu_state) (mui : mui_handle_t)
    (hmui : st.mui = some mui)
    (hnodes : ∀ slot ∈ st.selection_buf, slot ≠ none) (hfont : mui.font ≠ none)
    (hdiv : mui.glyph_width2 ≠ 0 ∨ ∀ i, env.menu_entry_get_sublabel i = none) :
    ∃ (nodes : List mui_node_t) (st' : menu_state),
      mui_compute_entries_box env mui (to_int env.width) st.selection_buf
        = some (nodes.map some) ∧
      mui_render env st = some st' ∧
      st'.selection_buf = nodes.map some ∧
      mui_content_height st'.selection_buf = some ((nodes.map (·.line_height)).sum) ∧
      st'.mui = some { mui with scroll_y :=
        (mui_render_clamp env ((nodes.map (·.line_height)).sum) env.height env.header_height
          mui.tabs_height
          (if env.menu_pointer_enable then env.menu_animation_update mui.scroll_y - st.pointer_accel
           else env.menu_animation_update mui.scroll_y)) } := by
  obtain ⟨font, hf⟩ := Option.ne_none_iff_exists'.mp hfont
  obtain ⟨nodes, h1, _, _, _⟩ :=
    compute_entries_box_spec env mui (to_int env.width) st.selection_buf font hnodes hf hdiv
  have hch : mui_content_height (nodes.map some) = some ((nodes.map (·.line_height)).sum) := by
    unfold mui_content_height
    rw [content_height_loop_eq nodes 0, zero_add]
  cases hp : env.menu_pointer_enable <;> cases hm : env.menu_mouse_enable
  · exact ⟨nodes, _, h1, by simp [mui_render, hmui, h1, hp, hm, hch]; rfl, rfl, hch, by simp⟩
  · obtain ⟨r, hr⟩ := mui_scan_loop_total (env.menu_animation_update mui.scroll_y)
      env.header_height env.mouse_y nodes 0 st.mouse_ptr
    exact ⟨nodes, _, h1, by simp [mui_render, hmui, h1, hp, hm, hch, hr]; rfl, rfl, hch, by simp⟩
  · obtain ⟨r, hr⟩ := mui_scan_loop_total (env.menu_animation_update mui.scroll_y)
      env.header_height env.pointer_y nodes 0 st.pointer_ptr
    exact ⟨nodes, _, h1, by simp [mui_render, hmui, h1, hp, hm, hch, hr]; rfl, rfl, hch, by simp⟩
  · obtain ⟨r, hr⟩ := mui_scan_loop_total (env.menu_animation_update mui.scroll_y)
      env.header_height env.pointer_y nodes 0 st.pointer_ptr
    obtain ⟨r2, hr2⟩ := mui_scan_loop_total
      (env.menu_animation_update mui.scroll_y - st.pointer_accel)
      env.header_height env.mouse_y nodes 0 st.mouse_ptr
    exact ⟨nodes, _, h1, by simp [mui_render, hmui, h1, hp, hm, hch, hr, hr2]; rfl, rfl, hch,
      by simp⟩

/-! ## Scroll clamping lemmas -/

/-- When the content height is below `height - header_height - tabs_height`, it is
also below that difference evaluated in `unsigned` arithmetic. -/
theorem u32_sub_gt (content_height : ℚ) (height header_height tabs_height : Nat)
    (hheight : height < 4294967296)
    (hfit : content_height < (height : ℚ) - (header_height : ℚ) - (tabs_height : ℚ)) :
    content_height
      < ((u32 ((height : Int) - (header_height : Int) - (tabs_height : Int)) : Nat) : ℚ) := by
  unfold u32
  by_cases hneg : content_height < 0
  · exact lt_of_lt_of_le hneg (Nat.cast_nonneg _)
  · push_neg at hneg
    have hpos : (0 : ℚ) < (height : ℚ) - (header_height : ℚ) - (tabs_height : ℚ) :=
      lt_of_le_of_lt hneg hfit
    have hz : (0 : Int) < (height : Int) - (header_height : Int) - (tabs_height : Int) := by
      have : ((0 : Int) : ℚ)
          < (((height : Int) - (header_height : Int) - (tabs_height : Int) : Int) : ℚ) := by
        push_cast
        exact hpos
      exact_mod_cast this
    have hmod : ((height : Int) - (header_height : Int) - (tabs_height : Int)) % 4294967296
        = (height : Int) - (header_height : Int) - (tabs_height : Int) := by
      apply Int.emod_eq_of_lt (le_of_lt hz)
      omega
    rw [hmod]
    have hcast : (((((height : Int) - (header_height : Int) - (tabs_height : Int)).toNat : Nat)
        : Int) : ℚ) = (height : ℚ) - (header_height : ℚ) - (tabs_height : ℚ) := by
      rw [Int.toNat_of_nonneg (le_of_lt hz)]
      push_cast
      rfl
    have hcast2 : ((((height : Int) - (header_height : Int) - (tabs_height : Int)).toNat : Nat)
        : ℚ) = (height : ℚ) - (header_height : ℚ) - (tabs_height : ℚ) := by
      rw [← hcast]
      norm_cast
    rw [hcast2]
    exact hfit

/-- Clamping first at 0 and then at a non-negative bound is `min (max s 0) b`. -/
theorem clamp_core (s b : ℚ) (hb : 0 ≤ b) :
    (if (if s < 0 then 0 else s) > b then b else (if s < 0 then 0 else s))
      = min (max s 0) b := by
  rcases lt_or_le s 0 with h | h
  · rw [if_pos h, max_eq_right (le_of_lt h), if_neg (not_lt.mpr hb), min_eq_left hb]
  · rw [if_neg (not_lt.mpr h), max_eq_left h]
    rcases lt_or_le b s with h2 | h2
    · rw [if_pos h2, min_eq_right (le_of_lt h2)]
    · rw [if_neg (not_lt.mpr h2), min_eq_left h2]

/-- The three statements that end `mui_render` in closed form. -/
theorem mui_render_clamp_eq (env : menu_env) (content_height : ℚ)
    (height header_height tabs_height : Nat) (scroll_y : ℚ) :
    mui_render_clamp env content_height height header_height tabs_height scroll_y
      = if content_height
          < ((u32 ((height : Int) - (header_height : Int) - (tabs_height : Int)) : Nat) : ℚ)
        then 0
        else min (max scroll_y 0) ((float_to_unsigned env
          (content_height - (height : ℚ) + (header_height : ℚ) + (tabs_height : ℚ)) : Nat) : ℚ) := by
  unfold mui_render_clamp
  dsimp only
  rw [clamp_core _ _ (Nat.cast_nonneg _)]

/-- The clamp never leaves a negative scroll position. -/
theorem mui_render_clamp_nonneg (env : menu_env) (content_height : ℚ)
    (height header_height tabs_height : Nat) (scroll_y : ℚ) :
    0 ≤ mui_render_clamp env content_height height header_height tabs_height scroll_y := by
  rw [mui_render_clamp_eq]
  split_ifs
  · exact le_refl _
  · exact le_min (le_max_right _ _) (Nat.cast_nonneg _)

/-- When the content fits, the clamp returns 0. -/
theorem mui_render_clamp_fits (env : menu_env) (content_height : ℚ)
    (height header_height tabs_height : Nat) (scroll_y : ℚ)
    (hheight : height < 4294967296)
    (hfit : content_height < (height : ℚ) - (header_height : ℚ) - (tabs_height : ℚ)) :
    mui_render_clamp env content_height height header_height tabs_height scroll_y = 0 := by
  rw [mui_render_clamp_eq,
    if_pos (u32_sub_gt content_height height header_height tabs_height hheight hfit)]

/-- The value of `bottom` is at most the maximal scroll position unless the content
fits. -/
theorem float_to_unsigned_le (env : menu_env) (v : ℚ) (hv : -1 < v) :
    ((float_to_unsigned env v : Nat) : ℚ) ≤ max 0 v := by
  unfold float_to_unsigned
  split_ifs with h
  · by_cases h0 : 0 ≤ v
    · exact le_trans (Nat.floor_le h0) (le_max_right _ _)
    · push_neg at h0
      rw [Nat.floor_of_nonpos (le_of_lt h0)]
      simp
  · have h2 : (4294967296 : ℚ) ≤ v := by
      by_contra hc
      exact h ⟨hv, not_le.mp hc⟩
    have h3 : env.float_to_unsigned_undefined v % 4294967296 < 4294967296 :=
      Nat.mod_lt _ (by norm_num)
    have h4 : ((env.float_to_unsigned_undefined v % 4294967296 : Nat) : ℚ) ≤ 4294967296 := by
      exact_mod_cast le_of_lt h3
    exact le_trans h4 (le_trans h2 (le_max_right _ _))

/-- The clamp never leaves a scroll position above the maximal one. -/
theorem mui_render_clamp_le (env : menu_env) (content_height : ℚ)
    (height header_height tabs_height : Nat) (scroll_y : ℚ)
    (hheight : height < 4294967296) :
    mui_render_clamp env content_height height header_height tabs_height scroll_y
      ≤ max 0 (content_height - (height : ℚ) + (header_height : ℚ) + (tabs_height : ℚ)) := by
  by_cases hfit : content_height < (height : ℚ) - (header_height : ℚ) - (tabs_height : ℚ)
  · rw [mui_render_clamp_fits env content_height height header_height tabs_height scroll_y
      hheight hfit]
    exact le_max_left _ _
  · have hv : -1 < content_height - (height : ℚ) + (header_height : ℚ) + (tabs_height : ℚ) := by
      push_neg at hfit
      linarith
    have hb := float_to_unsigned_le env _ hv
    rw [mui_render_clamp_eq]
    split_ifs
    · exact le_max_left _ _
    · exact le_trans (min_le_right _ _) hb

/-- When the content does not fit and the chrome is not taller than the viewport, the
clamp is `min (max scroll_y 0)` of the maximal scroll position truncated to a whole
number. -/
theorem mui_render_clamp_exact (env : menu_env) (content_height : ℚ)
    (height header_height tabs_height : Nat) (scroll_y : ℚ)
    (hheight : height < 4294967296)
    (hchrome : header_height + tabs_height ≤ height)
    (hnofit : (height : ℚ) - (header_height : ℚ) - (tabs_height : ℚ) ≤ content_height)
    (hrange : content_height - (height : ℚ) + (header_height : ℚ) + (tabs_height : ℚ)
      < 4294967296) :
    mui_render_clamp env content_height height header_height tabs_height scroll_y
      = min (max scroll_y 0)
          ((⌊content_height - (height : ℚ) + (header_height : ℚ) + (tabs_height : ℚ)⌋₊ : Nat)
            : ℚ) := by
  have hu : ((u32 ((height : Int) - (header_height : Int) - (tabs_height : Int)) : Nat) : ℚ)
      = (height : ℚ) - (header_height : ℚ) - (tabs_height : ℚ) := by
    unfold u32
    have hz : (0 : Int) ≤ (height : Int) - (header_height : Int) - (tabs_height : Int) := by
      omega
    rw [Int.emod_eq_of_lt hz (by omega)]
    have : (((((height : Int) - (header_height : Int) - (tabs_height : Int)).toNat : Nat)
        : Int) : ℚ) = (height : ℚ) - (header_height : ℚ) - (tabs_height : ℚ) := by
      rw [Int.toNat_of_nonneg hz]
      push_cast
      rfl
    rw [← this]
    norm_cast
  have hv : -1 < content_height - (height : ℚ) + (header_height : ℚ) + (tabs_height : ℚ) := by
    linarith
  have hcond : -1 < content_height - (height : ℚ) + (header_height : ℚ) + (tabs_height : ℚ)
      ∧ content_height - (height : ℚ) + (header_height : ℚ) + (tabs_height : ℚ)
        < 4294967296 := ⟨hv, hrange⟩
  rw [mui_render_clamp_eq, hu, if_neg (not_lt.mpr hnofit)]
  unfold float_to_unsigned
  rw [if_pos hcond]

/-- The state after `mui_render`: the recomputed layout, its content height, and the
scroll position as the clamp of the pre-clamp position. -/
theorem mui_render_scroll_eq (env : menu_env) (st : menu_state) (mui : mui_handle_t)
    (hmui : st.mui = some mui)
    (hnodes : ∀ slot ∈ st.selection_buf, slot ≠ none) (hfont : mui.font ≠ none)
    (hdiv : mui.glyph_width2 ≠ 0 ∨ ∀ i, env.menu_entry_get_sublabel i = none) :
    ∃ (st' : menu_state) (mui' : mui_handle_t) (content_height : ℚ),
      mui_render env st = some st' ∧ st'.mui = some mui' ∧
      mui_content_height st'.selection_buf = some content_height ∧
      mui'.tabs_height = mui.tabs_height ∧
      mui'.scroll_y = mui_render_clamp env content_height env.height env.header_height
        mui.tabs_height (mui_render_pre_clamp env st mui) := by
  obtain ⟨nodes, st', _, h2, _, h4, h5⟩ := mui_render_spec env st mui hmui hnodes hfont hdiv
  exact ⟨st', _, _, h2, h5, h4, rfl, rfl⟩

/-- The maximal scroll position 80.5 truncates to 80. -/
theorem floor_161_2 : ⌊(161 / 2 : ℚ)⌋₊ = 80 := by
  rw [Nat.floor_eq_iff (by norm_num)]
  norm_num

/-! ## Claims on scroll clamping -/

/-- C5: after the clamp at the end of `mui_render`, scroll_y lies in [0, maxScroll]
with maxScroll = max(0, contentHeight − viewportHeight + headerHeight + tabsHeight),
for every prior scroll_y, every consumed acceleration and every layout; and content
height 240, viewport height 200, header 40, tabs 0 and scroll_y = 999 clamp to 80. -/
theorem mui_render_scroll_in_range (env : menu_env) (st : menu_state) (mui : mui_handle_t)
    (hmui : st.mui = some mui)
    (hnodes : ∀ slot ∈ st.selection_buf, slot ≠ none) (hfont : mui.font ≠ none)
    (hdiv : mui.glyph_width2 ≠ 0 ∨ ∀ i, env.menu_entry_get_sublabel i = none)
    (hheight : env.height < 4294967296) :
    (∃ (st' : menu_state) (mui' : mui_handle_t) (content_height : ℚ),
      mui_render env st = some st' ∧ st'.mui = some mui' ∧
      mui_content_height st'.selection_buf = some content_height ∧
      0 ≤ mui'.scroll_y ∧
      mui'.scroll_y ≤ max 0 (content_height - (env.height : ℚ) + (env.header_height : ℚ)
        + (mui'.tabs_height : ℚ))) ∧
    (∃ (st' : menu_state) (mui' : mui_handle_t),
      mui_render example_env example_state = some st' ∧ st'.mui = some mui' ∧
      mui_content_height st'.selection_buf = some 240 ∧
      example_env.height = 200 ∧ example_env.header_height = 40 ∧ mui'.tabs_height = 0 ∧
      example_state.mui = some example_mui ∧ example_mui.scroll_y = 999 ∧
      mui'.scroll_y = 80) := by
  constructor
  · obtain ⟨st', mui', ch, h1, h2, h3, h4, h5⟩ :=
      mui_render_scroll_eq env st mui hmui hnodes hfont hdiv
    refine ⟨st', mui', ch, h1, h2, h3, ?_, ?_⟩
    · rw [h5]
      exact mui_render_clamp_nonneg _ _ _ _ _ _
    · rw [h5, h4]
      exact mui_render_clamp_le _ _ _ _ _ _ hheight
  · refine ⟨{ example_state with
        mui := some { example_mui with scroll_y := 80 }
        selection_buf := example_layout 48 },
      { example_mui with scroll_y := 80 }, ?_, rfl, ?_, rfl, rfl, rfl, rfl, rfl, rfl⟩
    · simp [mui_render, mui_compute_entries_box, mui_compute_entries_box_loop, example_list,
        example_mui, example_state, example_env, mui_sublabel_lines, mui_node_zero,
        mui_content_height, mui_content_height_loop, mui_render_clamp, float_to_unsigned, u32,
        example_layout, example_nodes]
      norm_num
    · simp [mui_content_height, mui_content_height_loop, mui_node_zero, example_layout, example_nodes]
      norm_num

/-- Instance of C5: the five-entry list at 144 dpi in a viewport 200 pixels high. -/
theorem mui_render_scroll_in_range_witness :
    example_state.mui = some example_mui ∧
    (∀ slot ∈ example_state.selection_buf, slot ≠ none) ∧ example_mui.font ≠ none ∧
    (example_mui.glyph_width2 ≠ 0 ∨ ∀ i, example_env.menu_entry_get_sublabel i = none) ∧
    example_env.height < 4294967296 ∧
    ∃ (st' : menu_state) (mui' : mui_handle_t) (content_height : ℚ),
      mui_render example_env example_state = some st' ∧ st'.mui = some mui' ∧
      mui_content_height st'.selection_buf = some content_height ∧
      0 ≤ mui'.scroll_y ∧
      mui'.scroll_y ≤ max 0 (content_height - (example_env.height : ℚ)
        + (example_env.header_height : ℚ) + (mui'.tabs_height : ℚ)) :=
  ⟨rfl, by simp [example_state, example_list], by simp [example_mui], Or.inl (by decide),
    by decide,
    (mui_render_scroll_in_range example_env example_state example_mui rfl
      (by simp [example_state, example_list]) (by simp [example_mui]) (Or.inl (by decide))
      (by decide)).1⟩

/-- C6 (as stated) fails: with five rows of height 48.1 (content height 240.5),
viewport height 200, header 40 and tabs 0 the content does not fit and maxScroll is
80.5, yet scroll_y = 999 is clamped to 80, not to min(max(999, 0), 80.5) = 80.5. -/
theorem mui_render_clamp_exact_counterexample :
    ∃ (st' : menu_state) (mui' : mui_handle_t),
      mui_render example_env_fractional example_state = some st' ∧ st'.mui = some mui' ∧
      mui_content_height st'.selection_buf = some (481 / 2) ∧
      example_env_fractional.height = 200 ∧ example_env_fractional.header_height = 40 ∧
      mui'.tabs_height = 0 ∧
      ((200 : ℚ) - 40 - 0 ≤ 481 / 2) ∧
      mui_render_pre_clamp example_env_fractional example_state example_mui = 999 ∧
      mui'.scroll_y = 80 ∧
      mui'.scroll_y ≠ min (max (999 : ℚ) 0) (max 0 (481 / 2 - 200 + 40 + 0)) := by
  refine ⟨{ example_state with
      mui := some { example_mui with scroll_y := 80 }
      selection_buf := example_layout (481 / 10) },
    { example_mui with scroll_y := 80 }, ?_, rfl, ?_, rfl, rfl, rfl, ?_, ?_, rfl, ?_⟩
  · simp [mui_render, mui_compute_entries_box, mui_compute_entries_box_loop, example_list,
      example_mui, example_state, example_env, example_env_fractional, mui_sublabel_lines,
      mui_node_zero, mui_content_height, mui_content_height_loop, mui_render_clamp,
      float_to_unsigned, u32, example_layout, example_nodes]
    norm_num [floor_161_2]
  · simp [mui_content_height, mui_content_height_loop, mui_node_zero, example_layout, example_nodes]
    norm_num
  · norm_num
  · simp [mui_render_pre_clamp, example_env_fractional, example_env, example_mui]
  · norm_num [min_def, max_def]

/-- C6 (amended): for every state in which the content does not fit
(contentHeight ≥ viewportHeight − headerHeight − tabsHeight), the header and the tabs
are together not taller than the viewport, and maxScroll is below 2^32, the clamp in
`mui_render` yields exactly min(max(scroll_y, 0), ⌊maxScroll⌋), maxScroll truncated to
a whole number: a negative scroll_y becomes 0, a scroll_y above ⌊maxScroll⌋ becomes
⌊maxScroll⌋, and a scroll_y within [0, ⌊maxScroll⌋] is left unchanged. -/
theorem mui_render_clamp_truncated (env : menu_env) (st : menu_state) (mui : mui_handle_t)
    (hmui : st.mui = some mui)
    (hnodes : ∀ slot ∈ st.selection_buf, slot ≠ none) (hfont : mui.font ≠ none)
    (hdiv : mui.glyph_width2 ≠ 0 ∨ ∀ i, env.menu_entry_get_sublabel i = none)
    (hheight : env.height < 4294967296)
    (hchrome : env.header_height + mui.tabs_height ≤ env.height) :
    ∃ (st' : menu_state) (mui' : mui_handle_t) (content_height : ℚ),
      mui_render env st = some st' ∧ st'.mui = some mui' ∧
      mui_content_height st'.selection_buf = some content_height ∧
      ((env.height : ℚ) - (env.header_height : ℚ) - (mui.tabs_height : ℚ) ≤ content_height →
       content_height - (env.height : ℚ) + (env.header_height : ℚ) + (mui.tabs_height : ℚ)
         < 4294967296 →
        mui'.scroll_y = min (max (mui_render_pre_clamp env st mui) 0)
          ((⌊content_height - (env.height : ℚ) + (env.header_height : ℚ)
            + (mui.tabs_height : ℚ)⌋₊ : Nat) : ℚ) ∧
        (mui_render_pre_clamp env st mui < 0 → mui'.scroll_y = 0) ∧
        (((⌊content_height - (env.height : ℚ) + (env.header_height : ℚ)
            + (mui.tabs_height : ℚ)⌋₊ : Nat) : ℚ) < mui_render_pre_clamp env st mui →
          mui'.scroll_y = ((⌊content_height - (env.height : ℚ) + (env.header_height : ℚ)
            + (mui.tabs_height : ℚ)⌋₊ : Nat) : ℚ)) ∧
        (0 ≤ mui_render_pre_clamp env st mui →
          mui_render_pre_clamp env st mui ≤ ((⌊content_height - (env.height : ℚ)
            + (env.header_height : ℚ) + (mui.tabs_height : ℚ)⌋₊ : Nat) : ℚ) →
          mui'.scroll_y = mui_render_pre_clamp env st mui)) := by
  obtain ⟨st', mui', ch, h1, h2, h3, _, h5⟩ :=
    mui_render_scroll_eq env st mui hmui hnodes hfont hdiv
  refine ⟨st', mui', ch, h1, h2, h3, ?_⟩
  intro hnofit hrange
  have hexact := mui_render_clamp_exact env ch env.height env.header_height mui.tabs_height
    (mui_render_pre_clamp env st mui) hheight hchrome hnofit hrange
  rw [← h5] at hexact
  have hb : (0 : ℚ) ≤ ((⌊ch - (env.height : ℚ) + (env.header_height : ℚ)
      + (mui.tabs_height : ℚ)⌋₊ : Nat) : ℚ) := Nat.cast_nonneg _
  refine ⟨hexact, ?_, ?_, ?_⟩
  · intro hneg
    rw [hexact, max_eq_right (le_of_lt hneg), min_eq_left hb]
  · intro habove
    rw [hexact, max_eq_left (le_trans hb (le_of_lt habove)), min_eq_right (le_of_lt habove)]
  · intro h0 hle
    rw [hexact, max_eq_left h0, min_eq_left hle]

/-- Instance of C6 (amended): five rows of height 48.1 in a viewport 200 pixels high;
the instance satisfies both inner conditions and scroll_y = 999 becomes 80. -/
theorem mui_render_clamp_truncated_witness :
    example_state.mui = some example_mui ∧
    (∀ slot ∈ example_state.selection_buf, slot ≠ none) ∧ example_mui.font ≠ none ∧
    (example_mui.glyph_width2 ≠ 0
      ∨ ∀ i, example_env_fractional.menu_entry_get_sublabel i = none) ∧
    example_env_fractional.height < 4294967296 ∧
    example_env_fractional.header_height + example_mui.tabs_height
      ≤ example_env_fractional.height ∧
    ∃ (st' : menu_state) (mui' : mui_handle_t) (content_height : ℚ),
      mui_render example_env_fractional example_state = some st' ∧ st'.mui = some mui' ∧
      mui_content_height st'.selection_buf = some content_height ∧
      ((example_env_fractional.height : ℚ) - (example_env_fractional.header_height : ℚ)
          - (example_mui.tabs_height : ℚ) ≤ content_height →
       content_height - (example_env_fractional.height : ℚ)
          + (example_env_fractional.header_height : ℚ) + (example_mui.tabs_height : ℚ)
         < 4294967296 →
        mui'.scroll_y = min (max (mui_render_pre_clamp example_env_fractional example_state
            example_mui) 0)
          ((⌊content_height - (example_env_fractional.height : ℚ)
            + (example_env_fractional.header_height : ℚ)
            + (example_mui.tabs_height : ℚ)⌋₊ : Nat) : ℚ)) :=
  ⟨rfl, by simp [example_state, example_list], by simp [example_mui], Or.inl (by decide),
    by decide, by decide,
    (mui_render_clamp_truncated example_env_fractional example_state example_mui rfl
      (by simp [example_state, example_list]) (by simp [example_mui]) (Or.inl (by decide))
      (by decide) (by decide)).imp (fun _ h => h.imp (fun _ h2 => h2.imp (fun _ h3 =>
        ⟨h3.1, h3.2.1, h3.2.2.1, fun a b => (h3.2.2.2 a b).1⟩)))⟩

/-- C7: whenever contentHeight < viewportHeight − headerHeight − tabsHeight,
`mui_render` leaves scroll_y = 0, for every prior scroll_y and every consumed
acceleration. -/
theorem mui_render_content_fits (env : menu_env) (st : menu_state) (mui : mui_handle_t)
    (hmui : st.mui = some mui)
    (hnodes : ∀ slot ∈ st.selection_buf, slot ≠ none) (hfont : mui.font ≠ none)
    (hdiv : mui.glyph_width2 ≠ 0 ∨ ∀ i, env.menu_entry_get_sublabel i = none)
    (hheight : env.height < 4294967296) :
    ∃ (st' : menu_state) (mui' : mui_handle_t) (content_height : ℚ),
      mui_render env st = some st' ∧ st'.mui = some mui' ∧
      mui_content_height st'.selection_buf = some content_height ∧
      (content_height < (env.height : ℚ) - (env.header_height : ℚ) - (mui'.tabs_height : ℚ) →
        mui'.scroll_y = 0) := by
  obtain ⟨st', mui', ch, h1, h2, h3, h4, h5⟩ :=
    mui_render_scroll_eq env st mui hmui hnodes hfont hdiv
  refine ⟨st', mui', ch, h1, h2, h3, ?_⟩
  intro hfit
  rw [h4] at hfit
  rw [h5]
  exact mui_render_clamp_fits _ _ _ _ _ _ hheight hfit

/-- Instance of C7: the five-entry list (content height 240) in a viewport 400 pixels
high with header 40 and tabs 0; scroll_y = 999 becomes 0. -/
theorem mui_render_content_fits_witness :
    (example_state.mui = some example_mui ∧
    (∀ slot ∈ example_state.selection_buf, slot ≠ none) ∧ example_mui.font ≠ none ∧
    (example_mui.glyph_width2 ≠ 0 ∨ ∀ i, example_env_tall.menu_entry_get_sublabel i = none) ∧
    example_env_tall.height < 4294967296 ∧
    ∃ (st' : menu_state) (mui' : mui_handle_t) (content_height : ℚ),
      mui_render example_env_tall example_state = some st' ∧ st'.mui = some mui' ∧
      mui_content_height st'.selection_buf = some content_height ∧
      (content_height < (example_env_tall.height : ℚ) - (example_env_tall.header_height : ℚ)
          - (mui'.tabs_height : ℚ) →
        mui'.scroll_y = 0)) ∧
    (∃ (st' : menu_state) (mui' : mui_handle_t),
      mui_render example_env_tall example_state = some st' ∧ st'.mui = some mui' ∧
      mui_content_height st'.selection_buf = some 240 ∧
      (240 : ℚ) < (example_env_tall.height : ℚ) - (example_env_tall.header_height : ℚ)
          - (mui'.tabs_height : ℚ) ∧
      mui'.scroll_y = 0) := by
  refine ⟨⟨rfl, by simp [example_state, example_list], by simp [example_mui],
    Or.inl (by decide), by decide,
    mui_render_content_fits example_env_tall example_state example_mui rfl
      (by simp [example_state, example_list]) (by simp [example_mui]) (Or.inl (by decide))
      (by decide)⟩, ?_⟩
  refine ⟨{ example_state with
      mui := some { example_mui with scroll_y := 0 }
      selection_buf := example_layout 48 },
    { example_mui with scroll_y := 0 }, ?_, rfl, ?_, ?_, rfl⟩
  · simp [mui_render, mui_compute_entries_box, mui_compute_entries_box_loop, example_list,
      example_mui, example_state, example_env, example_env_tall, mui_sublabel_lines,
      mui_node_zero, mui_content_height, mui_content_height_loop, mui_render_clamp,
      float_to_unsigned, u32, example_layout, example_nodes]
    norm_num
  · simp [mui_content_height, mui_content_height_loop, mui_node_zero, example_layout, example_nodes]
    norm_num
  · norm_num [example_env_tall, example_env, example_mui]

/-- C8 (as stated) fails: with five rows of height 38 (content height 190) in a
viewport 200 pixels high, header 40 and tabs 0, the viewport is at least as high as
the content, yet scroll_y = 999 is clamped to 30: not 0, and above
max(0, 190 − 200) = 0. -/
theorem mui_render_viewport_ge_content_counterexample :
    ∃ (st' : menu_state) (mui' : mui_handle_t),
      mui_render example_env_short example_state = some st' ∧ st'.mui = some mui' ∧
      mui_content_height st'.selection_buf = some 190 ∧
      example_env_short.height = 200 ∧ (190 : ℚ) ≤ (example_env_short.height : ℚ) ∧
      mui'.scroll_y = 30 ∧ mui'.scroll_y ≠ 0 ∧
      ¬ (mui'.scroll_y ≤ max 0 (190 - (example_env_short.height : ℚ))) := by
  refine ⟨{ example_state with
      mui := some { example_mui with scroll_y := 30 }
      selection_buf := example_layout 38 },
    { example_mui with scroll_y := 30 }, ?_, rfl, ?_, rfl, ?_, rfl, ?_, ?_⟩
  · simp [mui_render, mui_compute_entries_box, mui_compute_entries_box_loop, example_list,
      example_mui, example_state, example_env, example_env_short, mui_sublabel_lines,
      mui_node_zero, mui_content_height, mui_content_height_loop, mui_render_clamp,
      float_to_unsigned, u32, example_layout, example_nodes]
    norm_num
  · simp [mui_content_height, mui_content_height_loop, mui_node_zero, example_layout, example_nodes]
    norm_num
  · norm_num [example_env_short, example_env]
  · norm_num
  · norm_num [example_env_short, example_env]

/-- C8 (amended): for every state whose viewport height is greater than or equal to
the total content height plus the header and tab heights, scroll_y is 0 after the
clamp in `mui_render`; i.e. scroll_y never exceeds
max(0, totalContentHeight − viewportHeight + headerHeight + tabsHeight). -/
theorem mui_render_viewport_ge_content_chrome (env : menu_env) (st : menu_state)
    (mui : mui_handle_t) (hmui : st.mui = some mui)
    (hnodes : ∀ slot ∈ st.selection_buf, slot ≠ none) (hfont : mui.font ≠ none)
    (hdiv : mui.glyph_width2 ≠ 0 ∨ ∀ i, env.menu_entry_get_sublabel i = none)
    (hheight : env.height < 4294967296) :
    ∃ (st' : menu_state) (mui' : mui_handle_t) (content_height : ℚ),
      mui_render env st = some st' ∧ st'.mui = some mui' ∧
      mui_content_height st'.selection_buf = some content_height ∧
      (content_height + (env.header_height : ℚ) + (mui'.tabs_height : ℚ) ≤ (env.height : ℚ) →
        mui'.scroll_y = 0) ∧
      mui'.scroll_y ≤ max 0 (content_height - (env.height : ℚ) + (env.header_height : ℚ)
        + (mui'.tabs_height : ℚ)) := by
  obtain ⟨st', mui', ch, h1, h2, h3, h4, h5⟩ :=
    mui_render_scroll_eq env st mui hmui hnodes hfont hdiv
  have hle : mui'.scroll_y ≤ max 0 (ch - (env.height : ℚ) + (env.header_height : ℚ)
      + (mui'.tabs_height : ℚ)) := by
    rw [h5, h4]
    exact mui_render_clamp_le _ _ _ _ _ _ hheight
  have hge : 0 ≤ mui'.scroll_y := by
    rw [h5]
    exact mui_render_clamp_nonneg _ _ _ _ _ _
  refine ⟨st', mui', ch, h1, h2, h3, ?_, hle⟩
  intro hfit
  have hmax : max 0 (ch - (env.height : ℚ) + (env.header_height : ℚ)
      + (mui'.tabs_height : ℚ)) = 0 := by
    apply max_eq_left
    linarith
  rw [hmax] at hle
  exact le_antisymm hle hge

/-- Instance of C8 (amended): the five-entry list (content height 240) in a viewport
400 pixels high with header 40 and tabs 0; scroll_y = 999 becomes 0. -/
theorem mui_render_viewport_ge_content_chrome_witness :
    (example_state.mui = some example_mui ∧
    (∀ slot ∈ example_state.selection_buf, slot ≠ none) ∧ example_mui.font ≠ none ∧
    (example_mui.glyph_width2 ≠ 0 ∨ ∀ i, example_env_tall.menu_entry_get_sublabel i = none) ∧
    example_env_tall.height < 4294967296 ∧
    ∃ (st' : menu_state) (mui' : mui_handle_t) (content_height : ℚ),
      mui_render example_env_tall example_state = some st' ∧ st'.mui = some mui' ∧
      mui_content_height st'.selection_buf = some content_height ∧
      (content_height + (example_env_tall.header_height : ℚ) + (mui'.tabs_height : ℚ)
          ≤ (example_env_tall.height : ℚ) →
        mui'.scroll_y = 0) ∧
      mui'.scroll_y ≤ max 0 (content_height - (example_env_tall.height : ℚ)
        + (example_env_tall.header_height : ℚ) + (mui'.tabs_height : ℚ))) ∧
    ((240 : ℚ) + (example_env_tall.header_height : ℚ) + (example_mui.tabs_height : ℚ)
      ≤ (example_env_tall.height : ℚ)) := by
  refine ⟨⟨rfl, by simp [example_state, example_list], by simp [example_mui],
    Or.inl (by decide), by decide,
    mui_render_viewport_ge_content_chrome example_env_tall example_state example_mui rfl
      (by simp [example_state, example_list]) (by simp [example_mui]) (Or.inl (by decide))
      (by decide)⟩, ?_⟩
  norm_num [example_env_tall, example_env, example_mui]

/-! ## Hit-testing lemmas -/

/-- Whatever list `mui_compute_entries_box_loop` returns holds a node in every slot,
laid out without gaps from the starting offset. -/
theorem compute_loop_contiguous (env : menu_env) (mui : mui_handle_t) (uw : Nat) (scale : ℚ) :
    ∀ (l : file_list_t) (i : Nat) (s : ℚ) (out : file_list_t),
      mui_compute_entries_box_loop env mui uw scale i s l = some out →
      ∃ nodes : List mui_node_t, out = nodes.map some ∧ contiguous_from s nodes := by
  intro l
  induction l with
  | nil =>
    intro i s out h
    simp only [mui_compute_entries_box_loop, Option.some.injEq] at h
    subst h
    exact ⟨[], rfl, trivial⟩
  | cons slot rest ih =>
    intro i s out h
    cases slot with
    | none => simp [mui_compute_entries_box_loop] at h
    | some node =>
      simp only [mui_compute_entries_box_loop] at h
      cases hl : mui_sublabel_lines env mui uw i with
      | none => simp [hl] at h
      | some lines =>
        cases hf : mui.font with
        | none => simp [hl, hf] at h
        | some font =>
          cases hr : mui_compute_entries_box_loop env mui uw scale (i + 1)
              (s + (scale / 3 + (lines : ℚ) * font.size)) rest with
          | none => simp [hl, hf, hr] at h
          | some rest' =>
            simp [hl, hf, hr] at h
            obtain ⟨nodes, hn, hc⟩ := ih _ _ _ hr
            subst h
            exact ⟨{ node with line_height := scale / 3 + (lines : ℚ) * font.size, y := s }
              :: nodes, by simp [hn], rfl, hc⟩

/-- The nodes of a list returned by `mui_compute_entries_box` are laid out without
gaps from offset 0. -/
theorem compute_entries_box_contiguous_of_eq (env : menu_env) (mui : mui_handle_t)
    (width : Int) (list : file_list_t) (nodes : List mui_node_t)
    (h : mui_compute_entries_box env mui width list = some (nodes.map some)) :
    contiguous_from 0 nodes := by
  obtain ⟨nodes', hn, hc⟩ := compute_loop_contiguous env mui _ _ list 0 0 _ h
  have : nodes = nodes' := List.map_injective_iff.mpr (Option.some_injective _) hn
  rw [this]
  exact hc

/-- The test of the scans, in content coordinates: the interval is open at both ends. -/
theorem mui_entry_hit_eq_true_iff (scroll_y : ℚ) (header_height : Nat) (y : Int)
    (node : mui_node_t) :
    mui_entry_hit scroll_y header_height y node = true ↔
      node.y < (y : ℚ) + scroll_y - (header_height : ℚ) ∧
      (y : ℚ) + scroll_y - (header_height : ℚ) < node.y + node.line_height := by
  unfold mui_entry_hit
  rw [Bool.and_eq_true, decide_eq_true_eq, decide_eq_true_eq]
  constructor
  · rintro ⟨h1, h2⟩
    exact ⟨by linarith, by linarith⟩
  · rintro ⟨h1, h2⟩
    exact ⟨by linarith, by linarith⟩

/-- In a gapless layout, a content coordinate strictly inside the content that is not
the top edge of any node passes the test of some node. -/
theorem contiguous_from_cover (scroll_y : ℚ) (header_height : Nat) (y : Int) :
    ∀ (nodes : List mui_node_t) (s : ℚ), contiguous_from s nodes →
      s < (y : ℚ) + scroll_y - (header_height : ℚ) →
      (y : ℚ) + scroll_y - (header_height : ℚ) < s + (nodes.map (·.line_height)).sum →
      (∀ a ∈ nodes, a.y ≠ (y : ℚ) + scroll_y - (header_height : ℚ)) →
      ∃ (i : Nat) (a : mui_node_t),
        nodes[i]? = some a ∧ mui_entry_hit scroll_y header_height y a = true := by
  intro nodes
  induction nodes with
  | nil =>
    intro s _ h1 h2 _
    simp at h2
    linarith
  | cons n rest ih =>
    intro s hc h1 h2 hne
    by_cases hin : (y : ℚ) + scroll_y - (header_height : ℚ) < n.y + n.line_height
    · refine ⟨0, n, by simp, ?_⟩
      rw [mui_entry_hit_eq_true_iff]
      exact ⟨by rw [hc.1]; exact h1, hin⟩
    · push_neg at hin
      rw [hc.1] at hin
      have hrest : s + n.line_height < (y : ℚ) + scroll_y - (header_height : ℚ) := by
        rcases lt_or_eq_of_le hin with hlt | heq
        · exact hlt
        · exfalso
          cases rest with
          | nil =>
            simp at h2
            linarith
          | cons m rest2 =>
            have hm : m.y = s + n.line_height := hc.2.1
            exact hne m (by simp) (by rw [hm]; exact heq)
      have h2' : (y : ℚ) + scroll_y - (header_height : ℚ)
          < s + n.line_height + (rest.map (·.line_height)).sum := by
        simp only [List.map_cons, List.sum_cons] at h2
        linarith
      obtain ⟨i, a, hi, ha⟩ := ih (s + n.line_height) hc.2 hrest h2'
        (fun a hmem => hne a (List.mem_cons_of_mem _ hmem))
      exact ⟨i + 1, a, by simpa using hi, ha⟩

/-- The result of the scan loop: an index whose node passes the test, or the index
kept before when no node passes. -/
theorem mui_scan_loop_spec (scroll_y : ℚ) (header_height : Nat) (y : Int) :
    ∀ (nodes : List mui_node_t) (ii ptr : Nat),
      ∃ r, mui_scan_loop scroll_y header_height y ii ptr (nodes.map some) = some r ∧
        ((∃ k a, r = ii + k ∧ nodes[k]? = some a ∧
            mui_entry_hit scroll_y header_height y a = true) ∨
          (r = ptr ∧ ∀ a ∈ nodes, mui_entry_hit scroll_y header_height y a = false)) := by
  intro nodes
  induction nodes with
  | nil =>
    intro ii ptr
    exact ⟨ptr, rfl, Or.inr ⟨rfl, by simp⟩⟩
  | cons n rest ih =>
    intro ii ptr
    obtain ⟨r, hr, hcase⟩ := ih (ii + 1)
      (if mui_entry_hit scroll_y header_height y n then ii else ptr)
    refine ⟨r, by simpa [mui_scan_loop] using hr, ?_⟩
    rcases hcase with ⟨k, a, hk, ha, hhit⟩ | ⟨hrp, hall⟩
    · exact Or.inl ⟨k + 1, a, by omega, by simpa using ha, hhit⟩
    · by_cases hn : mui_entry_hit scroll_y header_height y n = true
      · rw [if_pos hn] at hrp
        exact Or.inl ⟨0, n, by omega, by simp, hn⟩
      · rw [if_neg hn] at hrp
        refine Or.inr ⟨hrp, ?_⟩
        intro a ha
        rcases List.mem_cons.mp ha with h | h
        · rw [h]; exact Bool.eq_false_iff.mpr hn
        · exact hall a h

/-- The scan loop of `mui_pointer_up` triggers the select action of an entry exactly
when that entry is the pressed one, the callback is set and its node passes the test. -/
theorem mui_pointer_up_loop_spec (scroll_y : ℚ) (header_height : Nat) (y : Int) (ptr : Nat)
    (action_select : Bool) :
    ∀ (nodes : List mui_node_t) (ii : Nat),
      ∃ r, mui_pointer_up_loop scroll_y header_height y ptr action_select ii (nodes.map some)
          = some r ∧
        ∀ i, r = some i ↔ (i = ptr ∧ action_select = true ∧
          ∃ k a, ptr = ii + k ∧ nodes[k]? = some a ∧
            mui_entry_hit scroll_y header_height y a = true) := by
  intro nodes
  induction nodes with
  | nil =>
    intro ii
    refine ⟨none, rfl, ?_⟩
    intro i
    simp
  | cons n rest ih =>
    intro ii
    by_cases hcond : (mui_entry_hit scroll_y header_height y n && decide (ptr = ii)
        && action_select) = true
    · refine ⟨some ii, by simp only [List.map_cons, mui_pointer_up_loop, if_pos hcond], ?_⟩
      simp only [Bool.and_eq_true, decide_eq_true_eq] at hcond
      obtain ⟨⟨hhit, hptr⟩, hsel⟩ := hcond
      intro i
      constructor
      · intro hi
        cases hi
        exact ⟨hptr.symm, hsel, 0, n, by omega, by simp, hhit⟩
      · rintro ⟨hi, _, _⟩
        rw [hi, hptr]
    · obtain ⟨r, hr, hspec⟩ := ih (ii + 1)
      refine ⟨r, by simp only [List.map_cons, mui_pointer_up_loop, if_neg hcond]; exact hr, ?_⟩
      intro i
      rw [hspec i]
      constructor
      · rintro ⟨hi, hsel, k, a, hk, ha, hhit⟩
        exact ⟨hi, hsel, k + 1, a, by omega, by simpa using ha, hhit⟩
      · rintro ⟨hi, hsel, k, a, hk, ha, hhit⟩
        cases k with
        | zero =>
          exfalso
          apply hcond
          simp only [List.getElem?_cons_zero, Option.some.injEq] at ha
          subst ha
          simp [hhit, hsel, hk]
        | succ k =>
          exact ⟨hi, hsel, k, a, by omega, by simpa using ha, hhit⟩

/-- In a gapless layout with non-negative heights no node starts above the offset. -/
theorem contiguous_from_le_y : ∀ (nodes : List mui_node_t) (s : ℚ),
    contiguous_from s nodes → (∀ a ∈ nodes, 0 ≤ a.line_height) → ∀ a ∈ nodes, s ≤ a.y := by
  intro nodes
  induction nodes with
  | nil => intro s _ _ a ha; simp at ha
  | cons n rest ih =>
    intro s hc hnn a ha
    rcases List.mem_cons.mp ha with h | h
    · rw [h, hc.1]
    · have h1 := ih (s + n.line_height) hc.2 (fun b hb => hnn b (List.mem_cons_of_mem _ hb)) a h
      have h2 := hnn n (by simp)
      linarith

/-- In a gapless layout with non-negative heights, when the first node passes the test
no later node does. -/
theorem contiguous_from_hit_head (scroll_y : ℚ) (header_height : Nat) (y : Int)
    (n : mui_node_t) (rest : List mui_node_t) (s : ℚ)
    (hc : contiguous_from s (n :: rest)) (hnn : ∀ a ∈ n :: rest, 0 ≤ a.line_height)
    (hhit : mui_entry_hit scroll_y header_height y n = true) :
    ∀ a ∈ rest, mui_entry_hit scroll_y header_height y a = false := by
  intro a ha
  rw [mui_entry_hit_eq_true_iff] at hhit
  have hle := contiguous_from_le_y rest (s + n.line_height) hc.2
    (fun b hb => hnn b (List.mem_cons_of_mem _ hb)) a ha
  rw [Bool.eq_false_iff]
  intro hcon
  rw [mui_entry_hit_eq_true_iff] at hcon
  have := hc.1
  linarith [hcon.1, hhit.2]

/-- In a gapless layout with non-negative heights at most one node passes the test. -/
theorem contiguous_from_hit_unique (scroll_y : ℚ) (header_height : Nat) (y : Int) :
    ∀ (nodes : List mui_node_t) (s : ℚ), contiguous_from s nodes →
      (∀ a ∈ nodes, 0 ≤ a.line_height) →
      ∀ (i j : Nat) (a b : mui_node_t), nodes[i]? = some a → nodes[j]? = some b →
        mui_entry_hit scroll_y header_height y a = true →
        mui_entry_hit scroll_y header_height y b = true → i = j := by
  intro nodes
  induction nodes with
  | nil => intro s _ _ i j a b ha; simp at ha
  | cons n rest ih =>
    intro s hc hnn i j a b ha hb hhita hhitb
    cases i with
    | zero =>
      cases j with
      | zero => rfl
      | succ j =>
        exfalso
        simp only [List.getElem?_cons_zero, Option.some.injEq] at ha
        simp only [List.getElem?_cons_succ] at hb
        subst ha
        have := contiguous_from_hit_head scroll_y header_height y n rest s hc hnn hhita b
          (List.getElem?_mem hb)
        rw [this] at hhitb
        cases hhitb
    | succ i =>
      cases j with
      | zero =>
        exfalso
        simp only [List.getElem?_cons_zero, Option.some.injEq] at hb
        simp only [List.getElem?_cons_succ] at ha
        subst hb
        have := contiguous_from_hit_head scroll_y header_height y n rest s hc hnn hhitb a
          (List.getElem?_mem ha)
        rw [this] at hhita
        cases hhita
      | succ j =>
        simp only [List.getElem?_cons_succ] at ha hb
        have := ih (s + n.line_height) hc.2 (fun c hcm => hnn c (List.mem_cons_of_mem _ hcm))
          i j a b ha hb hhita hhitb
        omega

/-- When no node passes the test the scan loop keeps the index it started with. -/
theorem mui_scan_loop_no_hit (scroll_y : ℚ) (header_height : Nat) (y : Int) :
    ∀ (nodes : List mui_node_t) (ii ptr : Nat),
      (∀ a ∈ nodes, mui_entry_hit scroll_y header_height y a = false) →
      mui_scan_loop scroll_y header_height y ii ptr (nodes.map some) = some ptr := by
  intro nodes
  induction nodes with
  | nil => intro ii ptr _; rfl
  | cons n rest ih =>
    intro ii ptr hall
    have hn : mui_entry_hit scroll_y header_height y n = false := hall n (by simp)
    simp only [List.map_cons, mui_scan_loop, hn]
    exact ih (ii + 1) ptr (fun a ha => hall a (List.mem_cons_of_mem _ ha))

/-- On a gapless layout with non-negative heights the last-match scan of the code
returns what the first-match scan of the specification returns. -/
theorem mui_scan_loop_eq_first_match (scroll_y : ℚ) (header_height : Nat) (y : Int) :
    ∀ (nodes : List mui_node_t) (s : ℚ) (ii ptr : Nat), contiguous_from s nodes →
      (∀ a ∈ nodes, 0 ≤ a.line_height) →
      mui_scan_loop scroll_y header_height y ii ptr (nodes.map some)
        = some ((hit_test_first_match scroll_y header_height y ii nodes).getD ptr) := by
  intro nodes
  induction nodes with
  | nil => intro s ii ptr _ _; rfl
  | cons n rest ih =>
    intro s ii ptr hc hnn
    by_cases hn : mui_entry_hit scroll_y header_height y n = true
    · simp only [List.map_cons, mui_scan_loop, hit_test_first_match, if_pos hn]
      exact mui_scan_loop_no_hit scroll_y header_height y rest (ii + 1) ii
        (contiguous_from_hit_head scroll_y header_height y n rest s hc hnn hn)
    · simp only [List.map_cons, mui_scan_loop, hit_test_first_match, if_neg hn]
      exact ih (s + n.line_height) (ii + 1) ptr hc.2
        (fun a ha => hnn a (List.mem_cons_of_mem _ ha))

/-- The layout `mui_compute_entries_box` produces for the five-entry list at 144 dpi. -/
theorem example_compute_eq :
    mui_compute_entries_box example_env example_mui 800 example_list
      = some ((example_nodes 48).map some) := by
  simp [mui_compute_entries_box, mui_compute_entries_box_loop, example_list, example_mui,
    example_env, mui_sublabel_lines, mui_node_zero, example_nodes]
  norm_num

/-! ## Claims on hit-testing -/

/-- C9 (as stated) fails: in the layout of five rows of height 48, with header height
40 and scroll_y = 0, the pointer at y = 88 has contentY = 48, the top edge of entry 1
and inside [0, 240), yet entry 1 does not pass the test and the scan reports no entry
(the index 7 it started with is kept). -/
theorem mui_entry_hit_half_open_counterexample :
    ∃ node : mui_node_t,
      mui_compute_entries_box example_env example_mui 800 example_list
        = some ((example_nodes 48).map some) ∧
      (example_nodes 48)[1]? = some node ∧
      (node.y ≤ ((88 : Int) : ℚ) + 0 - ((40 : Nat) : ℚ) ∧
        ((88 : Int) : ℚ) + 0 - ((40 : Nat) : ℚ) < node.y + node.line_height) ∧
      mui_entry_hit 0 40 88 node = false ∧
      ((0 : ℚ) ≤ ((88 : Int) : ℚ) + 0 - ((40 : Nat) : ℚ) ∧
        ((88 : Int) : ℚ) + 0 - ((40 : Nat) : ℚ)
          < ((example_nodes 48).map (·.line_height)).sum) ∧
      mui_scan_loop 0 40 88 0 7 ((example_nodes 48).map some) = some 7 := by
  refine ⟨{ mui_node_zero with line_height := 48, y := 48 }, example_compute_eq, ?_, ?_, ?_,
    ?_, ?_⟩
  · simp [example_nodes]
  · norm_num
  · simp [mui_entry_hit]
    norm_num
  · norm_num [example_nodes]
  · apply mui_scan_loop_no_hit
    intro a ha
    simp only [example_nodes, List.mem_cons, List.mem_singleton, List.not_mem_nil,
      or_false] at ha
    rw [Bool.eq_false_iff, Ne, mui_entry_hit_eq_true_iff]
    rcases ha with h | h | h | h | h <;> subst h <;> norm_num

/-- C9 (amended): for every pointer y, scroll_y, header height and layout, the entry
hit-test (the scan in `mui_pointer_down`, `mui_pointer_up` and `mui_render`) matches
entry i exactly when contentY = y + scroll_y − headerHeight satisfies
node[i].y < contentY < node[i].y + node[i].line_height: the interval is open, so a
coordinate exactly on an entry's top edge does not hit that entry, and every contentY
in [0, totalContentHeight) that is not the top edge of an entry hits some entry. -/
theorem mui_entry_hit_open_interval (scroll_y : ℚ) (header_height : Nat) (y : Int) :
    (∀ node : mui_node_t, mui_entry_hit scroll_y header_height y node = true ↔
      node.y < (y : ℚ) + scroll_y - (header_height : ℚ) ∧
      (y : ℚ) + scroll_y - (header_height : ℚ) < node.y + node.line_height) ∧
    (∀ node : mui_node_t, node.y = (y : ℚ) + scroll_y - (header_height : ℚ) →
      mui_entry_hit scroll_y header_height y node = false) ∧
    (∀ (nodes : List mui_node_t) (ptr : Nat),
      ∃ r, mui_scan_loop scroll_y header_height y 0 ptr (nodes.map some) = some r ∧
        ((∃ a, nodes[r]? = some a ∧ mui_entry_hit scroll_y header_height y a = true) ∨
          (r = ptr ∧ ∀ a ∈ nodes, mui_entry_hit scroll_y header_height y a = false))) ∧
    (∀ (nodes : List mui_node_t) (ptr : Nat) (action_select : Bool),
      ∃ r, mui_pointer_up_loop scroll_y header_height y ptr action_select 0 (nodes.map some)
          = some r ∧
        ∀ i, r = some i ↔ (i = ptr ∧ action_select = true ∧
          ∃ a, nodes[i]? = some a ∧ mui_entry_hit scroll_y header_height y a = true)) ∧
    (∀ (env : menu_env) (mui : mui_handle_t) (width : Int) (list : file_list_t)
      (nodes : List mui_node_t),
      mui_compute_entries_box env mui width list = some (nodes.map some) →
      0 ≤ (y : ℚ) + scroll_y - (header_height : ℚ) →
      (y : ℚ) + scroll_y - (header_height : ℚ) < (nodes.map (·.line_height)).sum →
      (∀ a ∈ nodes, a.y ≠ (y : ℚ) + scroll_y - (header_height : ℚ)) →
      ∃ (i : Nat) (a : mui_node_t),
        nodes[i]? = some a ∧ mui_entry_hit scroll_y header_height y a = true) := by
  refine ⟨mui_entry_hit_eq_true_iff scroll_y header_height y, ?_, ?_, ?_, ?_⟩
  · intro node hy
    rw [Bool.eq_false_iff, Ne, mui_entry_hit_eq_true_iff]
    intro h
    exact absurd hy (ne_of_lt h.1)
  · intro nodes ptr
    obtain ⟨r, hr, hcase⟩ := mui_scan_loop_spec scroll_y header_height y nodes 0 ptr
    refine ⟨r, hr, ?_⟩
    rcases hcase with ⟨k, a, hk, ha, hhit⟩ | h
    · rw [Nat.zero_add] at hk
      subst hk
      exact Or.inl ⟨a, ha, hhit⟩
    · exact Or.inr h
  · intro nodes ptr action_select
    obtain ⟨r, hr, hspec⟩ :=
      mui_pointer_up_loop_spec scroll_y header_height y ptr action_select nodes 0
    refine ⟨r, hr, ?_⟩
    intro i
    rw [hspec i]
    constructor
    · rintro ⟨hi, hsel, k, a, hk, ha, hhit⟩
      rw [Nat.zero_add] at hk
      subst hk
      subst hi
      exact ⟨rfl, hsel, a, ha, hhit⟩
    · rintro ⟨hi, hsel, a, ha, hhit⟩
      subst hi
      exact ⟨rfl, hsel, i, a, by omega, ha, hhit⟩
  · intro env mui width list nodes hcompute h0 hlt hne
    have hc := compute_entries_box_contiguous_of_eq env mui width list nodes hcompute
    have hpos : (0 : ℚ) < (y : ℚ) + scroll_y - (header_height : ℚ) := by
      rcases lt_or_eq_of_le h0 with h | h
      · exact h
      · exfalso
        cases nodes with
        | nil =>
          simp at hlt
          linarith
        | cons n rest => exact hne n (by simp) (by rw [hc.1]; exact h)
    exact contiguous_from_cover scroll_y header_height y nodes 0 hc hpos
      (by rw [zero_add]; exact hlt) hne

/-- C10: for every layout produced by `mui_compute_entries_box` with non-negative line
heights, and every y and scroll_y, at most one entry index satisfies the hit
condition; hence the scan of the code, which has no early exit and keeps the last
match, returns the same entry as a first-match scan. -/
theorem mui_scan_last_match_eq_first_match (env : menu_env) (mui : mui_handle_t)
    (width : Int) (list : file_list_t) (nodes : List mui_node_t)
    (hcompute : mui_compute_entries_box env mui width list = some (nodes.map some))
    (hnonneg : ∀ a ∈ nodes, 0 ≤ a.line_height)
    (scroll_y : ℚ) (header_height : Nat) (y : Int) :
    (∀ (i j : Nat) (a b : mui_node_t), nodes[i]? = some a → nodes[j]? = some b →
      mui_entry_hit scroll_y header_height y a = true →
      mui_entry_hit scroll_y header_height y b = true → i = j) ∧
    (∀ ptr : Nat, mui_scan_loop scroll_y header_height y 0 ptr (nodes.map some)
      = some ((hit_test_first_match scroll_y header_height y 0 nodes).getD ptr)) := by
  have hc := compute_entries_box_contiguous_of_eq env mui width list nodes hcompute
  exact ⟨contiguous_from_hit_unique scroll_y header_height y nodes 0 hc hnonneg,
    fun ptr => mui_scan_loop_eq_first_match scroll_y header_height y nodes 0 0 ptr hc hnonneg⟩

/-- Instance of C10: the layout of five rows of height 48, header height 40,
scroll_y = 10 and the pointer at y = 100. -/
theorem mui_scan_last_match_eq_first_match_witness :
    mui_compute_entries_box example_env example_mui 800 example_list
      = some ((example_nodes 48).map some) ∧
    (∀ a ∈ example_nodes 48, 0 ≤ a.line_height) ∧
    (∀ (i j : Nat) (a b : mui_node_t), (example_nodes 48)[i]? = some a →
      (example_nodes 48)[j]? = some b →
      mui_entry_hit 10 40 100 a = true → mui_entry_hit 10 40 100 b = true → i = j) ∧
    (∀ ptr : Nat, mui_scan_loop 10 40 100 0 ptr ((example_nodes 48).map some)
      = some ((hit_test_first_match 10 40 100 0 (example_nodes 48)).getD ptr)) :=
  ⟨example_compute_eq, by simp [example_nodes, mui_node_zero],
    mui_scan_last_match_eq_first_match example_env example_mui 800 example_list
      (example_nodes 48) example_compute_eq (by simp [example_nodes, mui_node_zero])
      10 40 100⟩

/-! ## Claims on the scroll target and the tween requests -/

/-- C13: for a non-null handle, every selection index, viewport height and row height
(the product (selection + 2) × line_height fitting a `size_t`), `mui_get_scroll`
returns 0 when selection < half and (selection + 2 − half) × line_height otherwise,
where half = (viewportHeight / line_height) / 3 in unsigned integer division and
half = 0 when line_height is 0; for a null handle it returns 0. -/
theorem mui_get_scroll_eq (env : menu_env) (mui : mui_handle_t) (selection : Nat)
    (hfits : (selection + 2) * mui.line_height < 18446744073709551616) :
    mui_get_scroll env none selection = 0 ∧
    (selection < mui_scroll_half env.height mui.line_height →
      mui_get_scroll env (some mui) selection = 0) ∧
    (¬ selection < mui_scroll_half env.height mui.line_height →
      mui_get_scroll env (some mui) selection
        = ((selection : ℚ) + 2 - (mui_scroll_half env.height mui.line_height : ℚ))
            * (mui.line_height : ℚ)) ∧
    (mui.line_height ≠ 0 →
      mui_scroll_half env.height mui.line_height = (env.height / mui.line_height) / 3) ∧
    (mui.line_height = 0 → mui_scroll_half env.height mui.line_height = 0) := by
  have hhalf : (if mui.line_height ≠ 0 then (env.height / mui.line_height) / 3 else 0)
      = mui_scroll_half env.height mui.line_height := by
    unfold mui_scroll_half
    by_cases h : mui.line_height = 0 <;> simp [h]
  refine ⟨rfl, ?_, ?_, ?_, ?_⟩
  · intro hlt
    simp only [mui_get_scroll, hhalf, if_pos hlt]
  · intro hge
    simp only [mui_get_scroll, hhalf, if_neg hge]
    rcases Nat.eq_zero_or_pos mui.line_height with h0 | hpos
    · simp [size_t_val, h0]
    · have hle : mui_scroll_half env.height mui.line_height ≤ selection :=
        Nat.le_of_not_lt hge
      have h1 : (0 : Int) ≤ (selection : Int) + 2
          - (mui_scroll_half env.height mui.line_height : Int) := by omega
      have hsmall : selection + 2 - mui_scroll_half env.height mui.line_height
          ≤ selection + 2 := Nat.sub_le _ _
      have hprod : (selection + 2 - mui_scroll_half env.height mui.line_height)
          * mui.line_height < 18446744073709551616 :=
        lt_of_le_of_lt (Nat.mul_le_mul_right _ hsmall) hfits
      have hone : selection + 2 - mui_scroll_half env.height mui.line_height
          < 18446744073709551616 :=
        lt_of_le_of_lt (Nat.le_mul_of_pos_right _ hpos) hprod
      have e1 : size_t_val ((selection : Int) + 2
          - (mui_scroll_half env.height mui.line_height : Int))
          = selection + 2 - mui_scroll_half env.height mui.line_height := by
        unfold size_t_val
        rw [Int.emod_eq_of_lt h1 (by omega)]
        omega
      rw [e1]
      have e2 : size_t_val
          (((selection + 2 - mui_scroll_half env.height mui.line_height : Nat) : Int)
            * (mui.line_height : Int))
          = (selection + 2 - mui_scroll_half env.height mui.line_height)
              * mui.line_height := by
        unfold size_t_val
        rw [← Int.natCast_mul,
          Int.emod_eq_of_lt (Int.natCast_nonneg _) (by exact_mod_cast hprod)]
        exact Int.toNat_natCast _
      rw [e2]
      push_cast [Nat.cast_sub (by omega : mui_scroll_half env.height mui.line_height
        ≤ selection + 2)]
      ring
  · intro h
    simp [mui_scroll_half, h]
  · intro h
    simp [mui_scroll_half, h]

/-- Instance of C13: selection 4 with row height 48 in a viewport 200 pixels high
(half = 1); the target is (4 + 2 − 1) × 48 = 240. -/
theorem mui_get_scroll_eq_witness :
    (4 + 2) * example_mui.line_height < 18446744073709551616 ∧
    mui_scroll_half example_env.height example_mui.line_height = 1 ∧
    mui_get_scroll example_env (some example_mui) 4 = 240 := by
  have h := mui_get_scroll_eq example_env example_mui 4 (by decide)
  have hhalf : mui_scroll_half example_env.height example_mui.line_height = 1 := by decide
  refine ⟨by decide, hhalf, ?_⟩
  rw [h.2.2.1 (by rw [hhalf]; decide), hhalf]
  norm_num [example_mui]

/-- C16: `mui_navigation_set` never writes scroll_y itself: with a non-null handle and
scroll = true it pushes exactly one animation request whose subject is the scroll_y
field and whose target equals `mui_get_scroll(mui)`; with scroll = false or a null
handle it pushes none; in every case the handle, scroll_y included, is returned as it
was. -/
theorem mui_navigation_set_pushes_scroll_target (env : menu_env) (selection : Nat) :
    (∀ mui : mui_handle_t, ∃ entry : menu_animation_ctx_entry_t,
      mui_navigation_set env (some mui) selection true = (some mui, [entry]) ∧
      entry.subject = some menu_animation_subject.scroll_y ∧
      entry.target_value = mui_get_scroll env (some mui) selection) ∧
    (∀ data : Option mui_handle_t,
      mui_navigation_set env data selection false = (data, [])) ∧
    (∀ scroll : Bool, mui_navigation_set env none selection scroll = (none, [])) ∧
    (∀ (data : Option mui_handle_t) (scroll : Bool),
      (mui_navigation_set env data selection scroll).1 = data) := by
  refine ⟨?_, ?_, ?_, ?_⟩
  · intro mui
    exact ⟨{ duration := 10, target_value := mui_get_scroll env (some mui) selection,
             subject := some menu_animation_subject.scroll_y,
             easing_enum := menu_animation_easing_type.EASING_IN_OUT_QUAD,
             tag := -1, cb := false },
      by simp [mui_navigation_set], rfl, rfl⟩
  · intro data
    cases data <;> simp [mui_navigation_set]
  · intro scroll
    simp [mui_navigation_set]
  · intro data scroll
    cases data <;> cases scroll <;> simp [mui_navigation_set]

/-! ## Claims on clearing the list -/

/-- The calls, the list and the active tweens left by the loop of `mui_list_clear`. -/
theorem mui_list_clear_loop_spec : ∀ (l : file_list_t) (i : Nat)
    (active : List menu_animation_ctx_entry_t),
    (mui_list_clear_loop i l active).1 = l.map (fun _ => none) ∧
    (mui_list_clear_loop i l active).2.2
      = (l.enumFrom i).flatMap (fun p => list_clear_slot_calls p.1 p.2) ∧
    ∀ e, e ∈ (mui_list_clear_loop i l active).2.1 ↔
      (e ∈ active ∧ ∀ j node, l[j]? = some (some node) →
        e.subject ≠ some (menu_animation_subject.node_line_height (i + j)) ∧
        e.subject ≠ some (menu_animation_subject.node_y (i + j))) := by
  intro l
  induction l with
  | nil =>
    intro i active
    simp [mui_list_clear_loop]
  | cons slot rest ih =>
    intro i active
    cases slot with
    | none =>
      obtain ⟨h1, h2, h3⟩ := ih (i + 1) active
      refine ⟨by simp [mui_list_clear_loop, h1],
        by simp [mui_list_clear_loop, h2, list_clear_slot_calls], ?_⟩
      intro e
      simp only [mui_list_clear_loop]
      rw [h3 e]
      constructor
      · rintro ⟨he, hall⟩
        refine ⟨he, ?_⟩
        intro j node hj
        cases j with
        | zero => simp at hj
        | succ j =>
          simp only [List.getElem?_cons_succ] at hj
          have := hall j node hj
          rwa [show i + 1 + j = i + (j + 1) by omega] at this
      · rintro ⟨he, hall⟩
        refine ⟨he, ?_⟩
        intro j node hj
        have := hall (j + 1) node (by simpa using hj)
        rwa [show i + (j + 1) = i + 1 + j by omega] at this
    | some n =>
      obtain ⟨h1, h2, h3⟩ := ih (i + 1)
        (menu_animation_kill_by_subject active
          [menu_animation_subject.node_line_height i, menu_animation_subject.node_y i])
      refine ⟨by simp [mui_list_clear_loop, h1],
        by simp [mui_list_clear_loop, h2, list_clear_slot_calls], ?_⟩
      intro e
      simp only [mui_list_clear_loop]
      rw [h3 e]
      have hkill : e ∈ menu_animation_kill_by_subject active
          [menu_animation_subject.node_line_height i, menu_animation_subject.node_y i] ↔
          (e ∈ active ∧ e.subject ≠ some (menu_animation_subject.node_line_height i) ∧
            e.subject ≠ some (menu_animation_subject.node_y i)) := by
        unfold menu_animation_kill_by_subject
        rw [List.mem_filter]
        cases hs : e.subject with
        | none => simp
        | some s =>
          simp only [List.contains_eq_any_beq, List.any_cons, List.any_nil, Bool.or_false,
            Bool.not_eq_true', Bool.or_eq_false_iff, beq_eq_false_iff_ne, ne_eq,
            Option.some.injEq]
      rw [hkill]
      constructor
      · rintro ⟨⟨he, hlh, hy⟩, hall⟩
        refine ⟨he, ?_⟩
        intro j node hj
        cases j with
        | zero => exact ⟨hlh, hy⟩
        | succ j =>
          simp only [List.getElem?_cons_succ] at hj
          have := hall j node hj
          rwa [show i + 1 + j = i + (j + 1) by omega] at this
      · rintro ⟨he, hall⟩
        have h0 := hall 0 n (by simp)
        refine ⟨⟨he, h0.1, h0.2⟩, ?_⟩
        intro j node hj
        have := hall (j + 1) node (by simpa using hj)
        rwa [show i + (j + 1) = i + 1 + j by omega] at this

/-- C18: for every list, `mui_list_clear` visits every slot once, in index order: for
each slot holding a node it requests cancellation of the animations whose subjects
are exactly that node's line_height and y, and only afterwards frees that node's
userdata; slots without a node cause neither call. -/
theorem mui_list_clear_calls (list : file_list_t)
    (active : List menu_animation_ctx_entry_t) :
    (∃ (list' : file_list_t) (active' : List menu_animation_ctx_entry_t),
      mui_list_clear (some list) active
        = some (list', active',
            (list.enumFrom 0).flatMap (fun p => list_clear_slot_calls p.1 p.2)) ∧
      list' = list.map (fun _ => none)) ∧
    (∀ (i : Nat) (node : mui_node_t), list_clear_slot_calls i (some node)
      = [mui_list_clear_call.MENU_ANIMATION_CTL_KILL_BY_SUBJECT
            [menu_animation_subject.node_line_height i, menu_animation_subject.node_y i],
         mui_list_clear_call.file_list_free_userdata i]) ∧
    (∀ i : Nat, list_clear_slot_calls i none = []) := by
  obtain ⟨h1, h2, _⟩ := mui_list_clear_loop_spec list 0 active
  refine ⟨⟨(mui_list_clear_loop 0 list active).1, (mui_list_clear_loop 0 list active).2.1,
    ?_, h1⟩, fun _ _ => rfl, fun _ => rfl⟩
  simp only [mui_list_clear]
  rw [← h2]

/-- The active set left by `mui_list_clear`: a request survives exactly when its subject
is not the line_height or the y of a node held by the list. -/
theorem mui_list_clear_active (list : file_list_t)
    (active : List menu_animation_ctx_entry_t) :
    ∃ (list' : file_list_t) (active' : List menu_animation_ctx_entry_t)
      (calls : List mui_list_clear_call),
      mui_list_clear (some list) active = some (list', active', calls) ∧
      calls = (list.enumFrom 0).flatMap (fun p => list_clear_slot_calls p.1 p.2) ∧
      (∀ e, e ∈ active' ↔
        (e ∈ active ∧ ∀ i node, list[i]? = some (some node) →
          e.subject ≠ some (menu_animation_subject.node_line_height i) ∧
          e.subject ≠ some (menu_animation_subject.node_y i))) := by
  obtain ⟨_, h2, h3⟩ := mui_list_clear_loop_spec list 0 active
  refine ⟨_, _, _, rfl, h2, ?_⟩
  intro e
  rw [h3 e]
  simp only [Nat.zero_add]

/-- C19 (as stated) fails: the animation `mui_navigation_set` pushes for selection 4
has subject scroll_y, and after `mui_list_clear` has cleared the five-entry list it
is still in the active set of the tween driver. -/
theorem mui_list_clear_scroll_animation_counterexample :
    ∃ (entry : menu_animation_ctx_entry_t) (list' : file_list_t)
      (active' : List menu_animation_ctx_entry_t) (calls : List mui_list_clear_call),
      mui_navigation_set example_env (some example_mui) 4 true
        = (some example_mui, [entry]) ∧
      entry.subject = some menu_animation_subject.scroll_y ∧
      mui_list_clear (some (example_layout 48)) (menu_animation_push [] entry)
        = some (list', active', calls) ∧
      entry ∈ active' := by
  obtain ⟨list', active', calls, h1, _, h3⟩ := mui_list_clear_active (example_layout 48)
    (menu_animation_push []
      { duration := 10, target_value := mui_get_scroll example_env (some example_mui) 4,
        subject := some menu_animation_subject.scroll_y,
        easing_enum := menu_animation_easing_type.EASING_IN_OUT_QUAD,
        tag := -1, cb := false })
  refine ⟨_, list', active', calls, by simp [mui_navigation_set], rfl, h1, ?_⟩
  apply (h3 _).mpr
  refine ⟨by simp [menu_animation_push], ?_⟩
  intro j node _
  simp

/-- C19 (amended): when the entry list is cleared by `mui_list_clear`, the pending
animations that are cancelled are exactly those whose subject is the line_height or
the y of a node held by the list; every pending animation whose subject is scroll_y
(such as the one pushed by `mui_navigation_set`) is not cancelled and survives the
clear, and no cancellation request names scroll_y. -/
theorem mui_list_clear_keeps_scroll_animation (list : file_list_t)
    (active : List menu_animation_ctx_entry_t) :
    ∃ (list' : file_list_t) (active' : List menu_animation_ctx_entry_t)
      (calls : List mui_list_clear_call),
      mui_list_clear (some list) active = some (list', active', calls) ∧
      (∀ e, e ∈ active' ↔
        (e ∈ active ∧ ∀ i node, list[i]? = some (some node) →
          e.subject ≠ some (menu_animation_subject.node_line_height i) ∧
          e.subject ≠ some (menu_animation_subject.node_y i))) ∧
      (∀ e ∈ active, e.subject = some menu_animation_subject.scroll_y → e ∈ active') ∧
      (∀ subjects, mui_list_clear_call.MENU_ANIMATION_CTL_KILL_BY_SUBJECT subjects ∈ calls →
        menu_animation_subject.scroll_y ∉ subjects) := by
  obtain ⟨list', active', calls, h1, h2, hmem⟩ := mui_list_clear_active list active
  refine ⟨list', active', calls, h1, hmem, ?_, ?_⟩
  · intro e he hs
    rw [hmem e]
    refine ⟨he, ?_⟩
    intro i node _
    rw [hs]
    simp
  · intro subjects hcall
    rw [h2, List.mem_flatMap] at hcall
    obtain ⟨p, _, hp⟩ := hcall
    cases hslot : p.2 with
    | none => rw [hslot] at hp; simp [list_clear_slot_calls] at hp
    | some node =>
      rw [hslot] at hp
      simp only [list_clear_slot_calls, List.mem_cons,
        mui_list_clear_call.MENU_ANIMATION_CTL_KILL_BY_SUBJECT.injEq,
        List.mem_singleton, reduceCtorEq, or_false, List.not_mem_nil] at hp
      rw [hp]
      simp

/-! ## Claims on node allocation -/

/-- C20: when `mui_list_insert` cannot allocate a node (the slot has no node and
allocation fails), it reports the failure through the error log (`RARCH_ERR`, which
writes the tagged message when verbosity is enabled) and returns leaving the list's
userdata unchanged; the handle is only read. When the handle or the list is null it
also returns without any change. -/
theorem mui_list_insert_allocation_failure (env : menu_env) (mui : mui_handle_t)
    (list : file_list_t) (label : List Char) (list_size type : Nat) (v : verbosity_t)
    (hslot : list[list_size]? = some none) (halloc : env.calloc_succeeds = false)
    (hstream : v.main_verbosity = true → v.log_file ≠ none) :
    (∃ v' : verbosity_t,
      mui_list_insert env (some mui) (some list) label list_size type v
        = some (some list, v') ∧
      RARCH_ERR env v "GLUI node could not be allocated.\n".toList = some v' ∧
      (v.main_verbosity = true → ∀ fp, v.log_file = some fp →
        v'.log_file = some (fp ++ [env.file_path_str_log_error ++ [' '],
          "GLUI node could not be allocated.\n".toList])) ∧
      (v.main_verbosity = false → v' = v)) ∧
    (∀ l : Option file_list_t,
      mui_list_insert env none l label list_size type v = some (l, v)) ∧
    (∀ userdata : Option mui_handle_t,
      mui_list_insert env userdata none label list_size type v = some (none, v)) := by
  refine ⟨?_, ?_, ?_⟩
  · cases hverb : v.main_verbosity with
    | false =>
      refine ⟨v, ?_, ?_, ?_, fun _ => rfl⟩
      · simp [mui_list_insert, List.get?_eq_getElem?, hslot, halloc, RARCH_ERR, RARCH_ERR_V,
          RARCH_LOG_V, hverb]
      · simp [RARCH_ERR, RARCH_ERR_V, RARCH_LOG_V, hverb]
      · intro h; cases h
    | true =>
      obtain ⟨fp, hfp⟩ := Option.ne_none_iff_exists'.mp (hstream hverb)
      refine ⟨{ v with log_file := some (fp ++ [env.file_path_str_log_error ++ [' '],
          "GLUI node could not be allocated.\n".toList]) }, ?_, ?_, ?_, ?_⟩
      · simp [mui_list_insert, List.get?_eq_getElem?, hslot, halloc, RARCH_ERR, RARCH_ERR_V,
          RARCH_LOG_V, hverb, hfp]
      · simp [RARCH_ERR, RARCH_ERR_V, RARCH_LOG_V, hverb, hfp]
      · intro _ fp' hfp'
        rw [hfp] at hfp'
        cases hfp'
        rfl
      · intro h; cases h
  · intro l
    simp [mui_list_insert]
  · intro userdata
    cases userdata <;> simp [mui_list_insert]

/-- Instance of C20: slot 1 of a three-slot list has no node, `calloc` fails, and
verbosity is enabled with an open stream; the list is returned as it was and the log
holds the tagged message. -/
theorem mui_list_insert_allocation_failure_witness :
    example_list_hole[1]? = some none ∧ example_env_no_memory.calloc_succeeds = false ∧
    (example_verbosity.main_verbosity = true → example_verbosity.log_file ≠ none) ∧
    ∃ v' : verbosity_t,
      mui_list_insert example_env_no_memory (some example_mui) (some example_list_hole)
        [] 1 0 example_verbosity = some (some example_list_hole, v') ∧
      v'.log_file = some [example_env_no_memory.file_path_str_log_error ++ [' '],
          "GLUI node could not be allocated.\n".toList] := by
  have h := mui_list_insert_allocation_failure example_env_no_memory example_mui
    example_list_hole [] 1 0 example_verbosity rfl rfl (fun _ => by simp [example_verbosity])
  obtain ⟨v', h1, _, h3, _⟩ := h.1
  exact ⟨rfl, rfl, fun _ => by simp [example_verbosity], v', h1, h3 rfl [] rfl⟩

/-! ## Lemmas on the calls of a frame -/

/-- On a list whose slots all hold a node the scan reports exactly the indices of the
nodes that pass the test. -/
theorem mui_scan_hits_spec (scroll_y : ℚ) (header_height : Nat) (y : Int) :
    ∀ (nodes : List mui_node_t) (ii : Nat),
      ∃ hits, mui_scan_hits scroll_y header_height y ii (nodes.map some) = some hits ∧
        ∀ k, k ∈ hits ↔ ∃ j a, k = ii + j ∧ nodes[j]? = some a ∧
          mui_entry_hit scroll_y header_height y a = true := by
  intro nodes
  induction nodes with
  | nil =>
    intro ii
    exact ⟨[], rfl, by simp⟩
  | cons n rest ih =>
    intro ii
    obtain ⟨hits, hh, hspec⟩ := ih (ii + 1)
    refine ⟨if mui_entry_hit scroll_y header_height y n then ii :: hits else hits,
      by simp [mui_scan_hits, hh], ?_⟩
    intro k
    constructor
    · intro hk
      by_cases hn : mui_entry_hit scroll_y header_height y n = true
      · rw [if_pos hn] at hk
        rcases List.mem_cons.mp hk with h | h
        · exact ⟨0, n, by omega, by simp, hn⟩
        · obtain ⟨j, a, hj, ha, hhit⟩ := (hspec k).mp h
          exact ⟨j + 1, a, by omega, by simpa using ha, hhit⟩
      · rw [if_neg hn] at hk
        obtain ⟨j, a, hj, ha, hhit⟩ := (hspec k).mp hk
        exact ⟨j + 1, a, by omega, by simpa using ha, hhit⟩
    · rintro ⟨j, a, hj, ha, hhit⟩
      cases j with
      | zero =>
        simp only [List.getElem?_cons_zero, Option.some.injEq] at ha
        subst ha
        rw [if_pos hhit]
        exact List.mem_cons.mpr (Or.inl (by omega))
      | succ j =>
        simp only [List.getElem?_cons_succ] at ha
        have hk : k ∈ hits := (hspec k).mpr ⟨j, a, by omega, ha, hhit⟩
        by_cases hn : mui_entry_hit scroll_y header_height y n = true
        · rw [if_pos hn]; exact List.mem_cons_of_mem _ hk
        · rw [if_neg hn]; exact hk

/-- The index a scan loop leaves is the last index it reported, or the index kept
before when it reported none. -/
theorem mui_scan_loop_eq_last_hit (scroll_y : ℚ) (header_height : Nat) (y : Int) :
    ∀ (l : file_list_t) (ii ptr : Nat),
      mui_scan_loop scroll_y header_height y ii ptr l
        = (mui_scan_hits scroll_y header_height y ii l).map
            (fun hits => hits.getLast?.getD ptr) := by
  intro l
  induction l with
  | nil => intro ii ptr; rfl
  | cons slot rest ih =>
    intro ii ptr
    cases slot with
    | none => rfl
    | some n =>
      simp only [mui_scan_loop, mui_scan_hits, ih, Option.map_map]
      cases mui_scan_hits scroll_y header_height y (ii + 1) rest with
      | none => rfl
      | some hits =>
        simp only [Option.map_some', Function.comp_apply, Option.some.injEq]
        by_cases hn : mui_entry_hit scroll_y header_height y n = true
        · simp only [hn, if_true]
          cases hits with
          | nil => rfl
          | cons h t =>
            rw [List.getLast?_cons_cons, List.getLast?_eq_getLast _ (List.cons_ne_nil h t)]
            rfl
        · simp only [hn, if_false, Bool.false_eq_true]

/-- The state and the calls of one `mui_render` frame, in terms of the recomputed
layout. -/
theorem mui_render_frame_spec (env : menu_env) (st : menu_state) (mui : mui_handle_t)
    (hmui : st.mui = some mui)
    (hnodes : ∀ slot ∈ st.selection_buf, slot ≠ none) (hfont : mui.font ≠ none)
    (hdiv : mui.glyph_width2 ≠ 0 ∨ ∀ i, env.menu_entry_get_sublabel i = none) :
    ∃ (nodes : List mui_node_t) (pointer_hits mouse_hits : List Nat),
      mui_compute_entries_box env mui (to_int env.width) st.selection_buf
        = some (nodes.map some) ∧
      mui_scan_hits (env.menu_animation_update mui.scroll_y) env.header_height env.pointer_y
        0 (nodes.map some) = some pointer_hits ∧
      mui_scan_hits (mui_render_pre_clamp env st mui) env.header_height env.mouse_y
        0 (nodes.map some) = some mouse_hits ∧
      mui_render env st = some
        { st with
          mui := some { mui with scroll_y :=
            (mui_render_clamp env ((nodes.map (·.line_height)).sum) env.height
              env.header_height mui.tabs_height (mui_render_pre_clamp env st mui)) }
          selection_buf := nodes.map some
          pointer_ptr :=
            (if env.menu_pointer_enable then pointer_hits.getLast?.getD st.pointer_ptr
             else st.pointer_ptr)
          mouse_ptr :=
            (if env.menu_mouse_enable then mouse_hits.getLast?.getD st.mouse_ptr
             else st.mouse_ptr)
          pointer_accel :=
            (if env.menu_pointer_enable then st.pointer_accel * (96 / 100 : ℚ)
             else st.pointer_accel)
          entries_start := 0 } ∧
      mui_render_input_ctl env st = some
        ((if env.menu_pointer_enable then
            pointer_hits.map menu_input_ctl_call.MENU_INPUT_CTL_POINTER_PTR
              ++ [menu_input_ctl_call.MENU_INPUT_CTL_POINTER_ACCEL_READ,
                  menu_input_ctl_call.MENU_INPUT_CTL_POINTER_ACCEL_WRITE
                    (st.pointer_accel * (96 / 100 : ℚ))]
          else [])
         ++ (if env.menu_mouse_enable then
              mouse_hits.map menu_input_ctl_call.MENU_INPUT_CTL_MOUSE_PTR
             else [])) := by
  obtain ⟨font, hf⟩ := Option.ne_none_iff_exists'.mp hfont
  obtain ⟨nodes, h1, _, _, _⟩ :=
    compute_entries_box_spec env mui (to_int env.width) st.selection_buf font hnodes hf hdiv
  have hch : mui_content_height (nodes.map some) = some ((nodes.map (·.line_height)).sum) := by
    unfold mui_content_height
    rw [content_height_loop_eq nodes 0, zero_add]
  obtain ⟨ph, hph, _⟩ := mui_scan_hits_spec (env.menu_animation_update mui.scroll_y)
    env.header_height env.pointer_y nodes 0
  obtain ⟨mh, hmh, _⟩ := mui_scan_hits_spec (mui_render_pre_clamp env st mui)
    env.header_height env.mouse_y nodes 0
  refine ⟨nodes, ph, mh, h1, hph, hmh, ?_, ?_⟩
  · cases hp : env.menu_pointer_enable <;> cases hm : env.menu_mouse_enable
    · simp [mui_render, hmui, h1, hp, hm, hch, mui_render_pre_clamp]
    · have hpre : mui_render_pre_clamp env st mui = env.menu_animation_update mui.scroll_y := by
        simp [mui_render_pre_clamp, hp]
      rw [hpre] at hmh
      simp [mui_render, hmui, h1, hp, hm, hch, hpre, mui_scan_loop_eq_last_hit, hmh]
    · have hpre : mui_render_pre_clamp env st mui
          = env.menu_animation_update mui.scroll_y - st.pointer_accel := by
        simp [mui_render_pre_clamp, hp]
      simp [mui_render, hmui, h1, hp, hm, hch, hpre, mui_scan_loop_eq_last_hit, hph]
    · have hpre : mui_render_pre_clamp env st mui
          = env.menu_animation_update mui.scroll_y - st.pointer_accel := by
        simp [mui_render_pre_clamp, hp]
      rw [hpre] at hmh
      simp [mui_render, hmui, h1, hp, hm, hch, hpre, mui_scan_loop_eq_last_hit, hph, hmh]
  · cases hp : env.menu_pointer_enable <;> cases hm : env.menu_mouse_enable
    · simp [mui_render_input_ctl, hmui, h1, hp, hm, hch]
    · have hpre : mui_render_pre_clamp env st mui = env.menu_animation_update mui.scroll_y := by
        simp [mui_render_pre_clamp, hp]
      rw [hpre] at hmh
      simp [mui_render_input_ctl, hmui, h1, hp, hm, hch, hmh]
    · simp [mui_render_input_ctl, hmui, h1, hp, hm, hch, hph]
    · have hpre : mui_render_pre_clamp env st mui
          = env.menu_animation_update mui.scroll_y - st.pointer_accel := by
        simp [mui_render_pre_clamp, hp]
      rw [hpre] at hmh
      simp [mui_render_input_ctl, hmui, h1, hp, hm, hch, hph, hmh]

/-- A call that is not a pointer index update does not occur among pointer index
updates. -/
theorem count_pointer_ptr_eq_zero (hits : List Nat) (c : menu_input_ctl_call)
    (hc : ∀ ii, c ≠ menu_input_ctl_call.MENU_INPUT_CTL_POINTER_PTR ii) :
    (hits.map menu_input_ctl_call.MENU_INPUT_CTL_POINTER_PTR).count c = 0 := by
  rw [List.count_eq_zero]
  intro hmem
  obtain ⟨ii, _, hii⟩ := List.mem_map.mp hmem
  exact hc ii hii.symm

/-- A call that is not a mouse index update does not occur among mouse index updates. -/
theorem count_mouse_ptr_eq_zero (hits : List Nat) (c : menu_input_ctl_call)
    (hc : ∀ ii, c ≠ menu_input_ctl_call.MENU_INPUT_CTL_MOUSE_PTR ii) :
    (hits.map menu_input_ctl_call.MENU_INPUT_CTL_MOUSE_PTR).count c = 0 := by
  rw [List.count_eq_zero]
  intro hmem
  obtain ⟨ii, _, hii⟩ := List.mem_map.mp hmem
  exact hc ii hii.symm

/-! ## Claims on the drag acceleration and the hover hit-test -/

/-- C15: with pointer input enabled, one `mui_render` frame reads the drag
acceleration a exactly once, subtracts it from scroll_y before clamping and writes
back 0.96 × a, once, as the new acceleration; with pointer input disabled the
acceleration is neither read nor written and scroll_y is only clamped. -/
theorem mui_render_pointer_acceleration (env : menu_env) (st : menu_state)
    (mui : mui_handle_t) (hmui : st.mui = some mui)
    (hnodes : ∀ slot ∈ st.selection_buf, slot ≠ none) (hfont : mui.font ≠ none)
    (hdiv : mui.glyph_width2 ≠ 0 ∨ ∀ i, env.menu_entry_get_sublabel i = none) :
    ∃ (st' : menu_state) (mui' : mui_handle_t) (content_height : ℚ)
      (calls : List menu_input_ctl_call),
      mui_render env st = some st' ∧ st'.mui = some mui' ∧
      mui_content_height st'.selection_buf = some content_height ∧
      mui_render_input_ctl env st = some calls ∧
      (env.menu_pointer_enable = true →
        calls.count menu_input_ctl_call.MENU_INPUT_CTL_POINTER_ACCEL_READ = 1 ∧
        (∀ v, calls.count (menu_input_ctl_call.MENU_INPUT_CTL_POINTER_ACCEL_WRITE v)
          = if v = (96 / 100 : ℚ) * st.pointer_accel then 1 else 0) ∧
        st'.pointer_accel = (96 / 100 : ℚ) * st.pointer_accel ∧
        mui'.scroll_y = mui_render_clamp env content_height env.height env.header_height
          mui.tabs_height (env.menu_animation_update mui.scroll_y - st.pointer_accel)) ∧
      (env.menu_pointer_enable = false →
        menu_input_ctl_call.MENU_INPUT_CTL_POINTER_ACCEL_READ ∉ calls ∧
        (∀ v, menu_input_ctl_call.MENU_INPUT_CTL_POINTER_ACCEL_WRITE v ∉ calls) ∧
        st'.pointer_accel = st.pointer_accel ∧
        mui'.scroll_y = mui_render_clamp env content_height env.height env.header_height
          mui.tabs_height (env.menu_animation_update mui.scroll_y)) := by
  obtain ⟨nodes, ph, mh, _, _, _, hrender, hcalls⟩ :=
    mui_render_frame_spec env st mui hmui hnodes hfont hdiv
  have hch : mui_content_height (nodes.map some) = some ((nodes.map (·.line_height)).sum) := by
    unfold mui_content_height
    rw [content_height_loop_eq nodes 0, zero_add]
  refine ⟨_, _, _, _, hrender, rfl, hch, hcalls, ?_, ?_⟩
  · intro hp
    have hmouse : ∀ c : menu_input_ctl_call,
        (∀ ii, c ≠ menu_input_ctl_call.MENU_INPUT_CTL_MOUSE_PTR ii) →
        (if env.menu_mouse_enable then
            mh.map menu_input_ctl_call.MENU_INPUT_CTL_MOUSE_PTR else []).count c = 0 := by
      intro c hc
      split_ifs
      · exact count_mouse_ptr_eq_zero mh c hc
      · rfl
    refine ⟨?_, ?_, ?_, ?_⟩
    · rw [if_pos hp, List.count_append, List.count_append,
        count_pointer_ptr_eq_zero ph _ (fun ii => by simp), hmouse _ (fun ii => by simp)]
      simp
    · intro v
      rw [if_pos hp, List.count_append, List.count_append,
        count_pointer_ptr_eq_zero ph _ (fun ii => by simp), hmouse _ (fun ii => by simp)]
      by_cases hv : v = (96 / 100 : ℚ) * st.pointer_accel
      · rw [if_pos hv, hv]
        simp [mul_comm]
      · rw [if_neg hv]
        have : ¬ (st.pointer_accel * (96 / 100 : ℚ) = v) := by
          intro h
          exact hv (by rw [← h, mul_comm])
        simp [List.count_cons, this]
    · simp [hp, mul_comm]
    · simp [hp, mui_render_pre_clamp]
  · intro hp
    refine ⟨?_, ?_, ?_, ?_⟩
    · simp only [hp, Bool.false_eq_true, if_false, List.nil_append]
      split_ifs <;> simp
    · intro v
      simp only [hp, Bool.false_eq_true, if_false, List.nil_append]
      split_ifs <;> simp
    · simp [hp]
    · simp [hp, mui_render_pre_clamp]

/-- Instance of C15: pointer input enabled, scroll_y = 30 and acceleration 10; the new
acceleration is 0.96 × 10. -/
theorem mui_render_pointer_acceleration_witness :
    example_state_hover.mui = some { example_mui with scroll_y := 30 } ∧
    (∀ slot ∈ example_state_hover.selection_buf, slot ≠ none) ∧
    ({ example_mui with scroll_y := 30 } : mui_handle_t).font ≠ none ∧
    (({ example_mui with scroll_y := 30 } : mui_handle_t).glyph_width2 ≠ 0
      ∨ ∀ i, example_env_hover.menu_entry_get_sublabel i = none) ∧
    example_env_hover.menu_pointer_enable = true ∧
    ∃ (st' : menu_state) (calls : List menu_input_ctl_call),
      mui_render example_env_hover example_state_hover = some st' ∧
      mui_render_input_ctl example_env_hover example_state_hover = some calls ∧
      calls.count menu_input_ctl_call.MENU_INPUT_CTL_POINTER_ACCEL_READ = 1 ∧
      st'.pointer_accel = (96 / 100 : ℚ) * example_state_hover.pointer_accel := by
  obtain ⟨st', _, _, calls, h1, _, _, h4, h5, _⟩ :=
    mui_render_pointer_acceleration example_env_hover example_state_hover
      { example_mui with scroll_y := 30 } rfl
      (by simp [example_state_hover, example_state, example_list])
      (by simp [example_mui]) (Or.inl (by decide))
  exact ⟨rfl, by simp [example_state_hover, example_state, example_list],
    by simp [example_mui], Or.inl (by decide), rfl, st', calls, h1, h4, (h5 rfl).1,
    (h5 rfl).2.2.1⟩

/-- In a gapless layout with non-negative heights every node ends at or above the end
of the content. -/
theorem contiguous_from_end_le : ∀ (nodes : List mui_node_t) (s : ℚ),
    contiguous_from s nodes → (∀ a ∈ nodes, 0 ≤ a.line_height) →
    ∀ a ∈ nodes, a.y + a.line_height ≤ s + (nodes.map (·.line_height)).sum := by
  intro nodes
  induction nodes with
  | nil => intro s _ _ a ha; simp at ha
  | cons n rest ih =>
    intro s hc hnn a ha
    have hsum : (0 : ℚ) ≤ (rest.map (·.line_height)).sum := by
      apply List.sum_nonneg
      intro x hx
      obtain ⟨b, hb, hbx⟩ := List.mem_map.mp hx
      rw [← hbx]
      exact hnn b (List.mem_cons_of_mem _ hb)
    simp only [List.map_cons, List.sum_cons]
    rcases List.mem_cons.mp ha with h | h
    · rw [h, hc.1]
      linarith
    · have := ih (s + n.line_height) hc.2
        (fun b hb => hnn b (List.mem_cons_of_mem _ hb)) a h
      linarith

/-- In a gapless layout from offset 0 with non-negative heights, a node passes the
test only for a content coordinate strictly between 0 and the content height. -/
theorem contiguous_from_hit_range (scroll_y : ℚ) (header_height : Nat) (y : Int)
    (nodes : List mui_node_t) (hc : contiguous_from 0 nodes)
    (hnn : ∀ a ∈ nodes, 0 ≤ a.line_height) (a : mui_node_t) (ha : a ∈ nodes)
    (hhit : mui_entry_hit scroll_y header_height y a = true) :
    0 < (y : ℚ) + scroll_y - (header_height : ℚ) ∧
    (y : ℚ) + scroll_y - (header_height : ℚ) < (nodes.map (·.line_height)).sum := by
  rw [mui_entry_hit_eq_true_iff] at hhit
  have h1 := contiguous_from_le_y nodes 0 hc hnn a ha
  have h2 := contiguous_from_end_le nodes 0 hc hnn a ha
  rw [zero_add] at h2
  exact ⟨lt_of_le_of_lt h1 hhit.1, lt_of_lt_of_le hhit.2 h2⟩

/-- At a non-negative display density and font size every computed line height is
non-negative. -/
theorem compute_entries_box_nonneg (env : menu_env) (mui : mui_handle_t) (width : Int)
    (list : file_list_t) (font : font_data_t) (nodes : List mui_node_t)
    (hfont : mui.font = some font) (hdpi : 0 ≤ env.dpi) (hsize : 0 ≤ font.size)
    (hnodes : ∀ slot ∈ list, slot ≠ none)
    (hdiv : mui.glyph_width2 ≠ 0 ∨ ∀ i, env.menu_entry_get_sublabel i = none)
    (h : mui_compute_entries_box env mui width list = some (nodes.map some)) :
    ∀ a ∈ nodes, 0 ≤ a.line_height := by
  obtain ⟨nodes', h1, _, _, h4⟩ :=
    compute_entries_box_spec env mui width list font hnodes hfont hdiv
  rw [h1] at h
  have hn : nodes' = nodes :=
    List.map_injective_iff.mpr (Option.some_injective _) (Option.some.inj h)
  subst hn
  intro a ha
  obtain ⟨k, hk⟩ := List.mem_iff_getElem?.mp ha
  obtain ⟨lines, _, hlh⟩ := h4 k a hk
  rw [hlh]
  have : (0 : ℚ) ≤ (lines : ℚ) * font.size := mul_nonneg (Nat.cast_nonneg _) hsize
  have : (0 : ℚ) ≤ env.dpi / 3 := div_nonneg hdpi (by norm_num)
  linarith

/-- C12 (as stated) fails: with header height 40 and the list scrolled by 30, the
pointer at y = 20 lies inside the header band, yet `mui_render` reports entry 0 (it
issues `MENU_INPUT_CTL_POINTER_PTR` with index 0 and the hover index changes from 7
to 0): the hover scan has no band check. -/
theorem mui_render_hover_header_band_counterexample :
    ∃ st' : menu_state,
      example_env_hover.menu_pointer_enable = true ∧
      (0 ≤ example_env_hover.pointer_y ∧
        example_env_hover.pointer_y < (example_env_hover.header_height : Int)) ∧
      example_state_hover.pointer_ptr = 7 ∧
      mui_render example_env_hover example_state_hover = some st' ∧
      st'.pointer_ptr = 0 ∧
      mui_render_input_ctl example_env_hover example_state_hover
        = some [menu_input_ctl_call.MENU_INPUT_CTL_POINTER_PTR 0,
                menu_input_ctl_call.MENU_INPUT_CTL_POINTER_ACCEL_READ,
                menu_input_ctl_call.MENU_INPUT_CTL_POINTER_ACCEL_WRITE (48 / 5)] := by
  refine ⟨{ example_state_hover with
      mui := some { example_mui with scroll_y := 20 }
      selection_buf := example_layout 48
      pointer_ptr := 0
      pointer_accel := 48 / 5 }, rfl, by decide, rfl, ?_, rfl, ?_⟩
  · simp [mui_render, mui_compute_entries_box, mui_compute_entries_box_loop, example_list,
      example_mui, example_state, example_state_hover, example_env, example_env_hover,
      mui_sublabel_lines, mui_node_zero, mui_content_height, mui_content_height_loop,
      mui_render_clamp, float_to_unsigned, u32, example_layout, example_nodes,
      mui_scan_loop, mui_entry_hit]
    norm_num
  · simp [mui_render_input_ctl, mui_compute_entries_box, mui_compute_entries_box_loop,
      example_list, example_mui, example_state, example_state_hover, example_env,
      example_env_hover, mui_sublabel_lines, mui_node_zero, mui_content_height,
      mui_content_height_loop, mui_scan_hits, mui_entry_hit]
    norm_num

/-- C12 (amended): in `mui_render` with pointer or mouse input enabled, the per-frame
hover hit-test has no header or tab band check; for a layout with non-negative line
heights it reports no entry index (it issues no `MENU_INPUT_CTL_POINTER_PTR` /
`MENU_INPUT_CTL_MOUSE_PTR` update) whenever the content coordinate
y + scroll_y − headerHeight is ≤ 0 or ≥ totalContentHeight, in particular for every
y inside the header band while scroll_y ≤ 0. -/
theorem mui_render_hover_outside_content (env : menu_env) (st : menu_state)
    (mui : mui_handle_t) (font : font_data_t) (hmui : st.mui = some mui)
    (hnodes : ∀ slot ∈ st.selection_buf, slot ≠ none) (hfont : mui.font = some font)
    (hdiv : mui.glyph_width2 ≠ 0 ∨ ∀ i, env.menu_entry_get_sublabel i = none)
    (hdpi : 0 ≤ env.dpi) (hsize : 0 ≤ font.size) :
    ∃ (st' : menu_state) (content_height : ℚ) (calls : List menu_input_ctl_call),
      mui_render env st = some st' ∧
      mui_content_height st'.selection_buf = some content_height ∧
      mui_render_input_ctl env st = some calls ∧
      (((env.pointer_y : ℚ) + env.menu_animation_update mui.scroll_y
            - (env.header_height : ℚ) ≤ 0 ∨
          content_height ≤ (env.pointer_y : ℚ) + env.menu_animation_update mui.scroll_y
            - (env.header_height : ℚ)) →
        ∀ ii, menu_input_ctl_call.MENU_INPUT_CTL_POINTER_PTR ii ∉ calls) ∧
      (((env.mouse_y : ℚ) + mui_render_pre_clamp env st mui - (env.header_height : ℚ) ≤ 0 ∨
          content_height ≤ (env.mouse_y : ℚ) + mui_render_pre_clamp env st mui
            - (env.header_height : ℚ)) →
        ∀ ii, menu_input_ctl_call.MENU_INPUT_CTL_MOUSE_PTR ii ∉ calls) ∧
      (env.pointer_y < (env.header_height : Int) → env.menu_animation_update mui.scroll_y ≤ 0 →
        ∀ ii, menu_input_ctl_call.MENU_INPUT_CTL_POINTER_PTR ii ∉ calls) ∧
      (env.mouse_y < (env.header_height : Int) → mui_render_pre_clamp env st mui ≤ 0 →
        ∀ ii, menu_input_ctl_call.MENU_INPUT_CTL_MOUSE_PTR ii ∉ calls) := by
  obtain ⟨nodes, ph, mh, hcompute, hph, hmh, hrender, hcalls⟩ :=
    mui_render_frame_spec env st mui hmui hnodes (by rw [hfont]; simp) hdiv
  have hch : mui_content_height (nodes.map some) = some ((nodes.map (·.line_height)).sum) := by
    unfold mui_content_height
    rw [content_height_loop_eq nodes 0, zero_add]
  have hc := compute_entries_box_contiguous_of_eq env mui _ _ nodes hcompute
  have hnn := compute_entries_box_nonneg env mui _ _ font nodes hfont hdpi hsize hnodes hdiv
    hcompute
  -- no index is reported for a content coordinate outside the content
  have hnone : ∀ (scroll_y : ℚ) (y : Int) (hits : List Nat),
      mui_scan_hits scroll_y env.header_height y 0 (nodes.map some) = some hits →
      ((y : ℚ) + scroll_y - (env.header_height : ℚ) ≤ 0 ∨
        (nodes.map (·.line_height)).sum ≤ (y : ℚ) + scroll_y - (env.header_height : ℚ)) →
      hits = [] := by
    intro scroll_y y hits hhits hout
    obtain ⟨hits', hh, hspec⟩ := mui_scan_hits_spec scroll_y env.header_height y nodes 0
    rw [hh] at hhits
    cases hhits
    apply List.eq_nil_iff_forall_not_mem.mpr
    intro k hk
    obtain ⟨j, a, _, ha, hhit⟩ := (hspec k).mp hk
    have hr := contiguous_from_hit_range scroll_y env.header_height y nodes hc hnn a
      (List.getElem?_mem ha) hhit
    rcases hout with h | h
    · exact absurd hr.1 (not_lt.mpr h)
    · exact absurd hr.2 (not_lt.mpr h)
  have hpointer : ((env.pointer_y : ℚ) + env.menu_animation_update mui.scroll_y
        - (env.header_height : ℚ) ≤ 0 ∨
      (nodes.map (·.line_height)).sum ≤ (env.pointer_y : ℚ)
        + env.menu_animation_update mui.scroll_y - (env.header_height : ℚ)) →
      ∀ ii, menu_input_ctl_call.MENU_INPUT_CTL_POINTER_PTR ii ∉
        ((if env.menu_pointer_enable then
            ph.map menu_input_ctl_call.MENU_INPUT_CTL_POINTER_PTR
              ++ [menu_input_ctl_call.MENU_INPUT_CTL_POINTER_ACCEL_READ,
                  menu_input_ctl_call.MENU_INPUT_CTL_POINTER_ACCEL_WRITE
                    (st.pointer_accel * (96 / 100 : ℚ))]
          else [])
         ++ (if env.menu_mouse_enable then
              mh.map menu_input_ctl_call.MENU_INPUT_CTL_MOUSE_PTR
             else [])) := by
    intro hout ii
    rw [hnone _ _ ph hph hout]
    split_ifs <;> simp
  have hmouse : ((env.mouse_y : ℚ) + mui_render_pre_clamp env st mui
        - (env.header_height : ℚ) ≤ 0 ∨
      (nodes.map (·.line_height)).sum ≤ (env.mouse_y : ℚ)
        + mui_render_pre_clamp env st mui - (env.header_height : ℚ)) →
      ∀ ii, menu_input_ctl_call.MENU_INPUT_CTL_MOUSE_PTR ii ∉
        ((if env.menu_pointer_enable then
            ph.map menu_input_ctl_call.MENU_INPUT_CTL_POINTER_PTR
              ++ [menu_input_ctl_call.MENU_INPUT_CTL_POINTER_ACCEL_READ,
                  menu_input_ctl_call.MENU_INPUT_CTL_POINTER_ACCEL_WRITE
                    (st.pointer_accel * (96 / 100 : ℚ))]
          else [])
         ++ (if env.menu_mouse_enable then
              mh.map menu_input_ctl_call.MENU_INPUT_CTL_MOUSE_PTR
             else [])) := by
    intro hout ii
    rw [hnone _ _ mh hmh hout]
    split_ifs <;> simp
  refine ⟨_, _, _, hrender, hch, hcalls, hpointer, hmouse, ?_, ?_⟩
  · intro hy hs
    apply hpointer
    left
    have : (env.pointer_y : ℚ) < (env.header_height : ℚ) := by exact_mod_cast hy
    linarith
  · intro hy hs
    apply hmouse
    left
    have : (env.mouse_y : ℚ) < (env.header_height : ℚ) := by exact_mod_cast hy
    linarith

/-- Instance of C12 (amended): the pointer at y = 20 inside the header band (height
40) with the list at scroll_y = 0; no pointer index update is issued. -/
theorem mui_render_hover_outside_content_witness :
    example_state_top.mui = some { example_mui with scroll_y := 0 } ∧
    (∀ slot ∈ example_state_top.selection_buf, slot ≠ none) ∧
    ({ example_mui with scroll_y := 0 } : mui_handle_t).font = some { size := 16 } ∧
    (({ example_mui with scroll_y := 0 } : mui_handle_t).glyph_width2 ≠ 0
      ∨ ∀ i, example_env_hover.menu_entry_get_sublabel i = none) ∧
    0 ≤ example_env_hover.dpi ∧ (0 : ℚ) ≤ ({ size := 16 } : font_data_t).size ∧
    example_env_hover.pointer_y < (example_env_hover.header_height : Int) ∧
    ∃ (st' : menu_state) (calls : List menu_input_ctl_call),
      mui_render example_env_hover example_state_top = some st' ∧
      mui_render_input_ctl example_env_hover example_state_top = some calls ∧
      ∀ ii, menu_input_ctl_call.MENU_INPUT_CTL_POINTER_PTR ii ∉ calls := by
  obtain ⟨st', _, calls, h1, _, h3, _, _, h6, _⟩ :=
    mui_render_hover_outside_content example_env_hover example_state_top
      { example_mui with scroll_y := 0 } { size := 16 } rfl
      (by simp [example_state_top, example_state, example_list]) rfl (Or.inl (by decide))
      (by norm_num [example_env_hover, example_env]) (by norm_num)
  exact ⟨rfl, by simp [example_state_top, example_state, example_list], rfl,
    Or.inl (by decide), by norm_num [example_env_hover, example_env], by norm_num,
    by decide, st', calls, h1, h3,
    h6 (by decide) (by simp [example_env_hover, example_env])⟩

/-! ## Claims on the header and tab bands of pointer events -/

/-- The tab loop of `mui_pointer_up` never returns through the entry action. -/
theorem mui_pointer_up_tabs_return (consts : menu_tab_consts) (width x action : Nat)
    (cbs : Option menu_file_list_cbs_t) :
    ∀ (tabs : List Nat) (mui : mui_handle_t) (menu_stack : List menu_stack_item)
      (r : mui_handle_t × List menu_stack_item × mui_pointer_up_return),
      mui_pointer_up_tabs consts width x action cbs tabs mui menu_stack = some r →
      r.2.2 = mui_pointer_up_return.zero ∨
      r.2.2 = mui_pointer_up_return.action_content_list_switch := by
  intro tabs
  induction tabs with
  | nil =>
    intro mui menu_stack r h
    simp only [mui_pointer_up_tabs, Option.some.injEq] at h
    subst h
    exact Or.inl rfl
  | cons i rest ih =>
    intro mui menu_stack r h
    simp only [mui_pointer_up_tabs] at h
    split at h
    · split at h
      · cases h
      · split at h
        · cases h
          exact Or.inr rfl
        · exact ih _ _ r h
    · exact ih _ _ r h

/-- With a tab bar not taller than the viewport, a press or release inside the header
band or inside the tab band changes no selection and triggers no select action. -/
theorem mui_pointer_bands_inert (env : menu_env) (consts : menu_tab_consts)
    (st : menu_state) (mui : mui_handle_t) (menu_stack : List menu_stack_item)
    (x y ptr : Nat) (cbs : Option menu_file_list_cbs_t) (action : Nat)
    (hmui : st.mui = some mui) (hheight : env.height < 4294967296)
    (htabs : mui.tabs_height ≤ env.height)
    (hband : y < env.header_height ∨ env.height - mui.tabs_height < y) :
    mui_pointer_down env st y ptr = some st ∧
    ∀ r, mui_pointer_up env consts st menu_stack x y ptr cbs action = some r →
      r.1.selection = st.selection ∧
      ∀ i, r.2.2 ≠ mui_pointer_up_return.menu_entry_action i menu_action.MENU_ACTION_SELECT := by
  have hu : u32 ((env.height : Int) - (mui.tabs_height : Int))
      = env.height - mui.tabs_height := by
    unfold u32
    rw [Int.emod_eq_of_lt (by omega) (by omega)]
    omega
  constructor
  · simp only [mui_pointer_down, hmui, hu]
    rcases hband with h | h
    · rw [if_pos h]
    · by_cases hh : y < env.header_height
      · rw [if_pos hh]
      · rw [if_neg hh, if_pos h]
  · intro r hr
    simp only [mui_pointer_up, hmui, hu] at hr
    by_cases hh : y < env.header_height
    · rw [if_pos hh] at hr
      cases hr
      exact ⟨rfl, fun i h => by cases h⟩
    · have ht : env.height - mui.tabs_height < y := by
        rcases hband with h | h
        · exact absurd h hh
        · exact h
      rw [if_neg hh, if_pos ht] at hr
      cases htab : mui_pointer_up_tabs consts env.width x action cbs
          [MUI_SYSTEM_TAB_MAIN, MUI_SYSTEM_TAB_PLAYLISTS, MUI_SYSTEM_TAB_SETTINGS]
          mui menu_stack with
      | none => rw [htab] at hr; cases hr
      | some t =>
        rw [htab] at hr
        simp only [Option.map_some', Option.some.injEq] at hr
        subst hr
        refine ⟨rfl, ?_⟩
        intro i hi
        rcases mui_pointer_up_tabs_return consts env.width x action cbs _ mui menu_stack t htab
          with h | h
        · simp only at hi
          rw [h] at hi
          cases hi
        · simp only at hi
          rw [h] at hi
          cases hi

/-- C11: the code at a failing input. The viewport is 30 pixels high, the tab bar 48
and the header 10; y = 20 is below the header and above 30 − 48, hence inside the tab
band, yet `mui_pointer_down` moves the selection from 3 to 0 and `mui_pointer_up`
returns the select action of entry 0: the unsigned difference
`height - mui->tabs_height` wraps to 4294967278 and the tab test fails. -/
theorem mui_pointer_tab_band_wraps :
    example_state_tabs.mui = some example_mui_tabs ∧
    ¬ (20 < example_env_low.header_height) ∧
    ((example_env_low.height : Int) - (example_mui_tabs.tabs_height : Int) < 20) ∧
    u32 ((example_env_low.height : Int) - (example_mui_tabs.tabs_height : Int))
      = 4294967278 ∧
    example_state_tabs.selection = 3 ∧
    mui_pointer_down example_env_low example_state_tabs 20 0
      = some { example_state_tabs with selection := 0 } ∧
    mui_pointer_up example_env_low example_tab_consts example_state_tabs [] 0 20 0
        (some example_cbs) 0
      = some (example_state_tabs, [],
          mui_pointer_up_return.menu_entry_action 0 menu_action.MENU_ACTION_SELECT) := by
  refine ⟨rfl, by decide, by decide, by decide, rfl, ?_, ?_⟩
  · simp [mui_pointer_down, example_state_tabs, example_state, example_env_low, example_env,
      example_mui_tabs, example_mui, u32, menu_entries_get_size, example_layout,
      example_nodes, mui_scan_loop, mui_entry_hit, mui_node_zero]
    norm_num
  · simp [mui_pointer_up, example_state_tabs, example_state, example_env_low, example_env,
      example_mui_tabs, example_mui, u32, menu_entries_get_size, example_layout,
      example_nodes, mui_pointer_up_loop, mui_entry_hit, mui_node_zero, size_t_val,
      example_cbs]
    norm_num

/-! ## Claims on the scroll target and the visible area -/

/-- The scroll target is never negative. -/
theorem mui_get_scroll_nonneg (env : menu_env) (mui : Option mui_handle_t) (selection : Nat) :
    0 ≤ mui_get_scroll env mui selection := by
  cases mui with
  | none => exact le_refl _
  | some mui =>
    unfold mui_get_scroll
    dsimp only
    split_ifs
    all_goals first | exact le_refl _ | exact Nat.cast_nonneg _

/-- C14: the code at a failing input. Nine entries whose sublabels make every row 96
high, row height `mui->line_height` = 48, viewport 480 high, header 48 and tab bar
48, the last entry (index 8) selected: `mui_get_scroll` returns (8 + 2 − 3) × 48 =
336, `mui_render` leaves it unchanged, and the selected entry's band starts at
48 + 768 − 336 = 480, below the tab bar's top edge 432: the entry is not visible. -/
theorem mui_get_scroll_selection_hidden :
    ∃ (st' : menu_state) (mui' : mui_handle_t) (node : mui_node_t),
      example_state_rows.selection = 8 ∧
      mui_get_scroll example_env_rows (some example_mui_tabs) 8 = 336 ∧
      (mui_populate_entries example_env_rows example_state_rows).mui
        = some { example_mui_tabs with scroll_y := 336 } ∧
      mui_render example_env_rows (mui_populate_entries example_env_rows example_state_rows)
        = some st' ∧
      st'.mui = some mui' ∧ mui'.scroll_y = 336 ∧
      st'.selection_buf[8]? = some (some node) ∧
      node.y = 768 ∧ node.line_height = 96 ∧
      (example_env_rows.header_height : ℚ) + node.y - mui'.scroll_y = 480 ∧
      (example_env_rows.height : ℚ) - (mui'.tabs_height : ℚ) = 432 ∧
      ¬ ((example_env_rows.header_height : ℚ) + node.y - mui'.scroll_y
            ≤ (example_env_rows.height : ℚ) - (mui'.tabs_height : ℚ) ∧
          (example_env_rows.header_height : ℚ)
            ≤ (example_env_rows.header_height : ℚ) + node.y + node.line_height
                - mui'.scroll_y) := by
  have hscroll : mui_get_scroll example_env_rows (some example_mui_tabs) 8 = 336 := by
    simp [mui_get_scroll, example_env_rows, example_env, example_mui_tabs, example_mui,
      size_t_val]
  have hpopst : mui_populate_entries example_env_rows example_state_rows
      = { example_state_rows with mui := some { example_mui_tabs with scroll_y := 336 } } := by
    simp only [mui_populate_entries, example_state_rows]
    rw [hscroll]
  have hpop : (mui_populate_entries example_env_rows example_state_rows).mui
      = some { example_mui_tabs with scroll_y := 336 } := by
    rw [hpopst]
  refine ⟨{ example_state_rows with
      mui := some { example_mui_tabs with scroll_y := 336 }
      selection_buf := (List.range 9).map (fun i =>
        some { mui_node_zero with line_height := 96, y := 96 * (i : ℚ) }) },
    { example_mui_tabs with scroll_y := 336 },
    { mui_node_zero with line_height := 96, y := 768 },
    rfl, hscroll, hpop, ?_, rfl, rfl, ?_, rfl, rfl, ?_, ?_, ?_⟩
  · rw [hpopst]
    simp [mui_render, mui_compute_entries_box,
      mui_compute_entries_box_loop, example_state_rows, example_state, example_mui_tabs,
      example_mui, example_env_rows, example_env, mui_sublabel_lines, mui_count_lines,
      mui_count_lines_loop, mui_node_zero, mui_content_height, mui_content_height_loop,
      mui_render_clamp, float_to_unsigned, u32, List.replicate, List.range, List.range.loop]
    norm_num
  · simp [List.range, List.range.loop]
    norm_num
  · norm_num [example_env_rows, example_env]
  · norm_num [example_env_rows, example_env, example_mui_tabs, example_mui]
  · norm_num [example_env_rows, example_env, example_mui_tabs, example_mui]

/-! ## Claims on repopulation -/

/-- C17 (as stated) fails: for the five-entry list (content height 240) in a viewport
200 pixels high with header 40 and tabs 0, maxScroll is 80, yet with the last entry
selected `mui_populate_entries` leaves scroll_y = (4 + 2 − 1) × 48 = 240, and the
request `mui_navigation_set` pushes has the same target 240. -/
theorem mui_populate_entries_unclamped_counterexample :
    ∃ (mui' : mui_handle_t) (entry : menu_animation_ctx_entry_t),
      (mui_populate_entries example_env example_state_last).mui = some mui' ∧
      mui_content_height (mui_populate_entries example_env example_state_last).selection_buf
        = some 240 ∧
      mui'.scroll_y = 240 ∧
      ¬ (mui'.scroll_y ≤ max 0 ((240 : ℚ) - (example_env.height : ℚ)
          + (example_env.header_height : ℚ) + (mui'.tabs_height : ℚ))) ∧
      mui_navigation_set example_env (some example_mui) 4 true
        = (some example_mui, [entry]) ∧
      entry.target_value = 240 ∧
      ¬ (entry.target_value ≤ max 0 ((240 : ℚ) - (example_env.height : ℚ)
          + (example_env.header_height : ℚ) + (example_mui.tabs_height : ℚ))) := by
  have hscroll : mui_get_scroll example_env (some example_mui) 4 = 240 := by
    simp [mui_get_scroll, example_env, example_mui, size_t_val]
  refine ⟨{ example_mui with scroll_y := 240 },
    { duration := 10, target_value := 240,
      subject := some menu_animation_subject.scroll_y,
      easing_enum := menu_animation_easing_type.EASING_IN_OUT_QUAD,
      tag := -1, cb := false }, ?_, ?_, rfl, ?_, ?_, rfl, ?_⟩
  · simp [mui_populate_entries, example_state_last, example_state, hscroll]
  · simp [mui_populate_entries, example_state_last, example_state, mui_content_height,
      mui_content_height_loop, example_layout, example_nodes, mui_node_zero]
    norm_num
  · norm_num [example_env, example_mui]
  · simp [mui_navigation_set, hscroll]
  · norm_num [example_env, example_mui]

/-- C17 (amended): after `mui_populate_entries` (content repopulation), scroll_y equals
the target `mui_get_scroll(mui)`, which is ≥ 0 for every selection index and list size
but is not clamped to maxScroll; scroll_y lies within [0, maxScroll] for the
repopulated list after the next `mui_render`. Likewise the target that keyboard
navigation animates scroll_y towards is `mui_get_scroll(mui)`, ≥ 0 and not clamped. -/
theorem mui_populate_entries_then_render (env : menu_env) (st : menu_state)
    (mui : mui_handle_t) (hmui : st.mui = some mui)
    (hnodes : ∀ slot ∈ st.selection_buf, slot ≠ none) (hfont : mui.font ≠ none)
    (hdiv : mui.glyph_width2 ≠ 0 ∨ ∀ i, env.menu_entry_get_sublabel i = none)
    (hheight : env.height < 4294967296) :
    mui_populate_entries env st
      = { st with mui := some { mui with
            scroll_y := (mui_get_scroll env (some mui) st.selection) } } ∧
    0 ≤ mui_get_scroll env (some mui) st.selection ∧
    (∀ entry ∈ (mui_navigation_set env (some mui) st.selection true).2,
      entry.target_value = mui_get_scroll env (some mui) st.selection ∧
      0 ≤ entry.target_value) ∧
    ∃ (st' : menu_state) (mui' : mui_handle_t) (content_height : ℚ),
      mui_render env (mui_populate_entries env st) = some st' ∧ st'.mui = some mui' ∧
      mui_content_height st'.selection_buf = some content_height ∧
      0 ≤ mui'.scroll_y ∧
      mui'.scroll_y ≤ max 0 (content_height - (env.height : ℚ) + (env.header_height : ℚ)
        + (mui'.tabs_height : ℚ)) := by
  have hpop : mui_populate_entries env st
      = { st with mui := some { mui with
            scroll_y := (mui_get_scroll env (some mui) st.selection) } } := by
    simp [mui_populate_entries, hmui]
  refine ⟨hpop, mui_get_scroll_nonneg _ _ _, ?_, ?_⟩
  · intro entry hentry
    simp only [mui_navigation_set, Bool.not_true, Bool.false_eq_true, if_false,
      Option.isSome_some, if_true, List.mem_singleton] at hentry
    subst hentry
    exact ⟨rfl, mui_get_scroll_nonneg _ _ _⟩
  · rw [hpop]
    obtain ⟨st', mui', ch, h1, h2, h3, h4, h5⟩ :=
      mui_render_scroll_eq env
        { st with mui := some { mui with
            scroll_y := (mui_get_scroll env (some mui) st.selection) } }
        { mui with scroll_y := (mui_get_scroll env (some mui) st.selection) }
        rfl hnodes hfont hdiv
    refine ⟨st', mui', ch, h1, h2, h3, ?_, ?_⟩
    · rw [h5]
      exact mui_render_clamp_nonneg _ _ _ _ _ _
    · rw [h5, h4]
      exact mui_render_clamp_le _ _ _ _ _ _ hheight

/-- Instance of C17 (amended): the laid-out five-entry list with the last entry
selected (selection 4, row height 48, viewport 200, header 40). The target
`mui_get_scroll` is (4 + 2 − 1) × 48 = 240, repopulation leaves scroll_y at that
target, the request of keyboard navigation has the same target, and the next
`mui_render` brings scroll_y within [0, maxScroll]. -/
theorem mui_populate_entries_then_render_witness :
    example_state_last.mui = some example_mui ∧
    (∀ slot ∈ example_state_last.selection_buf, slot ≠ none) ∧ example_mui.font ≠ none ∧
    (example_mui.glyph_width2 ≠ 0 ∨ ∀ i, example_env.menu_entry_get_sublabel i = none) ∧
    example_env.height < 4294967296 ∧
    example_state_last.selection = 4 ∧
    mui_get_scroll example_env (some example_mui) example_state_last.selection = 240 ∧
    mui_populate_entries example_env example_state_last
      = { example_state_last with mui := some { example_mui with
            scroll_y := (mui_get_scroll example_env (some example_mui)
              example_state_last.selection) } } ∧
    0 ≤ mui_get_scroll example_env (some example_mui) example_state_last.selection ∧
    (∀ entry ∈ (mui_navigation_set example_env (some example_mui)
        example_state_last.selection true).2,
      entry.target_value
        = mui_get_scroll example_env (some example_mui) example_state_last.selection ∧
      0 ≤ entry.target_value) ∧
    ∃ (st' : menu_state) (mui' : mui_handle_t) (content_height : ℚ),
      mui_render example_env (mui_populate_entries example_env example_state_last)
        = some st' ∧
      st'.mui = some mui' ∧
      mui_content_height st'.selection_buf = some content_height ∧
      0 ≤ mui'.scroll_y ∧
      mui'.scroll_y ≤ max 0 (content_height - (example_env.height : ℚ)
        + (example_env.header_height : ℚ) + (mui'.tabs_height : ℚ)) := by
  have hnodes : ∀ slot ∈ example_state_last.selection_buf, slot ≠ none := by
    simp [example_state_last, example_layout, example_nodes]
  have hscroll : mui_get_scroll example_env (some example_mui)
      example_state_last.selection = 240 := by
    simp [mui_get_scroll, example_state_last, example_env, example_mui, size_t_val]
  have h := mui_populate_entries_then_render example_env example_state_last example_mui rfl
    hnodes (by simp [example_mui]) (Or.inl (by decide)) (by decide)
  exact ⟨rfl, hnodes, by simp [example_mui], Or.inl (by decide), by decide, rfl, hscroll, h⟩

/-! ## Claims on degenerate layouts -/

/-- The loop of `mui_compute_entries_box` has no result on a list with an empty slot. -/
theorem compute_loop_none_of_hole (env : menu_env) (mui : mui_handle_t) (uw : Nat)
    (scale : ℚ) : ∀ (l : file_list_t) (i : Nat) (s : ℚ), none ∈ l →
    mui_compute_entries_box_loop env mui uw scale i s l = none := by
  intro l
  induction l with
  | nil => intro i s h; simp at h
  | cons slot rest ih =>
    intro i s h
    cases slot with
    | none => rfl
    | some node =>
      have hrest : none ∈ rest := by
        rcases List.mem_cons.mp h with h1 | h1
        · cases h1
        · exact h1
      simp only [mui_compute_entries_box_loop]
      cases mui_sublabel_lines env mui uw i with
      | none => rfl
      | some lines =>
        cases mui.font with
        | none => rfl
        | some font => simp [ih (i + 1) _ hrest]

/-- The loop of `mui_content_height` has no result on a list with an empty slot. -/
theorem content_height_loop_none_of_hole : ∀ (l : file_list_t) (s : ℚ), none ∈ l →
    mui_content_height_loop s l = none := by
  intro l
  induction l with
  | nil => intro s h; simp at h
  | cons slot rest ih =>
    intro s h
    cases slot with
    | none => rfl
    | some node =>
      have hrest : none ∈ rest := by
        rcases List.mem_cons.mp h with h1 | h1
        · cases h1
        · exact h1
      simp only [mui_content_height_loop]
      exact ih _ hrest

/-- C21: the code at a failing input. After `mui_list_insert` has failed to allocate
the node of slot 1, the list holds an empty slot; `mui_compute_entries_box`,
`mui_content_height` and `mui_render` then dereference the null node and have no
result, instead of skipping the entry. The same holds for every list with an empty
slot. -/
theorem mui_layout_missing_node_aborts :
    mui_list_insert example_env_no_memory (some example_mui) (some example_list_hole)
        [] 1 0 { example_verbosity with main_verbosity := false }
      = some (some example_list_hole, { example_verbosity with main_verbosity := false }) ∧
    example_list_hole[1]? = some none ∧
    mui_compute_entries_box example_env example_mui 800 example_list_hole = none ∧
    mui_content_height example_list_hole = none ∧
    mui_render example_env example_state_hole = none ∧
    (∀ (env : menu_env) (mui : mui_handle_t) (width : Int) (list : file_list_t),
      none ∈ list →
      mui_compute_entries_box env mui width list = none ∧ mui_content_height list = none) := by
  have hgen : ∀ (env : menu_env) (mui : mui_handle_t) (width : Int) (list : file_list_t),
      none ∈ list →
      mui_compute_entries_box env mui width list = none ∧ mui_content_height list = none :=
    fun env mui width list h =>
      ⟨compute_loop_none_of_hole env mui _ _ list 0 0 h,
        content_height_loop_none_of_hole list 0 h⟩
  have hmem : none ∈ example_list_hole := by simp [example_list_hole]
  refine ⟨?_, rfl, (hgen _ _ _ _ hmem).1,
    (hgen example_env example_mui 800 example_list_hole hmem).2, ?_, hgen⟩
  · simp [mui_list_insert, example_list_hole, example_env_no_memory, RARCH_ERR, RARCH_ERR_V,
      RARCH_LOG_V, example_verbosity]
  · have h := (hgen example_env example_mui (to_int example_env.width) example_list_hole hmem).1
    simp [mui_render, example_state_hole, example_state, h]

/-- C22: with zero entries, `mui_content_height` returns 0 and the clamp in
`mui_render` leaves scroll_y = 0, for every viewport height, header height and tab
height for which `bottom` is representable, every prior scroll_y and every consumed
acceleration. -/
theorem mui_render_zero_entries (env : menu_env) (st : menu_state) (mui : mui_handle_t)
    (hmui : st.mui = some mui) (hempty : st.selection_buf = [])
    (hheight : env.height < 4294967296)
    (hchrome : env.header_height + mui.tabs_height < 4294967296 + env.height) :
    mui_content_height st.selection_buf = some 0 ∧
    ∃ (st' : menu_state) (mui' : mui_handle_t),
      mui_render env st = some st' ∧ st'.mui = some mui' ∧
      mui_content_height st'.selection_buf = some 0 ∧ mui'.scroll_y = 0 := by
  have hclamp : ∀ s : ℚ,
      mui_render_clamp env 0 env.height env.header_height mui.tabs_height s = 0 := by
    intro s
    rw [mui_render_clamp_eq]
    split_ifs with hfit
    · rfl
    · have hu : u32 ((env.height : Int) - (env.header_height : Int) - (mui.tabs_height : Int))
          = 0 := by
        by_contra hne
        apply hfit
        have : 0 < u32 ((env.height : Int) - (env.header_height : Int)
            - (mui.tabs_height : Int)) := Nat.pos_of_ne_zero hne
        exact_mod_cast this
      have hz : (env.height : Int) - (env.header_height : Int) - (mui.tabs_height : Int)
          = 0 := by
        unfold u32 at hu
        omega
      have hv : (0 : ℚ) - (env.height : ℚ) + (env.header_height : ℚ) + (mui.tabs_height : ℚ)
          = 0 := by
        have : (((env.height : Int) - (env.header_height : Int) - (mui.tabs_height : Int)
            : Int) : ℚ) = 0 := by rw [hz]; rfl
        push_cast at this
        linarith
      rw [hv]
      have hf : float_to_unsigned env 0 = 0 := by
        simp [float_to_unsigned]
      rw [hf]
      simp
  refine ⟨by rw [hempty]; rfl, ?_⟩
  have hr : ∃ (st' : menu_state) (s : ℚ), mui_render env st = some st' ∧
      st'.selection_buf = [] ∧
      st'.mui = some { mui with scroll_y :=
        (mui_render_clamp env 0 env.height env.header_height mui.tabs_height s) } := by
    cases hp : env.menu_pointer_enable <;> cases hm : env.menu_mouse_enable
    all_goals
      exact ⟨_, _, by simp [mui_render, hmui, hempty, mui_compute_entries_box,
          mui_compute_entries_box_loop, mui_scan_loop, mui_content_height,
          mui_content_height_loop, hp, hm]; rfl, by rfl, by rfl⟩
  obtain ⟨st', s, h1, h2, h3⟩ := hr
  exact ⟨st', _, h1, h3, by rw [h2]; rfl, hclamp s⟩

/-- Instance of C22: an empty list in a viewport 200 pixels high with header 40 and
scroll_y = 999. -/
theorem mui_render_zero_entries_witness :
    example_state_empty.mui = some example_mui ∧ example_state_empty.selection_buf = [] ∧
    example_env.height < 4294967296 ∧
    example_env.header_height + example_mui.tabs_height < 4294967296 + example_env.height ∧
    mui_content_height example_state_empty.selection_buf = some 0 ∧
    ∃ (st' : menu_state) (mui' : mui_handle_t),
      mui_render example_env example_state_empty = some st' ∧ st'.mui = some mui' ∧
      mui_content_height st'.selection_buf = some 0 ∧ mui'.scroll_y = 0 :=
  ⟨rfl, rfl, by decide, by decide,
    mui_render_zero_entries example_env example_state_empty example_mui rfl rfl
      (by decide) (by decide)⟩

/-- The sum of the row heights is positive when there is a row and every row is
higher than a positive bound. -/
theorem sum_line_height_pos (b : ℚ) (hb : 0 < b) : ∀ (nodes : List mui_node_t),
    nodes ≠ [] → (∀ node ∈ nodes, b ≤ node.line_height) →
    0 < (nodes.map (·.line_height)).sum := by
  intro nodes
  induction nodes with
  | nil => intro h _; exact absurd rfl h
  | cons a rest ih =>
    intro _ hall
    have ha : b ≤ a.line_height := hall a (List.mem_cons_self _ _)
    have hrest : 0 ≤ (rest.map (·.line_height)).sum := by
      cases rest with
      | nil => simp
      | cons c rest2 =>
        exact le_of_lt (ih (List.cons_ne_nil _ _)
          (fun node hn => hall node (List.mem_cons_of_mem _ hn)))
    simp only [List.map_cons, List.sum_cons]
    linarith

/-- C23, counterexample: in a viewport of width 0 the five-entry list is laid out as in
any other viewport, five rows of height 48; the total content height is 240, not 0,
and `mui_render` leaves scroll_y = 80, not 0. -/
theorem mui_render_zero_width_counterexample :
    example_env_zero_width.width = 0 ∧
    mui_compute_entries_box example_env_zero_width example_mui
      (to_int example_env_zero_width.width) example_list = some (example_layout 48) ∧
    mui_content_height (example_layout 48) = some 240 ∧
    mui_render example_env_zero_width example_state
      = some { example_state with
          mui := some { example_mui with scroll_y := 80 }
          selection_buf := example_layout 48 } := by
  refine ⟨rfl, ?_, ?_, ?_⟩
  · simp [mui_compute_entries_box, mui_compute_entries_box_loop, example_list, example_mui,
      example_env_zero_width, example_env, mui_sublabel_lines, mui_node_zero, example_layout,
      example_nodes]
    norm_num
  · simp [mui_content_height, mui_content_height_loop, mui_node_zero, example_layout,
      example_nodes]
    norm_num
  · simp [mui_render, mui_compute_entries_box, mui_compute_entries_box_loop, example_list,
      example_mui, example_state, example_env_zero_width, example_env, mui_sublabel_lines,
      mui_node_zero, mui_content_height, mui_content_height_loop, mui_render_clamp,
      float_to_unsigned, u32, example_layout, example_nodes]
    norm_num

/-- C23, amended: a viewport of width 0 or height 0 takes no special path. Layout and
`mui_render` complete without error; every entry gets line_height = dpi/3 + lines ×
entry font size, so for a non-empty list at positive dpi and non-negative font size
the total content height is positive; and `mui_render` leaves scroll_y in
[0, maxScroll] with maxScroll = max(0, contentHeight − viewportHeight + headerHeight
+ tabsHeight). -/
theorem mui_render_zero_viewport (env : menu_env) (st : menu_state) (mui : mui_handle_t)
    (font : font_data_t)
    (_hzero : env.width = 0 ∨ env.height = 0)
    (hmui : st.mui = some mui)
    (hnodes : ∀ slot ∈ st.selection_buf, slot ≠ none) (hfont : mui.font = some font)
    (hdiv : mui.glyph_width2 ≠ 0 ∨ ∀ i, env.menu_entry_get_sublabel i = none)
    (hheight : env.height < 4294967296) :
    ∃ (nodes : List mui_node_t) (st' : menu_state) (mui' : mui_handle_t),
      mui_compute_entries_box env mui (to_int env.width) st.selection_buf
        = some (nodes.map some) ∧
      nodes.length = st.selection_buf.length ∧
      (∀ (k : Nat) (a : mui_node_t), nodes[k]? = some a → ∃ lines : Nat,
        a.line_height = env.dpi / 3 + (lines : ℚ) * font.size) ∧
      mui_render env st = some st' ∧ st'.mui = some mui' ∧
      mui_content_height st'.selection_buf = some ((nodes.map (·.line_height)).sum) ∧
      (0 < env.dpi → 0 ≤ font.size → st.selection_buf ≠ [] →
        0 < (nodes.map (·.line_height)).sum) ∧
      0 ≤ mui'.scroll_y ∧
      mui'.scroll_y ≤ max 0 ((nodes.map (·.line_height)).sum - (env.height : ℚ)
        + (env.header_height : ℚ) + (mui.tabs_height : ℚ)) := by
  have hfont' : mui.font ≠ none := by rw [hfont]; simp
  obtain ⟨nodes, h1, h2, _, h4⟩ :=
    compute_entries_box_spec env mui (to_int env.width) st.selection_buf font hnodes hfont hdiv
  obtain ⟨nodes2, st', g1, g2, _, g4, g5⟩ := mui_render_spec env st mui hmui hnodes hfont' hdiv
  have hsame : nodes2 = nodes := by
    rw [h1] at g1
    have := Option.some.inj g1
    exact (List.map_injective_iff.mpr (Option.some_injective _) this).symm
  subst hsame
  refine ⟨nodes2, st', _, h1, h2, ?_, g2, g5, g4, ?_, ?_, ?_⟩
  · intro k a hk
    obtain ⟨lines, _, hl⟩ := h4 k a hk
    exact ⟨lines, hl⟩
  · intro hdpi hsize hne
    have hb : (0 : ℚ) < env.dpi / 3 := by positivity
    apply sum_line_height_pos (env.dpi / 3) hb
    · intro hnil
      apply hne
      rw [hnil] at h2
      exact List.length_eq_zero.mp h2.symm
    · intro node hn
      obtain ⟨k, hk⟩ := List.getElem?_of_mem hn
      obtain ⟨lines, _, hl⟩ := h4 k node hk
      rw [hl]
      have : (0 : ℚ) ≤ (lines : ℚ) * font.size :=
        mul_nonneg (Nat.cast_nonneg _) hsize
      linarith
  · exact mui_render_clamp_nonneg _ _ _ _ _ _
  · exact mui_render_clamp_le _ _ _ _ _ _ hheight

/-- Instance of C23 amended: the five-entry list in a viewport of width 0. -/
theorem mui_render_zero_viewport_witness :
    (example_env_zero_width.width = 0 ∨ example_env_zero_width.height = 0) ∧
    ∃ (nodes : List mui_node_t) (st' : menu_state) (mui' : mui_handle_t),
      mui_compute_entries_box example_env_zero_width example_mui
        (to_int example_env_zero_width.width) example_state.selection_buf
        = some (nodes.map some) ∧
      nodes.length = example_state.selection_buf.length ∧
      (∀ (k : Nat) (a : mui_node_t), nodes[k]? = some a → ∃ lines : Nat,
        a.line_height = example_env_zero_width.dpi / 3 + (lines : ℚ) * 16) ∧
      mui_render example_env_zero_width example_state = some st' ∧ st'.mui = some mui' ∧
      mui_content_height st'.selection_buf = some ((nodes.map (·.line_height)).sum) ∧
      (0 < example_env_zero_width.dpi → 0 ≤ (16 : ℚ) → example_state.selection_buf ≠ [] →
        0 < (nodes.map (·.line_height)).sum) ∧
      0 ≤ mui'.scroll_y ∧
      mui'.scroll_y ≤ max 0 ((nodes.map (·.line_height)).sum
        - (example_env_zero_width.height : ℚ)
        + (example_env_zero_width.header_height : ℚ) + (example_mui.tabs_height : ℚ)) :=
  ⟨Or.inl rfl,
    mui_render_zero_viewport example_env_zero_width example_state example_mui { size := 16 }
      (Or.inl rfl) rfl (by simp [example_state, example_list]) rfl (Or.inr (fun _ => rfl))
      (by decide)⟩

/-! ## Claims on the scroll threshold -/

/-- C24: for every viewport height and every row height line_height > 0, the threshold
the code computes, `(height / line_height) / 3` with two truncating unsigned
divisions, equals the specified threshold height / (3 × line_height) taken as one
truncating division; `mui_get_scroll` therefore behaves as if it used the specified
threshold. -/
theorem mui_scroll_half_eq_spec_threshold (height line_height : Nat)
    (hpos : 0 < line_height) :
    mui_scroll_half height line_height = spec_scroll_threshold height line_height ∧
    (height / line_height) / 3 = height / (3 * line_height) ∧
    ∀ (env : menu_env) (mui : mui_handle_t) (selection : Nat),
      env.height = height → mui.line_height = line_height →
      mui_get_scroll env (some mui) selection =
        if selection < spec_scroll_threshold height line_height then 0
        else ((size_t_val ((size_t_val ((selection : Int) + 2
          - (spec_scroll_threshold height line_height : Int)) : Int)
          * (line_height : Int)) : Nat) : ℚ) := by
  have hdiv : (height / line_height) / 3 = height / (3 * line_height) := by
    rw [Nat.div_div_eq_div_mul, Nat.mul_comm]
  have hne : line_height ≠ 0 := Nat.pos_iff_ne_zero.mp hpos
  refine ⟨?_, hdiv, ?_⟩
  · simp [mui_scroll_half, spec_scroll_threshold, hne, hdiv]
  · intro env mui selection hh hl
    simp only [mui_get_scroll, hh, hl, spec_scroll_threshold, ← hdiv]
    simp [hne]

/-- Instance of C24: viewport height 200 and row height 48 give the threshold 1. -/
theorem mui_scroll_half_eq_spec_threshold_witness :
    0 < 48 ∧
    mui_scroll_half 200 48 = spec_scroll_threshold 200 48 ∧
    (200 / 48) / 3 = 200 / (3 * 48) ∧
    ∀ (env : menu_env) (mui : mui_handle_t) (selection : Nat),
      env.height = 200 → mui.line_height = 48 →
      mui_get_scroll env (some mui) selection =
        if selection < spec_scroll_threshold 200 48 then 0
        else ((size_t_val ((size_t_val ((selection : Int) + 2
          - (spec_scroll_threshold 200 48 : Int)) : Int)
          * ((48 : Nat) : Int)) : Nat) : ℚ) :=
  ⟨by decide, mui_scroll_half_eq_spec_threshold 200 48 (by decide)⟩

/-! ## Claims on the tab bar -/

/-- One iteration of the tab loop of `mui_pointer_up` whose column contains x. -/
theorem mui_pointer_up_tabs_hit (consts : menu_tab_consts) (width x action : Nat)
    (cbs : menu_file_list_cbs_t) (i : Nat) (rest : List Nat) (mui : mui_handle_t)
    (menu_stack s : List menu_stack_item)
    (hcol : (width / 3 * i) % 4294967296 ≤ x ∧
      x < ((width / 3 * i) % 4294967296 + width / 3) % 4294967296)
    (hs : mui_preswitch_tabs consts
      (some { mui with categories := { mui.categories with selection_ptr := i } })
      action menu_stack = some s)
    (hcbs : cbs.action_content_list_switch = true) :
    mui_pointer_up_tabs consts width x action (some cbs) (i :: rest) mui menu_stack
      = some ({ mui with categories := { mui.categories with selection_ptr := i } }, s,
          mui_pointer_up_return.action_content_list_switch) := by
  have h3 : MUI_SYSTEM_TAB_END + 1 = 3 := rfl
  simp only [mui_pointer_up_tabs, h3, hcol, and_self, if_true, hs, hcbs]

/-- One iteration of the tab loop of `mui_pointer_up` whose column does not contain x. -/
theorem mui_pointer_up_tabs_miss (consts : menu_tab_consts) (width x action : Nat)
    (cbs : Option menu_file_list_cbs_t) (i : Nat) (rest : List Nat) (mui : mui_handle_t)
    (menu_stack : List menu_stack_item)
    (hcol : ¬ ((width / 3 * i) % 4294967296 ≤ x ∧
      x < ((width / 3 * i) % 4294967296 + width / 3) % 4294967296)) :
    mui_pointer_up_tabs consts width x action cbs (i :: rest) mui menu_stack
      = mui_pointer_up_tabs consts width x action cbs rest mui menu_stack := by
  have h3 : MUI_SYSTEM_TAB_END + 1 = 3 := rfl
  simp only [mui_pointer_up_tabs, h3, hcol, if_false]

/-- A release inside one of the three tab columns, `x < 3 × (width / 3)`, selects the
tab `x / (width / 3)` and switches lists. -/
theorem mui_pointer_up_tabs_column (consts : menu_tab_consts) (width x action : Nat)
    (cbs : menu_file_list_cbs_t) (mui : mui_handle_t) (menu_stack : List menu_stack_item)
    (hwidth : width < 4294967296) (hx : x < 3 * (width / 3)) (hstack : menu_stack ≠ [])
    (hcbs : cbs.action_content_list_switch = true) :
    ∃ (mui1 : mui_handle_t) (menu_stack1 : List menu_stack_item),
      mui_pointer_up_tabs consts width x action (some cbs)
        [MUI_SYSTEM_TAB_MAIN, MUI_SYSTEM_TAB_PLAYLISTS, MUI_SYSTEM_TAB_SETTINGS]
        mui menu_stack
        = some (mui1, menu_stack1, mui_pointer_up_return.action_content_list_switch) ∧
      mui1.categories.selection_ptr = x / (width / 3) ∧
      x / (width / 3) ≤ 2 := by
  have hpre : ∀ m : mui_handle_t, ∃ s : List menu_stack_item,
      mui_preswitch_tabs consts (some m) action menu_stack = some s := by
    intro m
    cases h : menu_stack.getLast? with
    | none => exact absurd (List.getLast?_eq_none_iff.mp h) hstack
    | some top =>
      simp only [mui_preswitch_tabs, h]
      exact ⟨_, rfl⟩
  have hw : 0 < width / 3 := by omega
  have hq : x / (width / 3) < 3 := (Nat.div_lt_iff_lt_mul hw).mpr hx
  have e0 : MUI_SYSTEM_TAB_MAIN = 0 := rfl
  have e1 : MUI_SYSTEM_TAB_PLAYLISTS = 1 := rfl
  have e2 : MUI_SYSTEM_TAB_SETTINGS = 2 := rfl
  rw [e0, e1, e2]
  have hcases : x / (width / 3) = 0 ∨ x / (width / 3) = 1 ∨ x / (width / 3) = 2 := by
    generalize x / (width / 3) = q at hq
    omega
  rcases hcases with h0 | h1 | h2
  · have hlt : x < width / 3 := (Nat.div_eq_zero_iff hw).mp h0
    obtain ⟨s, hs⟩ := hpre { mui with categories := { mui.categories with selection_ptr := 0 } }
    exact ⟨_, s, mui_pointer_up_tabs_hit consts width x action cbs 0 _ mui menu_stack s
      (by omega) hs hcbs, h0.symm, Nat.le_of_lt_succ hq⟩
  · have hge : width / 3 ≤ x := by
      by_contra hc
      have : x / (width / 3) = 0 := (Nat.div_eq_zero_iff hw).mpr (by omega)
      omega
    have hlt : x < width / 3 + width / 3 := by
      by_contra hc
      have : 2 ≤ x / (width / 3) := (Nat.le_div_iff_mul_le hw).mpr (by omega)
      omega
    obtain ⟨s, hs⟩ := hpre { mui with categories := { mui.categories with selection_ptr := 1 } }
    refine ⟨{ mui with categories := { mui.categories with selection_ptr := 1 } }, s, ?_,
      h1.symm, Nat.le_of_lt_succ hq⟩
    rw [mui_pointer_up_tabs_miss consts width x action (some cbs) 0 _ mui menu_stack (by omega)]
    exact mui_pointer_up_tabs_hit consts width x action cbs 1 _ mui menu_stack s
      (by omega) hs hcbs
  · have hge : width / 3 * 2 ≤ x := by
      have := (Nat.le_div_iff_mul_le hw).mp (le_of_eq h2.symm)
      omega
    obtain ⟨s, hs⟩ := hpre { mui with categories := { mui.categories with selection_ptr := 2 } }
    refine ⟨{ mui with categories := { mui.categories with selection_ptr := 2 } }, s, ?_,
      h2.symm, Nat.le_of_lt_succ hq⟩
    rw [mui_pointer_up_tabs_miss consts width x action (some cbs) 0 _ mui menu_stack (by omega),
      mui_pointer_up_tabs_miss consts width x action (some cbs) 1 _ mui menu_stack (by omega)]
    exact mui_pointer_up_tabs_hit consts width x action cbs 2 _ mui menu_stack s
      (by omega) hs hcbs

/-- C25: the code at a failing input. In a viewport 800 pixels wide the three tab
columns are 266 pixels wide and end at x = 798; a release at x = 799 inside the tab
band (y = 180 with viewport height 200 and a tab bar 48 high) matches no column:
`mui_pointer_up` returns 0 and leaves the selected tab and the menu stack unchanged,
although 0 ≤ x < viewportWidth. A release at x = 797 selects tab 2 and switches. -/
theorem mui_pointer_up_tab_gap :
    example_env.width = 800 ∧ 799 < example_env.width ∧
    180 > u32 ((example_env.height : Int) - (example_mui_tabs.tabs_height : Int)) ∧
    ¬ (180 < example_env.header_height) ∧
    (∀ i, i ≤ MUI_SYSTEM_TAB_END →
      ¬ (i * (example_env.width / 3) ≤ 799 ∧ 799 < (i + 1) * (example_env.width / 3))) ∧
    mui_pointer_up example_env example_tab_consts example_state_tabs example_menu_stack
        799 180 0 (some example_cbs) 0
      = some (example_state_tabs, example_menu_stack, mui_pointer_up_return.zero) ∧
    mui_pointer_up example_env example_tab_consts example_state_tabs example_menu_stack
        797 180 0 (some example_cbs) 0
      = some ({ example_state_tabs with
                mui := some { example_mui_tabs with
                  categories := { example_mui_tabs.categories with selection_ptr := 2 } } },
              [{ label := some example_tab_consts.label_settings_tab,
                 type := example_tab_consts.MENU_SETTINGS }],
              mui_pointer_up_return.action_content_list_switch) := by
  refine ⟨rfl, by decide, by decide, by decide, ?_, ?_, ?_⟩
  · intro i hi
    have hw : example_env.width / 3 = 266 := by decide
    have h2 : MUI_SYSTEM_TAB_END = 2 := rfl
    rw [hw]
    omega
  · simp [mui_pointer_up, mui_pointer_up_tabs, example_state_tabs, example_state,
      example_env, example_mui_tabs, example_mui, u32, MUI_SYSTEM_TAB_MAIN,
      MUI_SYSTEM_TAB_PLAYLISTS, MUI_SYSTEM_TAB_SETTINGS, MUI_SYSTEM_TAB_END]
  · simp [mui_pointer_up, mui_pointer_up_tabs, mui_preswitch_tabs, example_state_tabs,
      example_state, example_env, example_mui_tabs, example_mui, u32, MUI_SYSTEM_TAB_MAIN,
      MUI_SYSTEM_TAB_PLAYLISTS, MUI_SYSTEM_TAB_SETTINGS, MUI_SYSTEM_TAB_END,
      example_menu_stack, example_cbs, example_tab_consts]

/-! ## Claims on texture file names -/

/-- C27: the code at a failing input. `MUI_TEXTURE_UPDATE` (17) lies below
`MUI_TEXTURE_LAST`, the `switch` of `mui_texture_path` has no `case` for it, and the
function returns a null pointer; the loop of `mui_context_reset_textures` passes it to
the texture loader. Every other id below `MUI_TEXTURE_LAST` has a file name. -/
theorem mui_texture_path_update_null :
    MUI_TEXTURE_UPDATE = 17 ∧ MUI_TEXTURE_UPDATE < MUI_TEXTURE_LAST ∧
    mui_texture_path MUI_TEXTURE_UPDATE = none ∧
    mui_context_reset_textures_paths.length = MUI_TEXTURE_LAST ∧
    mui_context_reset_textures_paths[MUI_TEXTURE_UPDATE]? = some none ∧
    (∀ i, i < MUI_TEXTURE_LAST → i ≠ MUI_TEXTURE_UPDATE →
      (mui_texture_path i).isSome = true) := by
  refine ⟨rfl, by decide, by decide, by decide, by decide, ?_⟩
  decide

/-! ## Claims on the application id of the console launch -/

/-- A file of 1 to 10 bytes is read whole, the terminator is written inside
`app_ID_str`, and the application id is 0x0004000000000000 OR-ed with the parsed value
shifted left by 8 bits modulo 2^32. -/
theorem frontend_ctr_exec_app_id_short (sscanf_hex : List Char → Option Nat)
    (program_id : Nat) (path : Option (List Char)) (content : List Char) (parsed : Nat)
    (hpath : c_string_is_empty path = false)
    (hlen : 0 < content.length) (hshort : content.length < 11)
    (hparse : sscanf_hex content = some parsed) :
    frontend_ctr_exec_bytes_read content = content.length ∧
    frontend_ctr_exec_app_id sscanf_hex program_id path (some content)
      = some (ctr_exec_outcome.jump
          (0x0004000000000000 ||| (((parsed % 4294967296) * 256) % 4294967296))) := by
  have hb : frontend_ctr_exec_bytes_read content = content.length := by
    unfold frontend_ctr_exec_bytes_read
    omega
  refine ⟨hb, ?_⟩
  have h1 : ¬ content.length ≤ 0 := by omega
  simp [frontend_ctr_exec_app_id, hpath, hb, h1, hshort, List.take_length, hparse]

/-- C28: the code at a failing input. For the 11-byte file "0x000bab00" followed by a
line feed, `fread` fills all 11 bytes of `app_ID_str`, bytes_read = 11, and the
terminator is written at index 11, outside the buffer; the same holds for every file
of 11 bytes or more read from a non-empty core path. -/
theorem frontend_ctr_exec_terminator_out_of_bounds :
    "0x000bab00\n".toList.length = 11 ∧
    frontend_ctr_exec_bytes_read "0x000bab00\n".toList = 11 ∧
    ¬ (frontend_ctr_exec_bytes_read "0x000bab00\n".toList < 11) ∧
    (∀ (sscanf_hex : List Char → Option Nat) (program_id : Nat),
      frontend_ctr_exec_app_id sscanf_hex program_id (some "sdmc:/core".toList)
        (some "0x000bab00\n".toList) = none) ∧
    (∀ (sscanf_hex : List Char → Option Nat) (program_id : Nat) (path : Option (List Char))
      (content : List Char),
      c_string_is_empty path = false → 11 ≤ content.length →
      frontend_ctr_exec_bytes_read content = 11 ∧
      frontend_ctr_exec_app_id sscanf_hex program_id path (some content) = none) := by
  have hgen : ∀ (sscanf_hex : List Char → Option Nat) (program_id : Nat)
      (path : Option (List Char)) (content : List Char),
      c_string_is_empty path = false → 11 ≤ content.length →
      frontend_ctr_exec_bytes_read content = 11 ∧
      frontend_ctr_exec_app_id sscanf_hex program_id path (some content) = none := by
    intro sscanf_hex program_id path content hpath hlen
    have hb : frontend_ctr_exec_bytes_read content = 11 := by
      unfold frontend_ctr_exec_bytes_read
      omega
    refine ⟨hb, ?_⟩
    simp [frontend_ctr_exec_app_id, hpath, hb]
  refine ⟨by decide, by decide, by decide, ?_, hgen⟩
  intro sscanf_hex program_id
  exact (hgen sscanf_hex program_id (some "sdmc:/core".toList) "0x000bab00\n".toList
    (by decide) (by decide)).2

/-! ## Claims on keyboard navigation of the tabs -/

/-- On a non-empty menu stack `mui_preswitch_tabs` has a result, a non-empty stack. -/
theorem mui_preswitch_tabs_nonempty (consts : menu_tab_consts) (m : mui_handle_t)
    (action : Nat) (menu_stack : List menu_stack_item) (hstack : menu_stack ≠ []) :
    mui_preswitch_tabs consts (some m) action menu_stack ≠ none ∧
    ∀ s, mui_preswitch_tabs consts (some m) action menu_stack = some s → s ≠ [] := by
  cases h : menu_stack.getLast? with
  | none => exact absurd (List.getLast?_eq_none_iff.mp h) hstack
  | some top =>
    simp only [mui_preswitch_tabs, h]
    refine ⟨by simp, ?_⟩
    intro s hs
    have := Option.some.inj hs
    rw [← this]
    simp

/-- One call of `mui_list_cache` with `MENU_LIST_HORIZONTAL` from a tab p ≤ 2. -/
theorem mui_list_cache_horizontal (consts : menu_tab_consts) (MENU_ACTION_LEFT action : Nat)
    (mui : mui_handle_t) (menu_stack : List menu_stack_item)
    (hp : mui.categories.selection_ptr ≤ 2) (hstack : menu_stack ≠ []) :
    ∃ (mui1 : mui_handle_t) (menu_stack1 : List menu_stack_item),
      mui_list_cache consts MENU_ACTION_LEFT (some mui) menu_list_type.MENU_LIST_HORIZONTAL
        action menu_stack = some (some mui1, menu_stack1) ∧
      menu_stack1 ≠ [] ∧
      mui1.categories.selection_ptr =
        (if action = MENU_ACTION_LEFT then (mui.categories.selection_ptr + 2) % 3
         else (mui.categories.selection_ptr + 1) % 3) ∧
      mui1.categories.selection_ptr_old = mui.categories.selection_ptr := by
  have hend : MUI_SYSTEM_TAB_END = 2 := rfl
  cases h : mui_list_cache consts MENU_ACTION_LEFT (some mui)
      menu_list_type.MENU_LIST_HORIZONTAL action menu_stack with
  | none =>
    simp only [mui_list_cache, Option.map_eq_none'] at h
    exact absurd h (mui_preswitch_tabs_nonempty consts _ action menu_stack hstack).1
  | some r =>
    simp only [mui_list_cache, Option.map_eq_some'] at h
    obtain ⟨s, hs, hr⟩ := h
    subst hr
    refine ⟨_, s, rfl,
      (mui_preswitch_tabs_nonempty consts _ action menu_stack hstack).2 s hs, ?_, ?_⟩
    · have hcases : mui.categories.selection_ptr = 0 ∨ mui.categories.selection_ptr = 1 ∨
          mui.categories.selection_ptr = 2 := by omega
      by_cases ha : action = MENU_ACTION_LEFT
      · rcases hcases with h0 | h0 | h0 <;> simp [ha, h0, hend, size_t_val]
      · rcases hcases with h0 | h0 | h0 <;> simp [ha, h0, hend, size_t_val]
    · by_cases ha : action = MENU_ACTION_LEFT
      · by_cases h0 : mui.categories.selection_ptr = 0 <;> simp [ha, h0]
      · by_cases h0 : mui.categories.selection_ptr = MUI_SYSTEM_TAB_END <;> simp [ha, h0]

/-- C29: `mui_list_cache` with `MENU_LIST_HORIZONTAL` keeps categories.selection_ptr in
{0, 1, 2}: from any p in that range (on a non-empty menu stack) `MENU_ACTION_LEFT`
moves to (p + 2) mod 3 and any other action to (p + 1) mod 3, selection_ptr_old
records p; LEFT followed by any other action restores p, and so do three steps with
the same action; with `MENU_LIST_PLAIN` or any other list type the handle is
unchanged. -/
theorem mui_list_cache_cycles (consts : menu_tab_consts) (MENU_ACTION_LEFT action : Nat)
    (mui : mui_handle_t) (menu_stack : List menu_stack_item)
    (hp : mui.categories.selection_ptr ≤ 2) (hstack : menu_stack ≠ []) :
    (∃ (mui1 : mui_handle_t) (menu_stack1 : List menu_stack_item),
      mui_list_cache consts MENU_ACTION_LEFT (some mui) menu_list_type.MENU_LIST_HORIZONTAL
        action menu_stack = some (some mui1, menu_stack1) ∧
      mui1.categories.selection_ptr =
        (if action = MENU_ACTION_LEFT then (mui.categories.selection_ptr + 2) % 3
         else (mui.categories.selection_ptr + 1) % 3) ∧
      mui1.categories.selection_ptr ≤ 2 ∧
      mui1.categories.selection_ptr_old = mui.categories.selection_ptr) ∧
    (action ≠ MENU_ACTION_LEFT →
      ∃ (mui1 mui2 : mui_handle_t) (menu_stack1 menu_stack2 : List menu_stack_item),
        mui_list_cache consts MENU_ACTION_LEFT (some mui) menu_list_type.MENU_LIST_HORIZONTAL
          MENU_ACTION_LEFT menu_stack = some (some mui1, menu_stack1) ∧
        mui_list_cache consts MENU_ACTION_LEFT (some mui1) menu_list_type.MENU_LIST_HORIZONTAL
          action menu_stack1 = some (some mui2, menu_stack2) ∧
        mui2.categories.selection_ptr = mui.categories.selection_ptr) ∧
    (∃ (mui1 mui2 mui3 : mui_handle_t) (menu_stack1 menu_stack2 menu_stack3 :
        List menu_stack_item),
      mui_list_cache consts MENU_ACTION_LEFT (some mui) menu_list_type.MENU_LIST_HORIZONTAL
        action menu_stack = some (some mui1, menu_stack1) ∧
      mui_list_cache consts MENU_ACTION_LEFT (some mui1) menu_list_type.MENU_LIST_HORIZONTAL
        action menu_stack1 = some (some mui2, menu_stack2) ∧
      mui_list_cache consts MENU_ACTION_LEFT (some mui2) menu_list_type.MENU_LIST_HORIZONTAL
        action menu_stack2 = some (some mui3, menu_stack3) ∧
      mui3.categories.selection_ptr = mui.categories.selection_ptr) ∧
    mui_list_cache consts MENU_ACTION_LEFT (some mui) menu_list_type.MENU_LIST_PLAIN
      action menu_stack = some (some mui, menu_stack) ∧
    (∀ n, mui_list_cache consts MENU_ACTION_LEFT (some mui) (menu_list_type.other n)
      action menu_stack = some (some mui, menu_stack)) := by
  refine ⟨?_, ?_, ?_, rfl, fun _ => rfl⟩
  · obtain ⟨mui1, s1, h1, _, h3, h4⟩ :=
      mui_list_cache_horizontal consts MENU_ACTION_LEFT action mui menu_stack hp hstack
    refine ⟨mui1, s1, h1, h3, ?_, h4⟩
    rw [h3]
    split_ifs <;> omega
  · intro ha
    obtain ⟨mui1, s1, h1, hne1, h3, _⟩ :=
      mui_list_cache_horizontal consts MENU_ACTION_LEFT MENU_ACTION_LEFT mui menu_stack hp
        hstack
    rw [if_pos rfl] at h3
    obtain ⟨mui2, s2, g1, _, g3, _⟩ :=
      mui_list_cache_horizontal consts MENU_ACTION_LEFT action mui1 s1 (by omega) hne1
    rw [if_neg ha] at g3
    exact ⟨mui1, mui2, s1, s2, h1, g1, by omega⟩
  · obtain ⟨mui1, s1, h1, hne1, h3, _⟩ :=
      mui_list_cache_horizontal consts MENU_ACTION_LEFT action mui menu_stack hp hstack
    have hp1 : mui1.categories.selection_ptr ≤ 2 := by
      rw [h3]
      split_ifs <;> omega
    obtain ⟨mui2, s2, g1, hne2, g3, _⟩ :=
      mui_list_cache_horizontal consts MENU_ACTION_LEFT action mui1 s1 hp1 hne1
    have hp2 : mui2.categories.selection_ptr ≤ 2 := by
      rw [g3]
      split_ifs <;> omega
    obtain ⟨mui3, s3, k1, _, k3, _⟩ :=
      mui_list_cache_horizontal consts MENU_ACTION_LEFT action mui2 s2 hp2 hne2
    refine ⟨mui1, mui2, mui3, s1, s2, s3, h1, g1, k1, ?_⟩
    rw [k3, g3, h3]
    split_ifs <;> omega

/-- Instance of C29: from tab 0 with a menu stack of one item, with 4 for the value of
`MENU_ACTION_LEFT` and 5 for the action. -/
theorem mui_list_cache_cycles_witness :
    example_mui.categories.selection_ptr ≤ 2 ∧ example_menu_stack ≠ [] ∧
    ∃ (mui1 : mui_handle_t) (menu_stack1 : List menu_stack_item),
      mui_list_cache example_tab_consts 4 (some example_mui)
        menu_list_type.MENU_LIST_HORIZONTAL 5 example_menu_stack
        = some (some mui1, menu_stack1) ∧
      mui1.categories.selection_ptr =
        (if 5 = 4 then (example_mui.categories.selection_ptr + 2) % 3
         else (example_mui.categories.selection_ptr + 1) % 3) ∧
      mui1.categories.selection_ptr ≤ 2 ∧
      mui1.categories.selection_ptr_old = example_mui.categories.selection_ptr :=
  ⟨by decide, by decide,
    (mui_list_cache_cycles example_tab_consts 4 5 example_mui example_menu_stack
      (by decide) (by decide)).1⟩

/-! ## Claims on logging -/

/-- C30: for every tag and message, `RARCH_LOG_V`, and with it `RARCH_LOG`,
`RARCH_LOG_OUTPUT`, `RARCH_WARN` and `RARCH_ERR`, writes nothing to the log file while
verbosity is disabled, and appends the tag, a space and the message to an open log
file while it is enabled; `verbosity_is_enabled` returns true after `verbosity_enable`
and false after `verbosity_disable`, whatever the prior state. -/
theorem RARCH_LOG_V_gated_by_verbosity (env : menu_env) (v : verbosity_t)
    (file_path_str_log_warn : List Char) (tag : Option (List Char)) (msg : List Char) :
    (v.main_verbosity = false →
      RARCH_LOG_V env v tag msg = some v ∧
      RARCH_LOG env v msg = some v ∧
      RARCH_LOG_OUTPUT env v msg = some v ∧
      RARCH_WARN env file_path_str_log_warn v msg = some v ∧
      RARCH_ERR env v msg = some v) ∧
    (∀ fp : List (List Char), v.main_verbosity = true → v.log_file = some fp →
      RARCH_LOG_V env v tag msg
        = some { v with
            log_file := (some (fp ++ [(tag.getD env.file_path_str_log_info) ++ [' '], msg])) } ∧
      RARCH_LOG env v msg
        = some { v with log_file := some (fp ++ [env.file_path_str_log_info ++ [' '], msg]) } ∧
      RARCH_LOG_OUTPUT env v msg
        = some { v with log_file := some (fp ++ [env.file_path_str_log_info ++ [' '], msg]) } ∧
      RARCH_WARN env file_path_str_log_warn v msg
        = some { v with log_file := some (fp ++ [file_path_str_log_warn ++ [' '], msg]) } ∧
      RARCH_ERR env v msg
        = some { v with
            log_file := (some (fp ++ [env.file_path_str_log_error ++ [' '], msg])) }) ∧
    verbosity_is_enabled (verbosity_enable v) = true ∧
    verbosity_is_enabled (verbosity_disable v) = false ∧
    RARCH_LOG_V env (verbosity_disable v) tag msg = some (verbosity_disable v) := by
  refine ⟨?_, ?_, rfl, rfl, ?_⟩
  · intro h
    simp [RARCH_LOG_V, RARCH_LOG, RARCH_LOG_OUTPUT, RARCH_LOG_OUTPUT_V, RARCH_WARN,
      RARCH_WARN_V, RARCH_ERR, RARCH_ERR_V, verbosity_is_enabled, h]
  · intro fp h hfp
    simp [RARCH_LOG_V, RARCH_LOG, RARCH_LOG_OUTPUT, RARCH_LOG_OUTPUT_V, RARCH_WARN,
      RARCH_WARN_V, RARCH_ERR, RARCH_ERR_V, verbosity_is_enabled, h, hfp]
  · simp [RARCH_LOG_V, verbosity_disable]

/-- Instance of C30: the open, empty log file with verbosity enabled receives the
record of the tag "[WARN]" and the message "m". -/
theorem RARCH_LOG_V_gated_by_verbosity_witness :
    example_verbosity.main_verbosity = true ∧ example_verbosity.log_file = some [] ∧
    RARCH_LOG_V example_env example_verbosity (some "[WARN]".toList) "m".toList
      = some { example_verbosity with
          log_file := (some [("[WARN]".toList) ++ [' '], "m".toList]) } ∧
    RARCH_LOG_V example_env (verbosity_disable example_verbosity) (some "[WARN]".toList)
      "m".toList = some (verbosity_disable example_verbosity) :=
  ⟨rfl, rfl,
    ((RARCH_LOG_V_gated_by_verbosity example_env example_verbosity "[WARN]".toList
      (some "[WARN]".toList) "m".toList).2.1 [] rfl rfl).1,
    (RARCH_LOG_V_gated_by_verbosity example_env example_verbosity "[WARN]".toList
      (some "[WARN]".toList) "m".toList).2.2.2.2⟩

/-! ## Claims on the on-screen keyboard -/

/-- An unsigned value below 2^31 keeps its value as an `int`. -/
theorem to_int_small (n : Nat) (h : n < 2147483648) : to_int n = (n : Int) := by
  unfold to_int
  have h1 : n % 4294967296 = n := Nat.mod_eq_of_lt (by omega)
  rw [h1, if_pos h]

/-- A representable `int` value is the result of the operation. -/
theorem int_checked_small (z : Int) (h0 : -2147483648 ≤ z) (h1 : z ≤ 2147483647) :
    int_checked z = some z := by
  unfold int_checked
  rw [if_pos ⟨h0, h1⟩]

/-- Truncation of a non-negative quotient of integers is the integer quotient. -/
theorem double_to_int_div (z : Int) (d : Nat) (hd : 0 < d) (hz : 0 ≤ z)
    (hmax : z / (d : Int) ≤ 2147483647) :
    double_to_int ((z : ℚ) / (d : ℚ)) = some (z / (d : Int)) := by
  unfold double_to_int
  have h0 : (0 : ℚ) ≤ (z : ℚ) / (d : ℚ) :=
    div_nonneg (by exact_mod_cast hz) (by positivity)
  rw [if_pos h0, Rat.floor_intCast_div_natCast]
  have hq : 0 ≤ z / (d : Int) := Int.ediv_nonneg hz (by positivity)
  exact int_checked_small _ (by omega) hmax

/-- The key size for a viewport below 2^31 in both directions. -/
theorem mui_osk_ptr_size (width height : Nat) (hw : width < 2147483648)
    (hh : height < 2147483648) :
    mui_osk_ptr_height height = ((height / 10 : Nat) : Int) ∧
    0 ≤ mui_osk_ptr_width width height ∧
    mui_osk_ptr_width width height ≤ ((width / 11 : Nat) : Int) ∧
    mui_osk_ptr_width width height ≤ mui_osk_ptr_height height := by
  have h1 : mui_osk_ptr_height height = ((height / 10 : Nat) : Int) := by
    unfold mui_osk_ptr_height
    exact to_int_small _ (by omega)
  have h2 : to_int (width / 11) = ((width / 11 : Nat) : Int) := to_int_small _ (by omega)
  refine ⟨h1, ?_, ?_, ?_⟩
  all_goals
    simp only [mui_osk_ptr_width, h1, h2]
    split_ifs <;> omega

/-- The local `line_y` in closed form. -/
theorem mui_osk_line_y_eq (height i : Nat) :
    mui_osk_line_y height i
      = some ((((i / 11 * height) % 4294967296 : Nat) : Int) / 10) := by
  unfold mui_osk_line_y
  have hu : u32 (((i / 11 : Nat) : Int) * (height : Int)) = (i / 11 * height) % 4294967296 := by
    unfold u32
    have : ((i / 11 : Nat) : Int) * (height : Int) = ((i / 11 * height : Nat) : Int) := by
      push_cast
      ring
    rw [this]
    omega
  rw [hu]
  have hcast : (((i / 11 * height) % 4294967296 : Nat) : ℚ) / 10
      = ((((i / 11 * height) % 4294967296 : Nat) : Int) : ℚ) / ((10 : Nat) : ℚ) := by
    push_cast
    rfl
  rw [hcast, double_to_int_div _ 10 (by decide) (by positivity) (by omega)]
  rfl

/-- The local `ptr_x` in closed form. -/
theorem mui_osk_ptr_x_eq (width : Nat) (ptr_width : Int) (i : Nat)
    (h0 : 0 ≤ ptr_width) (h1 : 11 * ptr_width ≤ (width : Int)) (hw : width < 2147483648) :
    mui_osk_ptr_x width ptr_width i
      = some (((width : Int) - 11 * ptr_width) / 2 + ((i % 11 : Nat) : Int) * ptr_width) := by
  unfold mui_osk_ptr_x
  rw [int_checked_small _ (by omega) (by omega)]
  have hc : (0 : Int) ≤ ((i % 11 : Nat) : Int) := by positivity
  have hc10 : ((i % 11 : Nat) : Int) ≤ 10 := by omega
  have hprod0 : 0 ≤ ((i % 11 : Nat) : Int) * ptr_width := mul_nonneg hc h0
  have hprod1 : ((i % 11 : Nat) : Int) * ptr_width ≤ 10 * ptr_width :=
    mul_le_mul_of_nonneg_right hc10 h0
  have hu : ((u32 (((i % 11 : Nat) : Int) * ptr_width) : Nat) : Int)
      = ((i % 11 : Nat) : Int) * ptr_width := by
    unfold u32
    omega
  have hq : ((u32 (((i % 11 : Nat) : Int) * ptr_width) : Nat) : ℚ)
      = ((((i % 11 : Nat) : Int) * ptr_width : Int) : ℚ) := by
    have h := congrArg (Int.cast : Int → ℚ) hu
    rw [Int.cast_natCast] at h
    exact h
  have hsum : (width : ℚ) / 2 - ((11 * ptr_width : Int) : ℚ) / 2
      + ((u32 (((i % 11 : Nat) : Int) * ptr_width) : Nat) : ℚ)
      = ((((width : Int) - 11 * ptr_width + 2 * (((i % 11 : Nat) : Int) * ptr_width) : Int)) : ℚ)
        / ((2 : Nat) : ℚ) := by
    rw [hq]
    push_cast
    ring
  simp only [Option.bind_eq_bind, Option.some_bind]
  rw [hsum, double_to_int_div _ 2 (by decide) (by omega) (by omega)]
  congr 1
  omega

/-- The local `ptr_y` in closed form. -/
theorem mui_osk_ptr_y_eq (height : Nat) (ptr_height line_y : Int)
    (h0 : 0 ≤ ptr_height) (h1 : 0 ≤ line_y)
    (hmax : ((height : Int) + ptr_height) / 2 + line_y ≤ 2147483647) :
    mui_osk_ptr_y height ptr_height line_y
      = some (((height : Int) + ptr_height) / 2 + line_y) := by
  unfold mui_osk_ptr_y
  have hsum : (height : ℚ) / 2 + (ptr_height : ℚ) * (3 / 2) + (line_y : ℚ) - (ptr_height : ℚ)
      = ((((height : Int) + ptr_height + 2 * line_y : Int)) : ℚ) / ((2 : Nat) : ℚ) := by
    push_cast
    ring
  rw [hsum, double_to_int_div _ 2 (by decide) (by omega) (by omega)]
  congr 1
  omega

/-- The test of one key when the two sums are representable. -/
theorem mui_osk_key_hit_eq (x y ptr_x ptr_y ptr_width ptr_height : Int)
    (hx0 : -2147483648 ≤ ptr_x + ptr_width) (hx1 : ptr_x + ptr_width ≤ 2147483647)
    (hy0 : -2147483648 ≤ ptr_y + ptr_height) (hy1 : ptr_y + ptr_height ≤ 2147483647) :
    mui_osk_key_hit x y ptr_x ptr_y ptr_width ptr_height
      = some (decide (ptr_x < x ∧ x < ptr_x + ptr_width ∧
          ptr_y < y ∧ y < ptr_y + ptr_height)) := by
  unfold mui_osk_key_hit
  rw [int_checked_small _ hx0 hx1, int_checked_small _ hy0 hy1]
  by_cases h1 : x > ptr_x
  · by_cases h2 : x < ptr_x + ptr_width
    · by_cases h3 : y > ptr_y
      · simp [h1, h2, h3]
      · simp [h1, h2, h3]
    · simp [h1, h2]
  · simp [h1]

/-- The test of key `i` in closed form, for a viewport below 2^31 in both directions:
the key's rectangle has its left edge at (width − 11·ptr_width)/2 + (i mod 11)·ptr_width
and its top edge at (height + ptr_height)/2 + line_y. -/
theorem mui_osk_key_test_eq (x y : Int) (width height : Nat) (hw : width < 2147483648)
    (hh : height < 2147483648) (i : Nat) :
    mui_osk_key_test x y width height (mui_osk_ptr_width width height)
        (mui_osk_ptr_height height) i
      = some (decide (
          ((width : Int) - 11 * mui_osk_ptr_width width height) / 2
              + ((i % 11 : Nat) : Int) * mui_osk_ptr_width width height < x ∧
          x < ((width : Int) - 11 * mui_osk_ptr_width width height) / 2
              + ((i % 11 : Nat) : Int) * mui_osk_ptr_width width height
              + mui_osk_ptr_width width height ∧
          ((height : Int) + mui_osk_ptr_height height) / 2
              + (((i / 11 * height) % 4294967296 : Nat) : Int) / 10 < y ∧
          y < ((height : Int) + mui_osk_ptr_height height) / 2
              + (((i / 11 * height) % 4294967296 : Nat) : Int) / 10
              + mui_osk_ptr_height height)) := by
  obtain ⟨hph, hpw0, hpw1, hpw2⟩ := mui_osk_ptr_size width height hw hh
  have hc10 : ((i % 11 : Nat) : Int) ≤ 10 := by omega
  have hc0 : (0 : Int) ≤ ((i % 11 : Nat) : Int) := by positivity
  have hprod0 : 0 ≤ ((i % 11 : Nat) : Int) * mui_osk_ptr_width width height :=
    mul_nonneg hc0 hpw0
  have hprod1 : ((i % 11 : Nat) : Int) * mui_osk_ptr_width width height
      ≤ 10 * mui_osk_ptr_width width height :=
    mul_le_mul_of_nonneg_right hc10 hpw0
  have h11 : 11 * mui_osk_ptr_width width height ≤ (width : Int) := by omega
  unfold mui_osk_key_test
  rw [mui_osk_line_y_eq, mui_osk_ptr_x_eq width _ i hpw0 h11 hw]
  simp only [Option.bind_eq_bind, Option.some_bind]
  rw [mui_osk_ptr_y_eq height _ _ (by omega) (by omega) (by omega)]
  simp only [Option.some_bind]
  rw [mui_osk_key_hit_eq _ _ _ _ _ _ (by omega) (by omega) (by omega) (by omega)]

/-- The rectangles of two distinct keys have no point in common, for a viewport whose
width is below 2^31 and whose height is below 2^32 / 3. -/
theorem mui_osk_keys_disjoint (x y : Int) (width height : Nat) (hw : width < 2147483648)
    (hh : height < 1431655766) (i j : Nat) (hi : i < 44) (hj : j < 44) (hij : i ≠ j) :
    ¬ (mui_osk_key_test x y width height (mui_osk_ptr_width width height)
          (mui_osk_ptr_height height) i = some true ∧
       mui_osk_key_test x y width height (mui_osk_ptr_width width height)
          (mui_osk_ptr_height height) j = some true) := by
  obtain ⟨hph, hpw0, hpw1, hpw2⟩ := mui_osk_ptr_size width height hw (by omega)
  rw [mui_osk_key_test_eq x y width height hw (by omega) i,
    mui_osk_key_test_eq x y width height hw (by omega) j]
  simp only [Option.some.injEq, decide_eq_true_eq]
  rintro ⟨⟨a1, a2, a3, a4⟩, ⟨b1, b2, b3, b4⟩⟩
  have hri : i / 11 * height ≤ 3 * height := Nat.mul_le_mul_right _ (by omega)
  have hrj : j / 11 * height ≤ 3 * height := Nat.mul_le_mul_right _ (by omega)
  have hmi : (i / 11 * height) % 4294967296 = i / 11 * height := Nat.mod_eq_of_lt (by omega)
  have hmj : (j / 11 * height) % 4294967296 = j / 11 * height := Nat.mod_eq_of_lt (by omega)
  rw [hmi] at a3 a4
  rw [hmj] at b3 b4
  rw [hph] at a3 a4 b3 b4
  rcases Nat.lt_trichotomy (i / 11) (j / 11) with hr | hr | hr
  · have hstep : (i / 11 + 1) * height ≤ j / 11 * height := Nat.mul_le_mul_right _ hr
    rw [Nat.add_mul, Nat.one_mul] at hstep
    generalize i / 11 * height = A at *
    generalize j / 11 * height = B at *
    omega
  · rcases Nat.lt_trichotomy (i % 11) (j % 11) with hc | hc | hc
    · have hstep : (((i % 11 : Nat) : Int) + 1) * mui_osk_ptr_width width height
          ≤ ((j % 11 : Nat) : Int) * mui_osk_ptr_width width height :=
        mul_le_mul_of_nonneg_right (by omega) hpw0
      rw [add_mul, one_mul] at hstep
      generalize ((i % 11 : Nat) : Int) * mui_osk_ptr_width width height = A at *
      generalize ((j % 11 : Nat) : Int) * mui_osk_ptr_width width height = B at *
      omega
    · omega
    · have hstep : (((j % 11 : Nat) : Int) + 1) * mui_osk_ptr_width width height
          ≤ ((i % 11 : Nat) : Int) * mui_osk_ptr_width width height :=
        mul_le_mul_of_nonneg_right (by omega) hpw0
      rw [add_mul, one_mul] at hstep
      generalize ((i % 11 : Nat) : Int) * mui_osk_ptr_width width height = A at *
      generalize ((j % 11 : Nat) : Int) * mui_osk_ptr_width width height = B at *
      omega
  · have hstep : (j / 11 + 1) * height ≤ i / 11 * height := Nat.mul_le_mul_right _ hr
    rw [Nat.add_mul, Nat.one_mul] at hstep
    generalize i / 11 * height = A at *
    generalize j / 11 * height = B at *
    omega

/-- The loop of `mui_osk_ptr_at_pos` returns the first key whose test succeeds. -/
theorem mui_osk_ptr_at_pos_loop_spec (x y : Int) (width height : Nat)
    (ptr_width ptr_height : Int) (p : Nat → Bool) :
    ∀ l : List Nat,
      (∀ i ∈ l, mui_osk_key_test x y width height ptr_width ptr_height i = some (p i)) →
      mui_osk_ptr_at_pos_loop x y width height ptr_width ptr_height l
        = some (match l.find? p with
          | some i => to_int i
          | none => -1) := by
  intro l
  induction l with
  | nil => intro _; rfl
  | cons a rest ih =>
    intro h
    have ha := h a (List.mem_cons_self _ _)
    have hrest := ih (fun i hi => h i (List.mem_cons_of_mem _ hi))
    cases hp : p a with
    | true =>
      rw [hp] at ha
      simp only [mui_osk_ptr_at_pos_loop, ha, List.find?_cons, hp]
    | false =>
      rw [hp] at ha
      simp only [mui_osk_ptr_at_pos_loop, ha, List.find?_cons, hp, hrest]

/-- C26, counterexample: in a viewport 110 wide and 1431655766 high no operation
overflows in `int`, but the unsigned product `(i / 11)*height` of row 3 wraps to 2, so
line_y is 0 in rows 0 and 3; keys 0 and 33 have the same rectangle, the point
(1, 787410672) lies strictly inside both, and the function returns key 0. -/
theorem mui_osk_ptr_at_pos_overlap_counterexample :
    mui_osk_ptr_width 110 1431655766 = 10 ∧
    mui_osk_ptr_height 1431655766 = 143165576 ∧
    mui_osk_line_y 1431655766 0 = some 0 ∧
    mui_osk_line_y 1431655766 33 = some 0 ∧
    mui_osk_ptr_x 110 10 0 = some 0 ∧
    mui_osk_ptr_x 110 10 33 = some 0 ∧
    mui_osk_ptr_y 1431655766 143165576 0 = some 787410671 ∧
    mui_osk_key_test 1 787410672 110 1431655766 10 143165576 0 = some true ∧
    mui_osk_key_test 1 787410672 110 1431655766 10 143165576 33 = some true ∧
    mui_osk_ptr_at_pos (some example_mui) 1 787410672 110 1431655766 = some 0 := by
  have hpw : mui_osk_ptr_width 110 1431655766 = 10 := by decide
  have hph : mui_osk_ptr_height 1431655766 = 143165576 := by decide
  have ht0 : mui_osk_key_test 1 787410672 110 1431655766 10 143165576 0 = some true := by
    have h := mui_osk_key_test_eq 1 787410672 110 1431655766 (by decide) (by decide) 0
    rw [hpw, hph] at h
    rw [h]
    decide
  have ht33 : mui_osk_key_test 1 787410672 110 1431655766 10 143165576 33 = some true := by
    have h := mui_osk_key_test_eq 1 787410672 110 1431655766 (by decide) (by decide) 33
    rw [hpw, hph] at h
    rw [h]
    decide
  refine ⟨hpw, hph, ?_, ?_, ?_, ?_, ?_, ht0, ht33, ?_⟩
  · rw [mui_osk_line_y_eq]
    decide
  · rw [mui_osk_line_y_eq]
    decide
  · rw [mui_osk_ptr_x_eq 110 10 0 (by decide) (by decide) (by decide)]
    decide
  · rw [mui_osk_ptr_x_eq 110 10 33 (by decide) (by decide) (by decide)]
    decide
  · rw [mui_osk_ptr_y_eq 1431655766 143165576 0 (by decide) (by decide) (by decide)]
    decide
  · have hr : List.range 44 = 0 :: List.range' 1 43 := by decide
    simp only [mui_osk_ptr_at_pos, hpw, hph, hr, mui_osk_ptr_at_pos_loop, ht0]
    decide

/-- C26, amended: for every x and y and every viewport with width below 2^31 and
height below 2^32 / 3, `mui_osk_ptr_at_pos` returns −1 for a null handle and otherwise
either −1 (no key contains the point) or a key index i with 0 ≤ i ≤ 43 such that
(x, y) lies strictly inside key i's rectangle, whose left edge is at
(width − 11·ptr_width)/2 + (i mod 11)·ptr_width and whose top edge is at
(height + ptr_height)/2 + ((i / 11)·height)/10; the rectangles of distinct keys are
disjoint, so the returned key is the only one containing the point. -/
theorem mui_osk_ptr_at_pos_unique_key (mui : mui_handle_t) (x y : Int) (width height : Nat)
    (hw : width < 2147483648) (hh : height < 1431655766) :
    mui_osk_ptr_at_pos none x y width height = some (-1) ∧
    (∀ i : Nat, i < 44 →
      mui_osk_ptr_x width (mui_osk_ptr_width width height) i
        = some (((width : Int) - 11 * mui_osk_ptr_width width height) / 2
            + ((i % 11 : Nat) : Int) * mui_osk_ptr_width width height) ∧
      mui_osk_line_y height i = some ((((i / 11 * height : Nat)) : Int) / 10) ∧
      mui_osk_ptr_y height (mui_osk_ptr_height height) ((((i / 11 * height : Nat)) : Int) / 10)
        = some (((height : Int) + mui_osk_ptr_height height) / 2
            + (((i / 11 * height : Nat)) : Int) / 10) ∧
      mui_osk_key_test x y width height (mui_osk_ptr_width width height)
          (mui_osk_ptr_height height) i
        = some (decide (
            ((width : Int) - 11 * mui_osk_ptr_width width height) / 2
                + ((i % 11 : Nat) : Int) * mui_osk_ptr_width width height < x ∧
            x < ((width : Int) - 11 * mui_osk_ptr_width width height) / 2
                + ((i % 11 : Nat) : Int) * mui_osk_ptr_width width height
                + mui_osk_ptr_width width height ∧
            ((height : Int) + mui_osk_ptr_height height) / 2
                + (((i / 11 * height : Nat)) : Int) / 10 < y ∧
            y < ((height : Int) + mui_osk_ptr_height height) / 2
                + (((i / 11 * height : Nat)) : Int) / 10
                + mui_osk_ptr_height height))) ∧
    (∀ i j : Nat, i < 44 → j < 44 → i ≠ j →
      ¬ (mui_osk_key_test x y width height (mui_osk_ptr_width width height)
            (mui_osk_ptr_height height) i = some true ∧
         mui_osk_key_test x y width height (mui_osk_ptr_width width height)
            (mui_osk_ptr_height height) j = some true)) ∧
    ∃ r : Int, mui_osk_ptr_at_pos (some mui) x y width height = some r ∧
      ((r = -1 ∧ ∀ i : Nat, i < 44 →
          mui_osk_key_test x y width height (mui_osk_ptr_width width height)
            (mui_osk_ptr_height height) i = some false) ∨
       (∃ i : Nat, i < 44 ∧ r = (i : Int) ∧
          mui_osk_key_test x y width height (mui_osk_ptr_width width height)
            (mui_osk_ptr_height height) i = some true ∧
          ∀ j : Nat, j < 44 → j ≠ i →
            mui_osk_key_test x y width height (mui_osk_ptr_width width height)
              (mui_osk_ptr_height height) j = some false)) := by
  have hh2 : height < 2147483648 := by omega
  obtain ⟨hph, hpw0, hpw1, hpw2⟩ := mui_osk_ptr_size width height hw hh2
  have hmod : ∀ i, i < 44 → (i / 11 * height) % 4294967296 = i / 11 * height := by
    intro i hi
    have : i / 11 * height ≤ 3 * height := Nat.mul_le_mul_right _ (by omega)
    exact Nat.mod_eq_of_lt (by omega)
  have htest := fun i => mui_osk_key_test_eq x y width height hw hh2 i
  have hdisj := fun i j hi hj hij =>
    mui_osk_keys_disjoint x y width height hw hh i j hi hj hij
  refine ⟨rfl, ?_, hdisj, ?_⟩
  · intro i hi
    have hline := mui_osk_line_y_eq height i
    have ht := htest i
    rw [hmod i hi] at hline ht
    refine ⟨mui_osk_ptr_x_eq width _ i hpw0 (by omega) hw, hline, ?_, ht⟩
    have hly : (0 : Int) ≤ ((i / 11 * height : Nat) : Int) / 10 := by positivity
    have hbound : i / 11 * height ≤ 3 * height := Nat.mul_le_mul_right _ (by omega)
    exact mui_osk_ptr_y_eq height _ _ (by omega) hly (by omega)
  · have hloop := mui_osk_ptr_at_pos_loop_spec x y width height
      (mui_osk_ptr_width width height) (mui_osk_ptr_height height) _ (List.range 44)
      (fun i _ => htest i)
    have hbool : ∀ (b : Bool) (t : Option Bool), t = some b → b ≠ true → t = some false := by
      intro b t ht hb
      cases b with
      | true => exact absurd rfl hb
      | false => exact ht
    simp only [mui_osk_ptr_at_pos]
    rw [hloop]
    cases hf : (List.range 44).find? _ with
    | none =>
      refine ⟨-1, rfl, Or.inl ⟨rfl, ?_⟩⟩
      intro i hi
      have hnot := List.find?_eq_none.mp hf i (List.mem_range.mpr hi)
      exact hbool _ _ (htest i) (by simpa using hnot)
    | some k =>
      have hk : k < 44 := List.mem_range.mp (List.mem_of_find?_eq_some hf)
      have hpk := List.find?_some hf
      have htk : mui_osk_key_test x y width height (mui_osk_ptr_width width height)
          (mui_osk_ptr_height height) k = some true := by
        rw [htest k]
        exact congrArg some hpk
      refine ⟨to_int k, rfl, Or.inr ⟨k, hk, to_int_small k (by omega), htk, ?_⟩⟩
      intro j hj hjk
      refine hbool _ _ (htest j) ?_
      intro hpj
      apply hdisj j k hj hk hjk
      refine ⟨?_, htk⟩
      rw [htest j]
      exact congrArg some hpj

/-- Instance of C26 amended: a viewport of 1280 by 720 pixels and the point (640, 500). -/
theorem mui_osk_ptr_at_pos_unique_key_witness :
    (1280 : Nat) < 2147483648 ∧ (720 : Nat) < 1431655766 ∧
    mui_osk_ptr_at_pos none 640 500 1280 720 = some (-1) ∧
    ∃ r : Int, mui_osk_ptr_at_pos (some example_mui) 640 500 1280 720 = some r ∧
      ((r = -1 ∧ ∀ i : Nat, i < 44 →
          mui_osk_key_test 640 500 1280 720 (mui_osk_ptr_width 1280 720)
            (mui_osk_ptr_height 720) i = some false) ∨
       (∃ i : Nat, i < 44 ∧ r = (i : Int) ∧
          mui_osk_key_test 640 500 1280 720 (mui_osk_ptr_width 1280 720)
            (mui_osk_ptr_height 720) i = some true ∧
          ∀ j : Nat, j < 44 → j ≠ i →
            mui_osk_key_test 640 500 1280 720 (mui_osk_ptr_width 1280 720)
              (mui_osk_ptr_height 720) j = some false)) :=
  ⟨by decide, by decide,
    (mui_osk_ptr_at_pos_unique_key example_mui 640 500 1280 720 (by decide) (by decide)).1,
    (mui_osk_ptr_at_pos_unique_key example_mui 640 500 1280 720 (by decide) (by decide)).2.2.2⟩

end MaterialUI
